import Mathlib

/-!
# Splunk telemetry and log delivery (`pkg/splunk/splunk.go`)

A shallow embedding of the Splunk hook of the jenkins-library and the properties of its
batching, error handling and token normalisation.

Conventions of the embedding

* A Go `string` is a Lean `String`; a `[]byte` that is only ever converted to a string
  (the response body) is a `String` too, one character standing for one byte.
* A Go `error` is represented by its message text, `nil` by `none`.
* The collaborators that `splunk.go` calls but does not define (the JSON encoder, the HTTP
  client, the file system) are parameters of the functions that use them.
* An `int` is a `Nat`: the batch size is only ever assigned `20000` (or left at the zero
  value), and the sum `i + postMessagesBatchSize` is the batch size itself in the first run
  of the loop and below twice the number of messages in every later one, so nothing is
  negative and nothing overflows.
* A `piperhttp.Response` has its body. A response whose `Body` is nil is a
  `piperhttp.RawResponse` without body; the functions named `…Raw` run on such responses and
  end in an `Outcome`, a return or a panic. On responses that have their body they return
  what the functions without `Raw` return (`tryPostMessagesRaw_raw` and its neighbours).
-/

namespace errors

/-- The function `Wrap(err, message)` of `github.com/pkg/errors`: a `nil` error stays `nil`,
any other error gets the text `message: cause`. -/
def Wrap (err : Option String) (message : String) : Option String :=
  match err with
  | none => none
  | some cause => some (message ++ ": " ++ cause)

/-- The function `Wrapf(err, format, args...)` of `github.com/pkg/errors`, applied to the
already formatted message: it behaves as `Wrap`. -/
def Wrapf (err : Option String) (formatted : String) : Option String :=
  Wrap err formatted

end errors

namespace strings

/-- Go `strings.HasPrefix(s, p)`. -/
def HasPrefix (s p : String) : Bool :=
  p.data.isPrefixOf s.data

end strings

namespace telemetry

/-- Modelled from the spec: `telemetry.BaseData` is declared in `pkg/telemetry`, which is not
among the sources; only the field read by `prepareTelemetry` is kept. -/
structure BaseData where
  StepName : String
  deriving DecidableEq, Repr

/-- Modelled from the spec: `telemetry.CustomData` is declared in `pkg/telemetry`, which is
not among the sources; only the fields read by `prepareTelemetry` are kept. -/
structure CustomData where
  Duration : String
  ErrorCode : String
  ErrorCategory : String
  deriving DecidableEq, Repr

/-- Modelled from the spec: `telemetry.Data` (the "finished telemetry record" handed to `Send`)
is declared in `pkg/telemetry`, which is not among the sources; the fields are those that
`splunk.go` reads. -/
structure Data where
  BaseData : BaseData
  CustomData : CustomData
  PipelineURLHash : String
  BuildURLHash : String
  StageName : String
  deriving DecidableEq, Repr

/-- The promoted field `telemetryData.ErrorCode` of the embedded `CustomData`. -/
def Data.ErrorCode (d : Data) : String :=
  d.CustomData.ErrorCode

end telemetry

namespace log

/-- Modelled from the spec: `log.CollectorHook` (the "in-memory ordered accumulation of log
lines") is declared in `pkg/log`, which is not among the sources; `Msg` stands for
`log.Message`. -/
structure CollectorHook (Msg : Type) where
  Messages : List Msg

end log

namespace piperhttp

/-- Modelled from the spec: `piperhttp.ClientOptions` is declared in `pkg/http`, which is not
among the sources; the fields are the four that `Initialize` sets (the duration in seconds). -/
structure ClientOptions where
  MaxRequestDuration : Nat
  Token : String
  TransportSkipVerification : Bool
  MaxRetries : Int
  deriving DecidableEq, Repr

/-- The body of an HTTP response as a stream: the bytes it delivers and, when the stream
breaks off instead of ending, the error of the read that follows the last byte. -/
structure Body where
  bytes : String
  failure : Option String
  deriving DecidableEq, Repr

/-- The fields of `http.Response` that `splunk.go` looks at. -/
structure Response where
  StatusCode : Nat
  Status : String
  Body : Body
  deriving DecidableEq, Repr

/-- What `Client.SendRequest` returns: no response and an error, or a response together with
an error or `nil`. (The client never returns neither of the two.) -/
inductive Result where
  | noResponse (err : String)
  | response (resp : Response) (err : Option String)
  deriving DecidableEq, Repr

/-- A call of `Client.SendRequest(method, url, body, nil, nil)`. -/
structure Request (E : Type) where
  method : String
  url : String
  body : E

end piperhttp

namespace splunk

/-- The struct `Splunk`. -/
structure Splunk where
  levels : List Nat
  tags : List (String × String)
  splunkClient : piperhttp.ClientOptions
  correlationID : String
  splunkDsn : String
  splunkIndex : String
  sendLogs : Bool
  postMessagesBatchSize : Nat
  deriving DecidableEq, Repr

/-- What a call of `Initialize` leaves behind: the receiver, the secret handed to
`log.RegisterSecret` and the returned error. -/
structure Initialized where
  s : Splunk
  secret : String
  err : Option String
  deriving DecidableEq, Repr

/-- The method `Initialize` (lines 38-63). -/
def Splunk.Initialize (s : Splunk) (correlationID dsn token index : String) (sendLogs : Bool) :
    Initialized :=
  let token := if !strings.HasPrefix token "Splunk " then "Splunk " ++ token else token
  let client : piperhttp.ClientOptions :=
    { MaxRequestDuration := 5
      Token := token
      TransportSkipVerification := true
      MaxRetries := -1 }
  { s := { s with
            splunkClient := client
            splunkDsn := dsn
            splunkIndex := index
            correlationID := correlationID
            postMessagesBatchSize := 20000
            sendLogs := sendLogs }
    secret := token
    err := none }

/-- The function `readCommonPipelineEnvironment` (lines 94-103); `readFile` is
`ioutil.ReadFile`, giving the content of a path or the error. -/
def readCommonPipelineEnvironment (readFile : String → Except String String)
    (filePath : String) : String :=
  match readFile (".pipeline/commonPipelineEnvironment/" ++ filePath) with
  | .error _ => "N/A"
  | .ok contentFile => contentFile

/-- The struct `MonitoringData` (lines 106-120). -/
structure MonitoringData where
  PipelineUrlHash : String
  BuildUrlHash : String
  StageName : String
  StepName : String
  ExitCode : String
  Duration : String
  ErrorCode : String
  ErrorCategory : String
  CorrelationID : String
  CommitHash : String
  Branch : String
  GitOwner : String
  GitRepository : String
  deriving DecidableEq, Repr

/-- The method `prepareTelemetry` (lines 122-139). -/
def Splunk.prepareTelemetry (s : Splunk) (readFile : String → Except String String)
    (telemetryData : telemetry.Data) : MonitoringData :=
  { PipelineUrlHash := telemetryData.PipelineURLHash
    BuildUrlHash := telemetryData.BuildURLHash
    StageName := telemetryData.StageName
    StepName := telemetryData.BaseData.StepName
    ExitCode := telemetryData.CustomData.ErrorCode
    Duration := telemetryData.CustomData.Duration
    ErrorCode := telemetryData.CustomData.ErrorCode
    ErrorCategory := telemetryData.CustomData.ErrorCategory
    CorrelationID := s.correlationID
    CommitHash := readCommonPipelineEnvironment readFile "git/headCommitId"
    Branch := readCommonPipelineEnvironment readFile "git/branch"
    GitOwner := readCommonPipelineEnvironment readFile "github/owner"
    GitRepository := readCommonPipelineEnvironment readFile "github/repository" }

/-- The struct `Event` (lines 141-144). -/
structure Event (Msg : Type) where
  Messages : List Msg
  Telemetry : MonitoringData

/-- The struct `Details` (lines 145-151). -/
structure Details (Msg : Type) where
  Host : String
  Source : String
  SourceType : String
  Index : String
  Event : Event Msg

/-- The error of `json.Marshal(details)`, `none` when it succeeds. The encoder walks the
fields in order and stops at the first value it cannot encode; strings always encode, so only
a message can fail. `marshalErr m` is the encoder's error on the message `m`. -/
def jsonMarshalError {Msg : Type} (marshalErr : Msg → Option String) (details : Details Msg) :
    Option String :=
  details.Event.Messages.findSome? marshalErr

/-- The bytes and the error of `ioutil.ReadAll(io.LimitReader(body, n))`: the first `n` bytes
of the stream; the failure of the stream is met only when it delivers fewer than `n`. -/
def readAllLimited (body : piperhttp.Body) (n : Nat) : String × Option String :=
  (String.mk (body.bytes.data.take n), if body.bytes.length < n then body.failure else none)

/-- What one call of a post function did: the request handed to `SendRequest` (`none` when
the call returned before), whether the response body was read, the line written with
`log.Entry().Infof`, whether the response body was closed, and the returned error. -/
structure PostResult (E : Type) where
  request : Option (piperhttp.Request E)
  bodyRead : Bool
  logged : Option String
  bodyClosed : Bool
  err : Option String

/-- The method `tryPostMessages` (lines 289-334). `transport k` is what `SendRequest` returns
on the call that follows `k` earlier ones; `sent` is the number of earlier calls. -/
def Splunk.tryPostMessages {Msg : Type} (s : Splunk) (marshalErr : Msg → Option String)
    (transport : Nat → piperhttp.Result) (sent : Nat) (telemetryData : MonitoringData)
    (messages : List Msg) : PostResult (Details Msg) :=
  let event : Event Msg := { Messages := messages, Telemetry := telemetryData }
  let details : Details Msg :=
    { Host := s.correlationID
      Source := ""
      SourceType := "_json"
      Index := s.splunkIndex
      Event := event }
  match jsonMarshalError marshalErr details with
  | some err =>
    { request := none, bodyRead := false, logged := none, bodyClosed := false
      err := errors.Wrap (some err) "error while marshalling Splunk message details" }
  | none =>
    let request : piperhttp.Request (Details Msg) :=
      { method := "POST", url := s.splunkDsn, body := details }
    match transport sent with
    | .response resp err =>
      if resp.StatusCode ≠ 200 then
        let read := readAllLimited resp.Body 1000
        let line := resp.Status ++ ": Splunk logging failed - " ++ read.1
        if read.2.isSome then
          { request := some request, bodyRead := true, logged := some line, bodyClosed := false
            err := errors.Wrap read.2 "Error reading response body from Splunk." }
        else
          { request := some request, bodyRead := true, logged := some line, bodyClosed := false
            err := errors.Wrapf err line }
      else if err.isSome then
        { request := some request, bodyRead := false, logged := none, bodyClosed := false
          err := errors.Wrap err "error sending the requests to Splunk" }
      else
        { request := some request, bodyRead := false, logged := none, bodyClosed := true
          err := none }
    | .noResponse err =>
      { request := some request, bodyRead := false, logged := none, bodyClosed := false
        err := errors.Wrap (some err) "error sending the requests to Splunk" }

/-- The slice expression `xs[lo:hi]` for `lo ≤ hi ≤ len(xs)`. -/
def slice {α : Type} (xs : List α) (lo hi : Nat) : List α :=
  (xs.drop lo).take (hi - lo)

/-- What a call of `Send` did and returned: the calls of `tryPostMessages` in order and the
returned error. -/
structure SendResult (Msg : Type) where
  posts : List (PostResult (Details Msg))
  err : Option String

/-- The `for` loop of `Send` (lines 80-89), entered with loop index `i` after `sent` requests.
Each run of the loop body uses one unit of `fuel`; `none` means the fuel did not suffice. -/
def Splunk.sendLoop {Msg : Type} (s : Splunk) (marshalErr : Msg → Option String)
    (transport : Nat → piperhttp.Result) (preparedTelemetryData : MonitoringData)
    (Messages : List Msg) : Nat → Nat → Nat → Option (SendResult Msg)
  | 0, i, _ => if i < Messages.length then none else some { posts := [], err := none }
  | fuel + 1, i, sent =>
    if i < Messages.length then
      let upperBound :=
        if i + s.postMessagesBatchSize > Messages.length then Messages.length
        else i + s.postMessagesBatchSize
      let post := s.tryPostMessages marshalErr transport sent preparedTelemetryData
        (slice Messages i upperBound)
      if post.err.isSome then
        some { posts := [post], err := errors.Wrap post.err "error while sending logs" }
      else
        match s.sendLoop marshalErr transport preparedTelemetryData Messages fuel
            (i + s.postMessagesBatchSize) (if post.request.isSome then sent + 1 else sent) with
        | none => none
        | some rest => some { posts := post :: rest.posts, err := rest.err }
    else some { posts := [], err := none }

/-- The method `Send` (lines 65-92); `fuel` bounds the number of runs of the loop body. -/
def Splunk.Send {Msg : Type} (s : Splunk) (marshalErr : Msg → Option String)
    (transport : Nat → piperhttp.Result) (readFile : String → Except String String)
    (fuel : Nat) (telemetryData : telemetry.Data) (logCollector : log.CollectorHook Msg) :
    Option (SendResult Msg) :=
  let preparedTelemetryData := s.prepareTelemetry readFile telemetryData
  if telemetryData.ErrorCode = "0" ∨ (telemetryData.ErrorCode = "1" ∧ ¬ s.sendLogs = true) then
    let post := s.tryPostMessages marshalErr transport 0 preparedTelemetryData []
    if post.err.isSome then
      some { posts := [post], err := errors.Wrap post.err "error while sending logs" }
    else
      some { posts := [post], err := none }
  else
    s.sendLoop marshalErr transport preparedTelemetryData logCollector.Messages fuel 0 0

/-- The requests that a sequence of post calls handed to the transport, in order. -/
def issued {E : Type} (posts : List (PostResult E)) : List (piperhttp.Request E) :=
  posts.filterMap (fun p => p.request)

/-- The message lists carried by the requests of a `Send`, in the order of the requests. -/
def requestMessages {Msg : Type} (r : SendResult Msg) : List (List Msg) :=
  (issued r.posts).map (fun q => q.body.Event.Messages)

end splunk

namespace splunk

/-- The numbers of messages carried by the requests of a `Send`, in the order of the requests. -/
def requestSizes {Msg : Type} (r : SendResult Msg) : List Nat :=
  (requestMessages r).map List.length

/-! ### Sample inputs -/

/-- A receiver as the package tests set it up: batch size two, logs are shipped. -/
def sampleSplunk : Splunk :=
  { levels := []
    tags := []
    splunkClient :=
      { MaxRequestDuration := 5
        Token := "Splunk 0a1b2c"
        TransportSkipVerification := true
        MaxRetries := -1 }
    correlationID := "build-7"
    splunkDsn := "https://splunk.example/services/collector"
    splunkIndex := "main"
    sendLogs := true
    postMessagesBatchSize := 2 }

/-- The telemetry record of a step that ended with the given error code. -/
def sampleStep (errorCode : String) : telemetry.Data :=
  { BaseData := { StepName := "mavenBuild" }
    CustomData := { Duration := "1200", ErrorCode := errorCode, ErrorCategory := "build" }
    PipelineURLHash := "5f2a"
    BuildURLHash := "9c41"
    StageName := "Build" }

/-- A response with the given status code and text and a readable body. -/
def sampleResponse (code : Nat) (status body : String) : piperhttp.Response :=
  { StatusCode := code, Status := status, Body := { bytes := body, failure := none } }

/-- A collector that answers every request with `200 OK`. -/
def accepting : Nat → piperhttp.Result :=
  fun _ => .response (sampleResponse 200 "200 OK" "") none

/-- A collector that accepts the first `k` requests and refuses every later one with `503`,
which the client reports together with an error. -/
def refusingFrom (k : Nat) : Nat → piperhttp.Result :=
  fun n =>
    if n < k then .response (sampleResponse 200 "200 OK" "") none
    else .response (sampleResponse 503 "503 Service Unavailable" "busy")
      (some "request returned with response 503 Service Unavailable")

/-- A workspace without the files of the common pipeline environment. -/
def noFiles : String → Except String String :=
  fun _ => .error "no such file or directory"

/-- An encoder that accepts every message. -/
def encodable : String → Option String :=
  fun _ => none

end splunk

namespace strings

/-- Go `strings.Split(s, sep)` for a separator of one character: the pieces of `s` between
the occurrences of `sep`, one more than there are occurrences. -/
def Split (s : String) (sep : Char) : List String :=
  (s.data.splitOn sep).map String.mk

end strings

namespace splunk

/-! ### The pipeline status -/

/-- The struct `LogFileEvents` (lines 179-182). `PT` stands for `telemetry.PipelineTelemetry`,
which is declared in `pkg/telemetry` and not among the sources. -/
structure LogFileEvents (PT : Type) where
  Messages : List String
  Telemetry : PT

/-- The struct `DetailsLog` (lines 183-189). -/
structure DetailsLog (PT : Type) where
  Host : String
  Source : String
  SourceType : String
  Index : String
  Event : LogFileEvents PT

/-- The struct `DetailsTelemetry` (lines 191-197). -/
structure DetailsTelemetry (PT : Type) where
  Host : String
  Source : String
  SourceType : String
  Index : String
  Event : PT

/-- The method `postTelemetry` (lines 199-240). `marshalTelemetryErr t` is the error of the
JSON encoder on the pipeline telemetry `t`, the only part of the envelope that is not a
string; `transport` and `sent` are as for `tryPostMessages`. -/
def Splunk.postTelemetry {PT : Type} (s : Splunk) (marshalTelemetryErr : PT → Option String)
    (transport : Nat → piperhttp.Result) (sent : Nat) (telemetryData : PT) :
    PostResult (DetailsTelemetry PT) :=
  let details : DetailsTelemetry PT :=
    { Host := s.correlationID
      Source := ""
      SourceType := "_json"
      Index := s.splunkIndex
      Event := telemetryData }
  match marshalTelemetryErr details.Event with
  | some err =>
    { request := none, bodyRead := false, logged := none, bodyClosed := false
      err := errors.Wrap (some err) "error while marshalling Splunk message details" }
  | none =>
    let request : piperhttp.Request (DetailsTelemetry PT) :=
      { method := "POST", url := s.splunkDsn, body := details }
    match transport sent with
    | .response resp err =>
      if resp.StatusCode ≠ 200 then
        let read := readAllLimited resp.Body 1000
        let line := resp.Status ++ ": Splunk logging failed - " ++ read.1
        if read.2.isSome then
          { request := some request, bodyRead := true, logged := some line, bodyClosed := false
            err := errors.Wrap read.2 "Error reading response body from Splunk." }
        else
          { request := some request, bodyRead := true, logged := some line, bodyClosed := false
            err := errors.Wrapf err line }
      else if err.isSome then
        { request := some request, bodyRead := false, logged := none, bodyClosed := false
          err := errors.Wrap err "error sending the requests to Splunk" }
      else
        { request := some request, bodyRead := false, logged := none, bodyClosed := true
          err := none }
    | .noResponse err =>
      { request := some request, bodyRead := false, logged := none, bodyClosed := false
        err := errors.Wrap (some err) "error sending the requests to Splunk" }

/-- The method `postLogFile` (lines 242-287); the parameters are as for `postTelemetry`. -/
def Splunk.postLogFile {PT : Type} (s : Splunk) (marshalTelemetryErr : PT → Option String)
    (transport : Nat → piperhttp.Result) (sent : Nat) (telemetryData : PT)
    (messages : List String) : PostResult (DetailsLog PT) :=
  let event : LogFileEvents PT := { Messages := messages, Telemetry := telemetryData }
  let details : DetailsLog PT :=
    { Host := s.correlationID
      Source := ""
      SourceType := "txt"
      Index := s.splunkIndex
      Event := event }
  match marshalTelemetryErr details.Event.Telemetry with
  | some err =>
    { request := none, bodyRead := false, logged := none, bodyClosed := false
      err := errors.Wrap (some err) "error while marshalling Splunk message details" }
  | none =>
    let request : piperhttp.Request (DetailsLog PT) :=
      { method := "POST", url := s.splunkDsn, body := details }
    match transport sent with
    | .response resp err =>
      if resp.StatusCode ≠ 200 then
        let read := readAllLimited resp.Body 1000
        let line := resp.Status ++ ": Splunk logging failed - " ++ read.1
        if read.2.isSome then
          { request := some request, bodyRead := true, logged := some line, bodyClosed := false
            err := errors.Wrap read.2 "Error reading response body from Splunk." }
        else
          { request := some request, bodyRead := true, logged := some line, bodyClosed := false
            err := errors.Wrapf err line }
      else if err.isSome then
        { request := some request, bodyRead := false, logged := none, bodyClosed := false
          err := errors.Wrap err "error sending the requests to Splunk" }
      else
        { request := some request, bodyRead := false, logged := none, bodyClosed := true
          err := none }
    | .noResponse err =>
      { request := some request, bodyRead := false, logged := none, bodyClosed := false
        err := errors.Wrap (some err) "error sending the requests to Splunk" }

/-- What the loop of `SendPipelineStatus` did and returned: the calls of `postLogFile` in
order and the returned error. -/
structure LogFileResult (PT : Type) where
  posts : List (PostResult (DetailsLog PT))
  err : Option String

/-- The `for` loop of `SendPipelineStatus` (lines 165-174), entered with loop index `i` after
`sent` requests. Each run of the loop body uses one unit of `fuel`; `none` means the fuel did
not suffice. -/
def Splunk.statusLoop {PT : Type} (s : Splunk) (marshalTelemetryErr : PT → Option String)
    (transport : Nat → piperhttp.Result) (pipelineTelemetryData : PT)
    (splitted : List String) : Nat → Nat → Nat → Option (LogFileResult PT)
  | 0, i, _ => if i < splitted.length then none else some { posts := [], err := none }
  | fuel + 1, i, sent =>
    if i < splitted.length then
      let upperBound :=
        if i + s.postMessagesBatchSize > splitted.length then splitted.length
        else i + s.postMessagesBatchSize
      let post := s.postLogFile marshalTelemetryErr transport sent pipelineTelemetryData
        (slice splitted i upperBound)
      if post.err.isSome then
        some { posts := [post], err := errors.Wrap post.err "error while sending logs" }
      else
        match s.statusLoop marshalTelemetryErr transport pipelineTelemetryData splitted fuel
            (i + s.postMessagesBatchSize) (if post.request.isSome then sent + 1 else sent) with
        | none => none
        | some rest => some { posts := post :: rest.posts, err := rest.err }
    else some { posts := [], err := none }

/-- One post call of `SendPipelineStatus`: of `postTelemetry` or of `postLogFile`. -/
inductive PipelinePost (PT : Type) where
  | telemetry (post : PostResult (DetailsTelemetry PT))
  | logFile (post : PostResult (DetailsLog PT))

/-- What a call of `SendPipelineStatus` did and returned: its post calls in order and the
returned error. -/
structure PipelineStatusResult (PT : Type) where
  posts : List (PipelinePost PT)
  err : Option String

/-- The method `SendPipelineStatus` (lines 153-177); the log file is given as its text and
`fuel` bounds the number of runs of the loop body. The outcome of `postTelemetry` is not
looked at. -/
def Splunk.SendPipelineStatus {PT : Type} (s : Splunk)
    (marshalTelemetryErr : PT → Option String) (transport : Nat → piperhttp.Result)
    (fuel : Nat) (pipelineTelemetryData : PT) (logFile : String) :
    Option (PipelineStatusResult PT) :=
  let readLogFile := logFile
  let splitted := strings.Split readLogFile '\n'
  let telemetryPost := s.postTelemetry marshalTelemetryErr transport 0 pipelineTelemetryData
  if s.sendLogs = true then
    match s.statusLoop marshalTelemetryErr transport pipelineTelemetryData splitted fuel 0
        (if telemetryPost.request.isSome then 1 else 0) with
    | none => none
    | some logs =>
      some { posts := .telemetry telemetryPost :: logs.posts.map .logFile, err := logs.err }
  else
    some { posts := [.telemetry telemetryPost], err := none }

/-- The post calls of `postLogFile` among the post calls of a `SendPipelineStatus`. -/
def logFilePosts {PT : Type} (posts : List (PipelinePost PT)) :
    List (PostResult (DetailsLog PT)) :=
  posts.filterMap (fun p => match p with
    | .logFile post => some post
    | .telemetry _ => none)

/-- The lines that follow the call of `SendRequest`, which are the same in `postTelemetry`
(215-239), `postLogFile` (262-286) and `tryPostMessages` (309-333), as a function of the
request made and of what the transport returned. -/
def afterSendRequest {E : Type} (request : piperhttp.Request E) (result : piperhttp.Result) :
    PostResult E :=
  match result with
  | .response resp err =>
    if resp.StatusCode ≠ 200 then
      let read := readAllLimited resp.Body 1000
      let line := resp.Status ++ ": Splunk logging failed - " ++ read.1
      if read.2.isSome then
        { request := some request, bodyRead := true, logged := some line, bodyClosed := false
          err := errors.Wrap read.2 "Error reading response body from Splunk." }
      else
        { request := some request, bodyRead := true, logged := some line, bodyClosed := false
          err := errors.Wrapf err line }
    else if err.isSome then
      { request := some request, bodyRead := false, logged := none, bodyClosed := false
        err := errors.Wrap err "error sending the requests to Splunk" }
    else
      { request := some request, bodyRead := false, logged := none, bodyClosed := true
        err := none }
  | .noResponse err =>
    { request := some request, bodyRead := false, logged := none, bodyClosed := false
      err := errors.Wrap (some err) "error sending the requests to Splunk" }

/-- The line lists carried by the requests among the given calls of `postLogFile`, in the
order of the requests. -/
def logMessages {PT : Type} (posts : List (PostResult (DetailsLog PT))) : List (List String) :=
  (issued posts).map (fun q => q.body.Event.Messages)

/-! ### More sample inputs -/

/-- A response whose body breaks off after the given bytes with the given read error. -/
def brokenResponse (code : Nat) (status body failure : String) : piperhttp.Response :=
  { StatusCode := code, Status := status, Body := { bytes := body, failure := some failure } }

/-- The telemetry of a pipeline run, as a list of its fields. -/
def samplePipeline : List (String × String) :=
  [("PipelineStatus", "FAILURE"), ("Duration", "73000"), ("Branch", "main")]

/-- An encoder that accepts every pipeline telemetry. -/
def encodablePipeline : List (String × String) → Option String :=
  fun _ => none

end splunk

namespace strings

/-- Go `strings.Join(elems, sep)`: the elements with `sep` between them. -/
def Join (elems : List String) (sep : String) : String :=
  String.mk (List.intercalate sep.data (elems.map String.data))

end strings

namespace json

/-- A JSON text as `encoding/json` writes it for the envelope: strings, arrays and objects,
an object with its keys in the order of writing. -/
inductive Value where
  | string (s : String)
  | array (elems : List Value)
  | object (fields : List (String × Value))

/-- The keys of an object, in order; no keys for a string or an array. -/
def Value.keys : Value → List String
  | .object fields => fields.map (fun f => f.1)
  | _ => []

/-- The value under a key of an object. -/
def Value.get? : Value → String → Option Value
  | .object fields, key => (fields.find? (fun f => f.1 == key)).map (fun f => f.2)
  | _, _ => none

/-- A string field tagged `omitempty`: no key for the empty string. -/
def omitemptyString (key value : String) : List (String × Value) :=
  if value = "" then [] else [(key, .string value)]

/-- A slice field tagged `omitempty`: no key for a slice of length zero. -/
def omitemptySlice (key : String) (elems : List Value) : List (String × Value) :=
  if elems.length = 0 then [] else [(key, .array elems)]

/-- A field of struct type tagged `omitempty`: `encoding/json` holds no struct value to be
empty, so the key is always written. -/
def omitemptyStruct (key : String) (value : Value) : List (String × Value) :=
  [(key, value)]

end json

namespace splunk

/-! ### The serialized envelope -/

/-- What `json.Marshal` writes for a `MonitoringData`, by the tags of lines 107-119. -/
def marshalMonitoringData (m : MonitoringData) : json.Value :=
  .object
    (json.omitemptyString "PipelineUrlHash" m.PipelineUrlHash ++
     json.omitemptyString "BuildUrlHash" m.BuildUrlHash ++
     json.omitemptyString "StageName" m.StageName ++
     json.omitemptyString "StepName" m.StepName ++
     json.omitemptyString "ExitCode" m.ExitCode ++
     json.omitemptyString "Duration" m.Duration ++
     json.omitemptyString "ErrorCode" m.ErrorCode ++
     json.omitemptyString "ErrorCategory" m.ErrorCategory ++
     json.omitemptyString "CorrelationID" m.CorrelationID ++
     json.omitemptyString "CommitHash" m.CommitHash ++
     json.omitemptyString "Branch" m.Branch ++
     json.omitemptyString "GitOwner" m.GitOwner ++
     json.omitemptyString "GitRepository" m.GitRepository)

/-- What `json.Marshal` writes for an `Event`, by the tags of lines 142-143;
`marshalMessage` is what it writes for a `log.Message`. -/
def marshalEvent {Msg : Type} (marshalMessage : Msg → json.Value) (e : Event Msg) :
    json.Value :=
  .object
    (json.omitemptySlice "messages" (e.Messages.map marshalMessage) ++
     json.omitemptyStruct "telemetry" (marshalMonitoringData e.Telemetry))

/-- What `json.Marshal` writes for a `Details`, by the tags of lines 146-150. -/
def marshalDetails {Msg : Type} (marshalMessage : Msg → json.Value) (d : Details Msg) :
    json.Value :=
  .object
    ([("host", .string d.Host)] ++
     json.omitemptyString "source" d.Source ++
     json.omitemptyString "sourcetype" d.SourceType ++
     json.omitemptyString "index" d.Index ++
     json.omitemptyStruct "event" (marshalEvent marshalMessage d.Event))

/-! ### Sample inputs for the envelope -/

/-- The zero value of the struct `Splunk`: `Initialize` was never called. -/
def zeroSplunk : Splunk :=
  { levels := []
    tags := []
    splunkClient :=
      { MaxRequestDuration := 0, Token := "", TransportSkipVerification := false
        MaxRetries := 0 }
    correlationID := ""
    splunkDsn := ""
    splunkIndex := ""
    sendLogs := false
    postMessagesBatchSize := 0 }

/-- The zero value of the struct `MonitoringData`. -/
def zeroMonitoringData : MonitoringData :=
  { PipelineUrlHash := "", BuildUrlHash := "", StageName := "", StepName := "", ExitCode := ""
    Duration := "", ErrorCode := "", ErrorCategory := "", CorrelationID := "", CommitHash := ""
    Branch := "", GitOwner := "", GitRepository := "" }

/-- The zero value of the struct `telemetry.Data`: a record that was never filled in. -/
def zeroData : telemetry.Data :=
  { BaseData := { StepName := "" }
    CustomData := { Duration := "", ErrorCode := "", ErrorCategory := "" }
    PipelineURLHash := ""
    BuildURLHash := ""
    StageName := "" }

/-- A workspace in which the files of the common pipeline environment are there and empty. -/
def emptyFiles : String → Except String String :=
  fun _ => .ok ""

/-- A message written as a JSON string. -/
def marshalText : String → json.Value :=
  fun m => .string m

end splunk

namespace piperhttp

/-- The response as `SendRequest` hands it back: the field `Body` of `http.Response` is an
interface value and may be nil. A `Response` is a `RawResponse` that has its body. -/
structure RawResponse where
  StatusCode : Nat
  Status : String
  Body : Option Body
  deriving DecidableEq, Repr

/-- What `Client.SendRequest` returns when the body of the response may be missing. -/
inductive RawResult where
  | noResponse (err : String)
  | response (resp : RawResponse) (err : Option String)
  deriving DecidableEq, Repr

/-- A result whose response has its body, as a raw result. -/
def Result.raw : Result → RawResult
  | .noResponse err => .noResponse err
  | .response resp err =>
    .response { StatusCode := resp.StatusCode, Status := resp.Status, Body := some resp.Body }
      err

end piperhttp

namespace splunk

/-! ### Responses without body -/

/-- How a call ends: it returns, or it panics and returns nothing. -/
inductive Outcome (α : Type) where
  | returned (value : α)
  | panicked (reason : String)

/-- Whether the call panicked. -/
def Outcome.panics {α : Type} : Outcome α → Bool
  | .returned _ => false
  | .panicked _ => true

/-- What the call returned, if it returned. -/
def Outcome.value? {α : Type} : Outcome α → Option α
  | .returned value => some value
  | .panicked _ => none

/-- The runtime error of a method call on a nil interface value. -/
def nilDereference : String :=
  "runtime error: invalid memory address or nil pointer dereference"

/-- The lines that follow the call of `SendRequest` in `postTelemetry` (215-239),
`postLogFile` (262-286) and `tryPostMessages` (309-333), for a response whose body may be
nil. The code tests `resp != nil` and never `resp.Body`: with a status other than 200
`ioutil.ReadAll` reads from the nil body behind `io.LimitReader` and panics, and with status
200 and no error the deferred `resp.Body.Close()` panics. -/
def afterSendRequestRaw {E : Type} (request : piperhttp.Request E)
    (result : piperhttp.RawResult) : Outcome (PostResult E) :=
  match result with
  | .response resp err =>
    if resp.StatusCode ≠ 200 then
      match resp.Body with
      | none => .panicked nilDereference
      | some body =>
        let read := readAllLimited body 1000
        let line := resp.Status ++ ": Splunk logging failed - " ++ read.1
        if read.2.isSome then
          .returned
            { request := some request, bodyRead := true, logged := some line
              bodyClosed := false
              err := errors.Wrap read.2 "Error reading response body from Splunk." }
        else
          .returned
            { request := some request, bodyRead := true, logged := some line
              bodyClosed := false
              err := errors.Wrapf err line }
    else if err.isSome then
      .returned
        { request := some request, bodyRead := false, logged := none, bodyClosed := false
          err := errors.Wrap err "error sending the requests to Splunk" }
    else
      match resp.Body with
      | none => .panicked nilDereference
      | some _ =>
        .returned
          { request := some request, bodyRead := false, logged := none, bodyClosed := true
            err := none }
  | .noResponse err =>
    .returned
      { request := some request, bodyRead := false, logged := none, bodyClosed := false
        err := errors.Wrap (some err) "error sending the requests to Splunk" }

/-- The method `tryPostMessages` (lines 289-334) on a transport whose responses may lack the
body: lines 291-305 as in `tryPostMessages`, lines 307-333 as `afterSendRequestRaw`. -/
def Splunk.tryPostMessagesRaw {Msg : Type} (s : Splunk) (marshalErr : Msg → Option String)
    (transport : Nat → piperhttp.RawResult) (sent : Nat) (telemetryData : MonitoringData)
    (messages : List Msg) : Outcome (PostResult (Details Msg)) :=
  let event : Event Msg := { Messages := messages, Telemetry := telemetryData }
  let details : Details Msg :=
    { Host := s.correlationID
      Source := ""
      SourceType := "_json"
      Index := s.splunkIndex
      Event := event }
  match jsonMarshalError marshalErr details with
  | some err =>
    .returned
      { request := none, bodyRead := false, logged := none, bodyClosed := false
        err := errors.Wrap (some err) "error while marshalling Splunk message details" }
  | none =>
    afterSendRequestRaw { method := "POST", url := s.splunkDsn, body := details }
      (transport sent)

/-- The method `postTelemetry` (lines 199-240) on a transport whose responses may lack the
body: lines 201-211 as in `postTelemetry`, lines 213-239 as `afterSendRequestRaw`. -/
def Splunk.postTelemetryRaw {PT : Type} (s : Splunk)
    (marshalTelemetryErr : PT → Option String) (transport : Nat → piperhttp.RawResult)
    (sent : Nat) (telemetryData : PT) : Outcome (PostResult (DetailsTelemetry PT)) :=
  let details : DetailsTelemetry PT :=
    { Host := s.correlationID
      Source := ""
      SourceType := "_json"
      Index := s.splunkIndex
      Event := telemetryData }
  match marshalTelemetryErr details.Event with
  | some err =>
    .returned
      { request := none, bodyRead := false, logged := none, bodyClosed := false
        err := errors.Wrap (some err) "error while marshalling Splunk message details" }
  | none =>
    afterSendRequestRaw { method := "POST", url := s.splunkDsn, body := details }
      (transport sent)

/-- The method `postLogFile` (lines 242-287) on a transport whose responses may lack the body:
lines 244-258 as in `postLogFile`, lines 260-286 as `afterSendRequestRaw`. -/
def Splunk.postLogFileRaw {PT : Type} (s : Splunk) (marshalTelemetryErr : PT → Option String)
    (transport : Nat → piperhttp.RawResult) (sent : Nat) (telemetryData : PT)
    (messages : List String) : Outcome (PostResult (DetailsLog PT)) :=
  let event : LogFileEvents PT := { Messages := messages, Telemetry := telemetryData }
  let details : DetailsLog PT :=
    { Host := s.correlationID
      Source := ""
      SourceType := "txt"
      Index := s.splunkIndex
      Event := event }
  match marshalTelemetryErr details.Event.Telemetry with
  | some err =>
    .returned
      { request := none, bodyRead := false, logged := none, bodyClosed := false
        err := errors.Wrap (some err) "error while marshalling Splunk message details" }
  | none =>
    afterSendRequestRaw { method := "POST", url := s.splunkDsn, body := details }
      (transport sent)

/-- The `for` loop of `SendPipelineStatus` (lines 165-174) on a transport whose responses may
lack the body: a panic of `postLogFile` ends the loop and is passed on. -/
def Splunk.statusLoopRaw {PT : Type} (s : Splunk) (marshalTelemetryErr : PT → Option String)
    (transport : Nat → piperhttp.RawResult) (pipelineTelemetryData : PT)
    (splitted : List String) : Nat → Nat → Nat → Option (Outcome (LogFileResult PT))
  | 0, i, _ =>
    if i < splitted.length then none else some (.returned { posts := [], err := none })
  | fuel + 1, i, sent =>
    if i < splitted.length then
      let upperBound :=
        if i + s.postMessagesBatchSize > splitted.length then splitted.length
        else i + s.postMessagesBatchSize
      match s.postLogFileRaw marshalTelemetryErr transport sent pipelineTelemetryData
          (slice splitted i upperBound) with
      | .panicked reason => some (.panicked reason)
      | .returned post =>
        if post.err.isSome then
          some (.returned
            { posts := [post], err := errors.Wrap post.err "error while sending logs" })
        else
          match s.statusLoopRaw marshalTelemetryErr transport pipelineTelemetryData splitted
              fuel (i + s.postMessagesBatchSize)
              (if post.request.isSome then sent + 1 else sent) with
          | none => none
          | some (.panicked reason) => some (.panicked reason)
          | some (.returned rest) =>
            some (.returned { posts := post :: rest.posts, err := rest.err })
    else some (.returned { posts := [], err := none })

/-- The method `SendPipelineStatus` (lines 153-177) on a transport whose responses may lack
the body. The error that `postTelemetry` returns is not looked at; a panic of `postTelemetry`
or of the loop is a panic of `SendPipelineStatus`, which recovers from nothing. -/
def Splunk.SendPipelineStatusRaw {PT : Type} (s : Splunk)
    (marshalTelemetryErr : PT → Option String) (transport : Nat → piperhttp.RawResult)
    (fuel : Nat) (pipelineTelemetryData : PT) (logFile : String) :
    Option (Outcome (PipelineStatusResult PT)) :=
  let readLogFile := logFile
  let splitted := strings.Split readLogFile '\n'
  match s.postTelemetryRaw marshalTelemetryErr transport 0 pipelineTelemetryData with
  | .panicked reason => some (.panicked reason)
  | .returned telemetryPost =>
    if s.sendLogs = true then
      match s.statusLoopRaw marshalTelemetryErr transport pipelineTelemetryData splitted fuel 0
          (if telemetryPost.request.isSome then 1 else 0) with
      | none => none
      | some (.panicked reason) => some (.panicked reason)
      | some (.returned logs) =>
        some (.returned
          { posts := .telemetry telemetryPost :: logs.posts.map .logFile, err := logs.err })
    else
      some (.returned { posts := [.telemetry telemetryPost], err := none })

/-! ### Requests and their outcomes -/

/-- The post calls that handed a request to the transport, in order: the requests issued,
each with what its call did and returned. -/
def issuedPosts {E : Type} (posts : List (PostResult E)) : List (PostResult E) :=
  posts.filter (fun p => p.request.isSome)

/-! ### Sample inputs for responses without body -/

/-- An encoder that accepts every message but the given one. -/
def rejecting (bad : String) : String → Option String :=
  fun m => if m = bad then some "json: unsupported value" else none

/-- A client that cannot build its request, the destination being no URL: it hands back a
response without status and without body, together with the error. -/
def unbuildable : Nat → piperhttp.RawResult :=
  fun _ =>
    .response { StatusCode := 0, Status := "", Body := none }
      (some "error creating POST request to ::not a url::")

end splunk

/-! ## Auxiliary lemmas -/

namespace splunk

section general
variable {Msg : Type}

theorem wrap_eq_none (err : Option String) (message : String) :
    errors.Wrap err message = none ↔ err = none := by
  cases err <;> simp [errors.Wrap]

/-- A post call that hands a request to the transport hands over exactly its messages. -/
theorem tryPostMessages_request (s : Splunk) (marshalErr : Msg → Option String)
    (transport : Nat → piperhttp.Result) (sent : Nat) (tel : MonitoringData)
    (messages : List Msg) (q : piperhttp.Request (Details Msg))
    (h : (s.tryPostMessages marshalErr transport sent tel messages).request = some q) :
    q.body.Event.Messages = messages := by
  unfold Splunk.tryPostMessages at h
  simp only at h
  split at h
  · simp at h
  · split at h
    · split at h
      · split at h <;> (simp at h; subst h; rfl)
      · split at h <;> (simp at h; subst h; rfl)
    · simp at h; subst h; rfl

/-- A post call that returns without error has handed a request to the transport. -/
theorem tryPostMessages_ok_request (s : Splunk) (marshalErr : Msg → Option String)
    (transport : Nat → piperhttp.Result) (sent : Nat) (tel : MonitoringData)
    (messages : List Msg)
    (h : (s.tryPostMessages marshalErr transport sent tel messages).err = none) :
    (s.tryPostMessages marshalErr transport sent tel messages).request.isSome = true := by
  unfold Splunk.tryPostMessages at h ⊢
  simp only at h ⊢
  split
  · rename_i e he
    rw [he] at h
    simp [errors.Wrap] at h
  · split
    · split
      · split <;> rfl
      · split <;> rfl
    · rfl

/-- Marshalling an envelope without messages cannot fail, so the request is handed over. -/
theorem tryPostMessages_nil_request (s : Splunk) (marshalErr : Msg → Option String)
    (transport : Nat → piperhttp.Result) (sent : Nat) (tel : MonitoringData) :
    ∃ q, (s.tryPostMessages marshalErr transport sent tel []).request = some q := by
  unfold Splunk.tryPostMessages
  simp only [jsonMarshalError, List.findSome?_nil]
  split
  · split
    · split <;> exact ⟨_, rfl⟩
    · split <;> exact ⟨_, rfl⟩
  · exact ⟨_, rfl⟩

end general

end splunk

namespace splunk

section loop
variable {Msg : Type}

theorem slice_upperBound {α : Type} (xs : List α) (i B : Nat) :
    slice xs i (if i + B > xs.length then xs.length else i + B) = (xs.drop i).take B := by
  unfold slice
  split
  · rename_i hgt
    rw [List.take_of_length_le (by simp), List.take_of_length_le (by simp; omega)]
  · simp

theorem take_append_drop_add {α : Type} (xs : List α) (i B : Nat) :
    (xs.drop i).take B ++ xs.drop (i + B) = xs.drop i := by
  have h : xs.drop (i + B) = (xs.drop i).drop B := by
    simp [List.drop_drop, Nat.add_comm]
  rw [h, List.take_append_drop]

/-- The loop is over once the index has reached the number of messages. -/
theorem sendLoop_done (s : Splunk) (marshalErr : Msg → Option String)
    (transport : Nat → piperhttp.Result) (tel : MonitoringData) (Messages : List Msg)
    (fuel i sent : Nat) (h : Messages.length ≤ i) :
    s.sendLoop marshalErr transport tel Messages fuel i sent =
      some { posts := [], err := none } := by
  cases fuel <;> simp [Splunk.sendLoop, Nat.not_lt.mpr h]

/-- One run of the loop body, with the slice written as a batch. -/
theorem sendLoop_step (s : Splunk) (marshalErr : Msg → Option String)
    (transport : Nat → piperhttp.Result) (tel : MonitoringData) (Messages : List Msg)
    (fuel i sent : Nat) (h : i < Messages.length) :
    s.sendLoop marshalErr transport tel Messages (fuel + 1) i sent =
      if (s.tryPostMessages marshalErr transport sent tel
          ((Messages.drop i).take s.postMessagesBatchSize)).err.isSome then
        some { posts := [s.tryPostMessages marshalErr transport sent tel
                  ((Messages.drop i).take s.postMessagesBatchSize)]
               err := errors.Wrap (s.tryPostMessages marshalErr transport sent tel
                  ((Messages.drop i).take s.postMessagesBatchSize)).err
                  "error while sending logs" }
      else
        (s.sendLoop marshalErr transport tel Messages fuel (i + s.postMessagesBatchSize)
            (sent + 1)).map
          (fun rest => { posts := s.tryPostMessages marshalErr transport sent tel
                            ((Messages.drop i).take s.postMessagesBatchSize) :: rest.posts
                         err := rest.err }) := by
  rw [Splunk.sendLoop]
  simp only [h, if_true, slice_upperBound]
  split
  · rfl
  · rename_i hne
    have hok := tryPostMessages_ok_request s marshalErr transport sent tel
      ((Messages.drop i).take s.postMessagesBatchSize) (by simpa using hne)
    rw [hok]
    simp only [if_true]
    cases s.sendLoop marshalErr transport tel Messages fuel (i + s.postMessagesBatchSize)
      (sent + 1) <;> rfl

end loop

end splunk

namespace splunk

section run
variable {Msg : Type}

/-- With a positive batch size the loop ends within one run of the body per message. -/
theorem sendLoop_terminates (s : Splunk) (marshalErr : Msg → Option String)
    (transport : Nat → piperhttp.Result) (tel : MonitoringData) (Messages : List Msg)
    (hB : 0 < s.postMessagesBatchSize) (fuel : Nat) :
    ∀ i sent, Messages.length - i ≤ fuel →
      ∃ r, s.sendLoop marshalErr transport tel Messages fuel i sent = some r := by
  induction fuel with
  | zero =>
    intro i sent h
    exact ⟨_, sendLoop_done s marshalErr transport tel Messages 0 i sent (by omega)⟩
  | succ fuel ih =>
    intro i sent h
    by_cases hi : i < Messages.length
    · rw [sendLoop_step s marshalErr transport tel Messages fuel i sent hi]
      split
      · exact ⟨_, rfl⟩
      · obtain ⟨rest, hrest⟩ := ih (i + s.postMessagesBatchSize) (sent + 1) (by omega)
        rw [hrest]
        exact ⟨_, rfl⟩
    · exact ⟨_, sendLoop_done s marshalErr transport tel Messages _ i sent (by omega)⟩

/-- The loop returns `nil` exactly when every post call it made returned `nil`. -/
theorem sendLoop_err_none_iff (s : Splunk) (marshalErr : Msg → Option String)
    (transport : Nat → piperhttp.Result) (tel : MonitoringData) (Messages : List Msg)
    (fuel : Nat) :
    ∀ i sent r, s.sendLoop marshalErr transport tel Messages fuel i sent = some r →
      (r.err = none ↔ ∀ p ∈ r.posts, p.err = none) := by
  induction fuel with
  | zero =>
    intro i sent r h
    by_cases hi : i < Messages.length
    · simp [Splunk.sendLoop, hi] at h
    · rw [sendLoop_done s marshalErr transport tel Messages 0 i sent (by omega)] at h
      cases h
      simp
  | succ fuel ih =>
    intro i sent r h
    by_cases hi : i < Messages.length
    · rw [sendLoop_step s marshalErr transport tel Messages fuel i sent hi] at h
      split at h
      · rename_i herr
        cases h
        simp only [wrap_eq_none, List.mem_singleton, forall_eq]
      · rename_i hok
        cases hrest : s.sendLoop marshalErr transport tel Messages fuel
            (i + s.postMessagesBatchSize) (sent + 1) with
        | none => rw [hrest] at h; simp at h
        | some rest =>
          rw [hrest] at h
          simp only [Option.map_some', Option.some.injEq] at h
          subst h
          have := ih _ _ rest hrest
          simp only [List.mem_cons, forall_eq_or_imp]
          rw [this]
          simp only [Option.not_isSome_iff_eq_none] at hok
          simp [hok]
    · rw [sendLoop_done s marshalErr transport tel Messages _ i sent (by omega)] at h
      cases h
      simp

/-- When every post call of the loop succeeded, the requests carry the rest of the messages
from the loop index on, in order. -/
theorem sendLoop_join (s : Splunk) (marshalErr : Msg → Option String)
    (transport : Nat → piperhttp.Result) (tel : MonitoringData) (Messages : List Msg)
    (fuel : Nat) :
    ∀ i sent r, s.sendLoop marshalErr transport tel Messages fuel i sent = some r →
      (∀ p ∈ r.posts, p.err = none) → (requestMessages r).flatten = Messages.drop i := by
  induction fuel with
  | zero =>
    intro i sent r h _
    by_cases hi : i < Messages.length
    · simp [Splunk.sendLoop, hi] at h
    · rw [sendLoop_done s marshalErr transport tel Messages 0 i sent (by omega)] at h
      cases h
      simp [requestMessages, issued, List.drop_of_length_le (Nat.not_lt.mp hi)]
  | succ fuel ih =>
    intro i sent r h hall
    by_cases hi : i < Messages.length
    · rw [sendLoop_step s marshalErr transport tel Messages fuel i sent hi] at h
      split at h
      · rename_i herr
        cases h
        have := hall _ (List.mem_singleton.mpr rfl)
        simp [this] at herr
      · rename_i hok
        cases hrest : s.sendLoop marshalErr transport tel Messages fuel
            (i + s.postMessagesBatchSize) (sent + 1) with
        | none => rw [hrest] at h; simp at h
        | some rest =>
          rw [hrest] at h
          simp only [Option.map_some', Option.some.injEq] at h
          subst h
          have hrestok : ∀ p ∈ rest.posts, p.err = none :=
            fun p hp => hall p (List.mem_cons_of_mem _ hp)
          have hjoin := ih _ _ rest hrest hrestok
          simp only [Option.not_isSome_iff_eq_none] at hok
          have hreq := tryPostMessages_ok_request s marshalErr transport sent tel _ hok
          obtain ⟨q, hq⟩ := Option.isSome_iff_exists.mp hreq
          have hmsg := tryPostMessages_request s marshalErr transport sent tel _ q hq
          simp only [requestMessages, issued, List.filterMap_cons, hq, List.map_cons,
            List.flatten_cons, hmsg]
          simp only [requestMessages, issued] at hjoin
          rw [hjoin, take_append_drop_add]
    · rw [sendLoop_done s marshalErr transport tel Messages _ i sent (by omega)] at h
      cases h
      simp [requestMessages, issued, List.drop_of_length_le (Nat.not_lt.mp hi)]

end run

end splunk

namespace splunk

section send
variable {Msg : Type}

/-- On the log-shipping path `Send` is its loop, started at index zero. -/
theorem send_logPath (s : Splunk) (marshalErr : Msg → Option String)
    (transport : Nat → piperhttp.Result) (readFile : String → Except String String)
    (fuel : Nat) (td : telemetry.Data) (lc : log.CollectorHook Msg)
    (hpath : ¬ (td.ErrorCode = "0" ∨ (td.ErrorCode = "1" ∧ ¬ s.sendLogs = true))) :
    s.Send marshalErr transport readFile fuel td lc =
      s.sendLoop marshalErr transport (s.prepareTelemetry readFile td) lc.Messages fuel 0 0 := by
  unfold Splunk.Send
  simp only [if_neg hpath]

/-- On the telemetry-only path `Send` makes one post call, without messages. -/
theorem send_telemetryOnly (s : Splunk) (marshalErr : Msg → Option String)
    (transport : Nat → piperhttp.Result) (readFile : String → Except String String)
    (fuel : Nat) (td : telemetry.Data) (lc : log.CollectorHook Msg)
    (hpath : td.ErrorCode = "0" ∨ (td.ErrorCode = "1" ∧ ¬ s.sendLogs = true)) :
    s.Send marshalErr transport readFile fuel td lc =
      some { posts := [s.tryPostMessages marshalErr transport 0
                        (s.prepareTelemetry readFile td) []]
             err := errors.Wrap (s.tryPostMessages marshalErr transport 0
                        (s.prepareTelemetry readFile td) []).err "error while sending logs" } := by
  unfold Splunk.Send
  simp only [if_pos hpath]
  split
  · rfl
  · rename_i h
    simp only [Option.not_isSome_iff_eq_none] at h
    simp [h, errors.Wrap]

/-- The requests of a telemetry-only `Send`: one, with an empty message list. -/
theorem send_telemetryOnly_requests (s : Splunk) (marshalErr : Msg → Option String)
    (transport : Nat → piperhttp.Result) (readFile : String → Except String String)
    (fuel : Nat) (td : telemetry.Data) (lc : log.CollectorHook Msg)
    (hpath : td.ErrorCode = "0" ∨ (td.ErrorCode = "1" ∧ ¬ s.sendLogs = true)) :
    ∃ r, s.Send marshalErr transport readFile fuel td lc = some r ∧
      (issued r.posts).length = 1 ∧ requestMessages r = [[]] := by
  refine ⟨_, send_telemetryOnly s marshalErr transport readFile fuel td lc hpath, ?_⟩
  obtain ⟨q, hq⟩ := tryPostMessages_nil_request s marshalErr transport 0
    (s.prepareTelemetry readFile td)
  have hm := tryPostMessages_request s marshalErr transport 0 _ _ q hq
  simp [requestMessages, issued, hq, hm]

/-- A `Send` that returned, returned `nil` exactly when all its post calls returned `nil`. -/
theorem send_err_none_iff (s : Splunk) (marshalErr : Msg → Option String)
    (transport : Nat → piperhttp.Result) (readFile : String → Except String String)
    (fuel : Nat) (td : telemetry.Data) (lc : log.CollectorHook Msg) (r : SendResult Msg)
    (h : s.Send marshalErr transport readFile fuel td lc = some r) :
    r.err = none ↔ ∀ p ∈ r.posts, p.err = none := by
  by_cases hpath : td.ErrorCode = "0" ∨ (td.ErrorCode = "1" ∧ ¬ s.sendLogs = true)
  · rw [send_telemetryOnly s marshalErr transport readFile fuel td lc hpath] at h
    cases h
    simp only [wrap_eq_none, List.mem_singleton, forall_eq]
  · rw [send_logPath s marshalErr transport readFile fuel td lc hpath] at h
    exact sendLoop_err_none_iff s marshalErr transport _ _ fuel 0 0 r h

/-- With a positive batch size `Send` returns, given one unit of fuel per message. -/
theorem send_terminates (s : Splunk) (marshalErr : Msg → Option String)
    (transport : Nat → piperhttp.Result) (readFile : String → Except String String)
    (fuel : Nat) (td : telemetry.Data) (lc : log.CollectorHook Msg)
    (hB : 0 < s.postMessagesBatchSize) (hfuel : lc.Messages.length ≤ fuel) :
    ∃ r, s.Send marshalErr transport readFile fuel td lc = some r := by
  by_cases hpath : td.ErrorCode = "0" ∨ (td.ErrorCode = "1" ∧ ¬ s.sendLogs = true)
  · exact ⟨_, send_telemetryOnly s marshalErr transport readFile fuel td lc hpath⟩
  · rw [send_logPath s marshalErr transport readFile fuel td lc hpath]
    exact sendLoop_terminates s marshalErr transport _ _ hB fuel 0 0 (by omega)

end send

end splunk

namespace splunk

section counting
variable {Msg : Type}

theorem ceil_step (d B : Nat) (hB : 0 < B) (hd : 0 < d) :
    (d + B - 1) / B = (d - B + B - 1) / B + 1 := by
  by_cases h : B ≤ d
  · have h1 : d + B - 1 = (d - B + B - 1) + B := by omega
    rw [h1, Nat.add_div_right _ hB]
  · have h1 : d - B + B - 1 = B - 1 := by omega
    rw [h1, Nat.div_eq_of_lt (by omega : B - 1 < B)]
    exact Nat.div_eq_of_lt_le (by omega) (by omega)

/-- The integer formula for the rounded-up quotient. -/
theorem ceil_formula (N B : Nat) (hB : 0 < B) : ⌈(N : ℚ) / (B : ℚ)⌉₊ = (N + B - 1) / B := by
  have hBq : (0 : ℚ) < (B : ℚ) := by exact_mod_cast hB
  apply eq_of_forall_ge_iff
  intro k
  rw [Nat.ceil_le, div_le_iff₀ hBq, ← Nat.lt_succ_iff, Nat.div_lt_iff_lt_mul hB, Nat.succ_mul]
  constructor
  · intro h
    have h2 : N ≤ k * B := by exact_mod_cast h
    omega
  · intro h
    have h2 : N ≤ k * B := by omega
    exact_mod_cast h2

/-- When every post call of the loop succeeded, the number of requests is the number of
messages from the loop index on, divided by the batch size and rounded up. -/
theorem sendLoop_count (s : Splunk) (marshalErr : Msg → Option String)
    (transport : Nat → piperhttp.Result) (tel : MonitoringData) (Messages : List Msg)
    (hB : 0 < s.postMessagesBatchSize) (fuel : Nat) :
    ∀ i sent r, s.sendLoop marshalErr transport tel Messages fuel i sent = some r →
      (∀ p ∈ r.posts, p.err = none) →
      (issued r.posts).length =
        (Messages.length - i + s.postMessagesBatchSize - 1) / s.postMessagesBatchSize := by
  have hzero : ∀ i, Messages.length ≤ i →
      (Messages.length - i + s.postMessagesBatchSize - 1) / s.postMessagesBatchSize = 0 := by
    intro i hi
    exact Nat.div_eq_of_lt (by omega)
  induction fuel with
  | zero =>
    intro i sent r h _
    by_cases hi : i < Messages.length
    · simp [Splunk.sendLoop, hi] at h
    · rw [sendLoop_done s marshalErr transport tel Messages 0 i sent (by omega)] at h
      cases h
      simp [issued, hzero i (by omega)]
  | succ fuel ih =>
    intro i sent r h hall
    by_cases hi : i < Messages.length
    · rw [sendLoop_step s marshalErr transport tel Messages fuel i sent hi] at h
      split at h
      · rename_i herr
        cases h
        have := hall _ (List.mem_singleton.mpr rfl)
        simp [this] at herr
      · rename_i hok
        cases hrest : s.sendLoop marshalErr transport tel Messages fuel
            (i + s.postMessagesBatchSize) (sent + 1) with
        | none => rw [hrest] at h; simp at h
        | some rest =>
          rw [hrest] at h
          simp only [Option.map_some', Option.some.injEq] at h
          subst h
          have hrestok : ∀ p ∈ rest.posts, p.err = none :=
            fun p hp => hall p (List.mem_cons_of_mem _ hp)
          have hcount := ih _ _ rest hrest hrestok
          simp only [Option.not_isSome_iff_eq_none] at hok
          have hreq := tryPostMessages_ok_request s marshalErr transport sent tel _ hok
          obtain ⟨q, hq⟩ := Option.isSome_iff_exists.mp hreq
          simp only [issued, List.filterMap_cons, hq, List.length_cons]
          simp only [issued] at hcount
          rw [hcount, ceil_step (Messages.length - i) _ hB (by omega)]
          have : Messages.length - (i + s.postMessagesBatchSize) =
              Messages.length - i - s.postMessagesBatchSize := by omega
          rw [this]
    · rw [sendLoop_done s marshalErr transport tel Messages _ i sent (by omega)] at h
      cases h
      simp [issued, hzero i (by omega)]

end counting

end splunk

namespace splunk

section sizes
variable {Msg : Type}

theorem last_size (d B : Nat) (hd : 0 < d) (hle : d ≤ B) :
    d = if d % B = 0 then B else d % B := by
  by_cases h : d = B
  · subst h; simp
  · have hlt : d < B := by omega
    rw [Nat.mod_eq_of_lt hlt, if_neg (by omega)]

theorem later_size (d B : Nat) (hle : B ≤ d) :
    (if (d - B) % B = 0 then B else (d - B) % B) = if d % B = 0 then B else d % B := by
  have h : d % B = (d - B) % B := by
    conv_lhs => rw [show d = d - B + B by omega]
    exact Nat.add_mod_right _ _
  rw [h]

/-- When every post call of the loop succeeded and a message is left at the loop index, no
request carries more than a batch, every request but the last carries a full batch, and the
last carries the remainder (a full batch when the batch size divides the number left). -/
theorem sendLoop_sizes (s : Splunk) (marshalErr : Msg → Option String)
    (transport : Nat → piperhttp.Result) (tel : MonitoringData) (Messages : List Msg)
    (hB : 0 < s.postMessagesBatchSize) (fuel : Nat) :
    ∀ i sent r, i < Messages.length →
      s.sendLoop marshalErr transport tel Messages fuel i sent = some r →
      (∀ p ∈ r.posts, p.err = none) →
      (∀ x ∈ requestSizes r, x ≤ s.postMessagesBatchSize) ∧
      (∀ x ∈ (requestSizes r).dropLast, x = s.postMessagesBatchSize) ∧
      (requestSizes r).getLast? =
        some (if (Messages.length - i) % s.postMessagesBatchSize = 0
              then s.postMessagesBatchSize
              else (Messages.length - i) % s.postMessagesBatchSize) := by
  induction fuel with
  | zero =>
    intro i sent r hi h _
    simp [Splunk.sendLoop, hi] at h
  | succ fuel ih =>
    intro i sent r hi h hall
    rw [sendLoop_step s marshalErr transport tel Messages fuel i sent hi] at h
    split at h
    · rename_i herr
      cases h
      have := hall _ (List.mem_singleton.mpr rfl)
      simp [this] at herr
    · rename_i hok
      cases hrest : s.sendLoop marshalErr transport tel Messages fuel
          (i + s.postMessagesBatchSize) (sent + 1) with
      | none => rw [hrest] at h; simp at h
      | some rest =>
        rw [hrest] at h
        simp only [Option.map_some', Option.some.injEq] at h
        subst h
        have hrestok : ∀ p ∈ rest.posts, p.err = none :=
          fun p hp => hall p (List.mem_cons_of_mem _ hp)
        simp only [Option.not_isSome_iff_eq_none] at hok
        have hreq := tryPostMessages_ok_request s marshalErr transport sent tel _ hok
        obtain ⟨q, hq⟩ := Option.isSome_iff_exists.mp hreq
        have hmsg := tryPostMessages_request s marshalErr transport sent tel _ q hq
        have hsizes : requestSizes ⟨s.tryPostMessages marshalErr transport sent tel
              ((Messages.drop i).take s.postMessagesBatchSize) :: rest.posts, rest.err⟩ =
            min s.postMessagesBatchSize (Messages.length - i) :: requestSizes rest := by
          simp [requestSizes, requestMessages, issued, hq, hmsg]
        rw [hsizes]
        by_cases hmore : i + s.postMessagesBatchSize < Messages.length
        · obtain ⟨h1, h2, h3⟩ := ih _ _ rest hmore hrest hrestok
          have hmin : min s.postMessagesBatchSize (Messages.length - i) =
              s.postMessagesBatchSize := by omega
          rw [hmin]
          cases hs : requestSizes rest with
          | nil => rw [hs] at h3; simp at h3
          | cons y ys =>
            rw [hs] at h1 h2 h3
            refine ⟨?_, ?_, ?_⟩
            · intro x hx
              rcases List.mem_cons.mp hx with hx | hx
              · omega
              · exact h1 x hx
            · intro x hx
              rw [List.dropLast_cons₂] at hx
              rcases List.mem_cons.mp hx with hx | hx
              · exact hx
              · exact h2 x hx
            · rw [List.getLast?_cons_cons, h3]
              have : Messages.length - (i + s.postMessagesBatchSize) =
                  Messages.length - i - s.postMessagesBatchSize := by omega
              rw [this, later_size _ _ (by omega)]
        · rw [sendLoop_done s marshalErr transport tel Messages _ _ _ (by omega)] at hrest
          cases hrest
          have hmin : min s.postMessagesBatchSize (Messages.length - i) =
              Messages.length - i := by omega
          rw [hmin]
          refine ⟨?_, ?_, ?_⟩
          · intro x hx
            simp [requestSizes, requestMessages, issued] at hx
            omega
          · intro x hx
            simp [requestSizes, requestMessages, issued] at hx
          · simp only [requestSizes, requestMessages, issued, List.filterMap_nil, List.map_nil,
              List.getLast?_singleton, Option.some.injEq]
            exact last_size _ _ (by omega) (by omega)

end sizes

end splunk

namespace splunk

section failfast
variable {Msg : Type}

/-- A post call of the loop that returned an error is the last one: the calls before it
succeeded, `Send` returns its error wrapped, and when its request was handed over the requests
carry the messages of the batches up to this one and no others. -/
theorem sendLoop_failFast (s : Splunk) (marshalErr : Msg → Option String)
    (transport : Nat → piperhttp.Result) (tel : MonitoringData) (Messages : List Msg)
    (fuel : Nat) :
    ∀ i sent r, s.sendLoop marshalErr transport tel Messages fuel i sent = some r →
      ∀ k p e, r.posts[k]? = some p → p.err = some e →
        (∀ j p2, j < k → r.posts[j]? = some p2 → p2.err = none) ∧
        r.posts.length = k + 1 ∧
        r.err = some ("error while sending logs" ++ ": " ++ e) ∧
        (p.request.isSome = true →
          (issued r.posts).length = k + 1 ∧
          (requestMessages r).flatten =
            (Messages.drop i).take ((k + 1) * s.postMessagesBatchSize)) := by
  induction fuel with
  | zero =>
    intro i sent r h k p e hk _
    by_cases hi : i < Messages.length
    · simp [Splunk.sendLoop, hi] at h
    · rw [sendLoop_done s marshalErr transport tel Messages 0 i sent (by omega)] at h
      cases h
      simp at hk
  | succ fuel ih =>
    intro i sent r h k p e hk he
    by_cases hi : i < Messages.length
    · rw [sendLoop_step s marshalErr transport tel Messages fuel i sent hi] at h
      split at h
      · cases h
        cases k with
        | zero =>
          simp only [List.getElem?_cons_zero, Option.some.injEq] at hk
          subst hk
          refine ⟨fun j p2 hj => absurd hj (Nat.not_lt_zero j), rfl, ?_, ?_⟩
          · simp [he, errors.Wrap]
          · intro hreq
            obtain ⟨q, hq⟩ := Option.isSome_iff_exists.mp hreq
            have hmsg := tryPostMessages_request s marshalErr transport sent tel _ q hq
            simp [requestMessages, issued, hq, hmsg]
        | succ k => simp at hk
      · rename_i hok
        cases hrest : s.sendLoop marshalErr transport tel Messages fuel
            (i + s.postMessagesBatchSize) (sent + 1) with
        | none => rw [hrest] at h; simp at h
        | some rest =>
          rw [hrest] at h
          simp only [Option.map_some', Option.some.injEq] at h
          subst h
          simp only [Option.not_isSome_iff_eq_none] at hok
          cases k with
          | zero =>
            simp only [List.getElem?_cons_zero, Option.some.injEq] at hk
            subst hk
            rw [hok] at he
            cases he
          | succ k =>
            simp only [List.getElem?_cons_succ] at hk
            obtain ⟨h1, h2, h3, h4⟩ := ih _ _ rest hrest k p e hk he
            have hreq := tryPostMessages_ok_request s marshalErr transport sent tel _ hok
            obtain ⟨q, hq⟩ := Option.isSome_iff_exists.mp hreq
            have hmsg := tryPostMessages_request s marshalErr transport sent tel _ q hq
            refine ⟨?_, ?_, h3, ?_⟩
            · intro j p2 hj hp2
              cases j with
              | zero =>
                simp only [List.getElem?_cons_zero, Option.some.injEq] at hp2
                subst hp2
                exact hok
              | succ j =>
                simp only [List.getElem?_cons_succ] at hp2
                exact h1 j p2 (by omega) hp2
            · simp [h2]
            · intro hp
              obtain ⟨h5, h6⟩ := h4 hp
              constructor
              · simp only [issued, List.filterMap_cons, hq, List.length_cons]
                simp only [issued] at h5
                rw [h5]
              · simp only [requestMessages, issued, List.filterMap_cons, hq, List.map_cons,
                  List.flatten_cons, hmsg]
                simp only [requestMessages, issued] at h6
                rw [h6]
                have hd : Messages.drop (i + s.postMessagesBatchSize) =
                    (Messages.drop i).drop s.postMessagesBatchSize := by
                  simp [List.drop_drop, Nat.add_comm]
                have hm : (k + 1 + 1) * s.postMessagesBatchSize =
                    s.postMessagesBatchSize + (k + 1) * s.postMessagesBatchSize := by ring
                rw [hd, hm, List.take_add]
    · rw [sendLoop_done s marshalErr transport tel Messages _ i sent (by omega)] at h
      cases h
      simp at hk

theorem hasPrefix_append (p t : String) : strings.HasPrefix (p ++ t) p = true := by
  simp [strings.HasPrefix]

end failfast

end splunk

namespace splunk

section encodable
variable {Msg : Type}

/-- When the encoder accepts the messages, the post call hands a request to the transport. -/
theorem tryPostMessages_request_of_encodable (s : Splunk) (marshalErr : Msg → Option String)
    (transport : Nat → piperhttp.Result) (sent : Nat) (tel : MonitoringData)
    (messages : List Msg) (henc : ∀ m ∈ messages, marshalErr m = none) :
    (s.tryPostMessages marshalErr transport sent tel messages).request.isSome = true := by
  have hm : List.findSome? marshalErr messages = none := by
    rw [List.findSome?_eq_none_iff]
    exact henc
  unfold Splunk.tryPostMessages
  simp only [jsonMarshalError, hm]
  split
  · split
    · split <;> rfl
    · split <;> rfl
  · rfl

/-- When the encoder accepts the collected messages, every post call of the loop hands a
request to the transport. -/
theorem sendLoop_posts_issued (s : Splunk) (marshalErr : Msg → Option String)
    (transport : Nat → piperhttp.Result) (tel : MonitoringData) (Messages : List Msg)
    (henc : ∀ m ∈ Messages, marshalErr m = none) (fuel : Nat) :
    ∀ i sent r, s.sendLoop marshalErr transport tel Messages fuel i sent = some r →
      ∀ p ∈ r.posts, p.request.isSome = true := by
  have hbatch : ∀ i sent, (s.tryPostMessages marshalErr transport sent tel
      ((Messages.drop i).take s.postMessagesBatchSize)).request.isSome = true := by
    intro i sent
    apply tryPostMessages_request_of_encodable
    intro m hm
    exact henc m (List.mem_of_mem_drop (List.mem_of_mem_take hm))
  induction fuel with
  | zero =>
    intro i sent r h p hp
    by_cases hi : i < Messages.length
    · simp [Splunk.sendLoop, hi] at h
    · rw [sendLoop_done s marshalErr transport tel Messages 0 i sent (by omega)] at h
      cases h
      simp at hp
  | succ fuel ih =>
    intro i sent r h p hp
    by_cases hi : i < Messages.length
    · rw [sendLoop_step s marshalErr transport tel Messages fuel i sent hi] at h
      split at h
      · cases h
        rw [List.mem_singleton.mp hp]
        exact hbatch i sent
      · cases hrest : s.sendLoop marshalErr transport tel Messages fuel
            (i + s.postMessagesBatchSize) (sent + 1) with
        | none => rw [hrest] at h; simp at h
        | some rest =>
          rw [hrest] at h
          simp only [Option.map_some', Option.some.injEq] at h
          subst h
          rcases List.mem_cons.mp hp with hp | hp
          · rw [hp]
            exact hbatch i sent
          · exact ih _ _ rest hrest p hp
    · rw [sendLoop_done s marshalErr transport tel Messages _ i sent (by omega)] at h
      cases h
      simp at hp

/-- When the encoder accepts the collected messages, every post call of `Send` hands a
request to the transport. -/
theorem send_posts_issued (s : Splunk) (marshalErr : Msg → Option String)
    (transport : Nat → piperhttp.Result) (readFile : String → Except String String)
    (fuel : Nat) (td : telemetry.Data) (lc : log.CollectorHook Msg) (r : SendResult Msg)
    (henc : ∀ m ∈ lc.Messages, marshalErr m = none)
    (h : s.Send marshalErr transport readFile fuel td lc = some r) :
    ∀ p ∈ r.posts, p.request.isSome = true := by
  by_cases hpath : td.ErrorCode = "0" ∨ (td.ErrorCode = "1" ∧ ¬ s.sendLogs = true)
  · rw [send_telemetryOnly s marshalErr transport readFile fuel td lc hpath] at h
    cases h
    intro p hp
    rw [List.mem_singleton.mp hp]
    exact tryPostMessages_request_of_encodable s marshalErr transport 0 _ []
      (fun m hm => absurd hm (List.not_mem_nil m))
  · rw [send_logPath s marshalErr transport readFile fuel td lc hpath] at h
    exact sendLoop_posts_issued s marshalErr transport _ _ henc fuel 0 0 r h

end encodable

end splunk

namespace splunk

section responses
variable {Msg PT E : Type}

theorem take_min_length {α : Type} (l : List α) (n : Nat) :
    l.take n = l.take (min n l.length) := by
  by_cases h : n ≤ l.length
  · rw [Nat.min_eq_left h]
  · rw [Nat.min_eq_right (by omega), List.take_length, List.take_of_length_le (by omega)]

/-- With an encodable message list `tryPostMessages` makes its request and goes on with what
the transport returns. -/
theorem tryPostMessages_eq_afterSendRequest (s : Splunk) (marshalErr : Msg → Option String)
    (transport : Nat → piperhttp.Result) (sent : Nat) (tel : MonitoringData)
    (messages : List Msg) (henc : ∀ m ∈ messages, marshalErr m = none) :
    s.tryPostMessages marshalErr transport sent tel messages =
      afterSendRequest
        { method := "POST", url := s.splunkDsn, body :=
            { Host := s.correlationID, Source := "", SourceType := "_json",
              Index := s.splunkIndex, Event := { Messages := messages, Telemetry := tel } } }
        (transport sent) := by
  have h : List.findSome? marshalErr messages = none := by
    rw [List.findSome?_eq_none_iff]
    exact henc
  unfold Splunk.tryPostMessages afterSendRequest
  simp only [jsonMarshalError, h]

/-- With an encodable telemetry `postLogFile` makes its request and goes on with what the
transport returns. -/
theorem postLogFile_eq_afterSendRequest (s : Splunk) (marshalTelemetryErr : PT → Option String)
    (transport : Nat → piperhttp.Result) (sent : Nat) (tel : PT) (messages : List String)
    (henc : marshalTelemetryErr tel = none) :
    s.postLogFile marshalTelemetryErr transport sent tel messages =
      afterSendRequest
        { method := "POST", url := s.splunkDsn, body :=
            { Host := s.correlationID, Source := "", SourceType := "txt",
              Index := s.splunkIndex, Event := { Messages := messages, Telemetry := tel } } }
        (transport sent) := by
  unfold Splunk.postLogFile afterSendRequest
  simp only [henc]

/-- With an encodable telemetry `postTelemetry` makes its request and goes on with what the
transport returns. -/
theorem postTelemetry_eq_afterSendRequest (s : Splunk)
    (marshalTelemetryErr : PT → Option String) (transport : Nat → piperhttp.Result)
    (sent : Nat) (tel : PT) (henc : marshalTelemetryErr tel = none) :
    s.postTelemetry marshalTelemetryErr transport sent tel =
      afterSendRequest
        { method := "POST", url := s.splunkDsn, body :=
            { Host := s.correlationID, Source := "", SourceType := "_json",
              Index := s.splunkIndex, Event := tel } }
        (transport sent) := by
  unfold Splunk.postTelemetry afterSendRequest
  simp only [henc]

/-- Whatever the transport returns, the request was made. -/
theorem afterSendRequest_request (request : piperhttp.Request E) (result : piperhttp.Result) :
    (afterSendRequest request result).request = some request := by
  cases result with
  | noResponse e => rfl
  | response resp err =>
    simp only [afterSendRequest]
    split
    · split <;> rfl
    · split <;> rfl

/-- A response other than 200: the line written to the log holds the status and the first
1000 bytes of the body, and so does the returned error when the body was read and the
transport reported an error. -/
theorem afterSendRequest_rejected (request : piperhttp.Request E) (resp : piperhttp.Response)
    (err : Option String) (hcode : resp.StatusCode ≠ 200) :
    (afterSendRequest request (.response resp err)).logged =
      some (resp.Status ++ ": Splunk logging failed - " ++
        String.mk (resp.Body.bytes.data.take 1000)) ∧
    (afterSendRequest request (.response resp err)).bodyRead = true ∧
    ((readAllLimited resp.Body 1000).2 = none →
      (afterSendRequest request (.response resp err)).err =
        errors.Wrapf err (resp.Status ++ ": Splunk logging failed - " ++
          String.mk (resp.Body.bytes.data.take 1000))) := by
  unfold afterSendRequest
  simp only [hcode, ne_eq, not_false_eq_true, if_true]
  refine ⟨?_, ?_, ?_⟩
  · split <;> rfl
  · split <;> rfl
  · intro h
    rw [h]
    rfl

/-- A response other than 200 whose body cannot be read: the read error is returned. -/
theorem afterSendRequest_unreadable (request : piperhttp.Request E)
    (resp : piperhttp.Response) (err : Option String) (re : String)
    (hcode : resp.StatusCode ≠ 200) (hshort : resp.Body.bytes.length < 1000)
    (hfail : resp.Body.failure = some re) :
    (afterSendRequest request (.response resp err)).err =
      some ("Error reading response body from Splunk." ++ ": " ++ re) := by
  unfold afterSendRequest
  simp [hcode, readAllLimited, hshort, hfail, errors.Wrap]

/-- No response: the transport error is returned wrapped, and no body is read. -/
theorem afterSendRequest_noResponse (request : piperhttp.Request E) (e : String) :
    (afterSendRequest request (.noResponse e)).err =
      some ("error sending the requests to Splunk" ++ ": " ++ e) ∧
    (afterSendRequest request (.noResponse e)).bodyRead = false ∧
    (afterSendRequest request (.noResponse e)).logged = none := by
  simp [afterSendRequest, errors.Wrap]

end responses

end splunk

namespace splunk

section envelopes
variable {Msg PT : Type}

/-- The request of `tryPostMessages`, when it makes one, is a POST of the envelope to the
configured destination. -/
theorem tryPostMessages_request_eq (s : Splunk) (marshalErr : Msg → Option String)
    (transport : Nat → piperhttp.Result) (sent : Nat) (tel : MonitoringData)
    (messages : List Msg) (q : piperhttp.Request (Details Msg))
    (h : (s.tryPostMessages marshalErr transport sent tel messages).request = some q) :
    q = { method := "POST", url := s.splunkDsn, body :=
            { Host := s.correlationID, Source := "", SourceType := "_json",
              Index := s.splunkIndex, Event := { Messages := messages, Telemetry := tel } } } := by
  unfold Splunk.tryPostMessages at h
  simp only at h
  split at h
  · simp at h
  · split at h
    · split at h
      · split at h <;> (simp at h; exact h.symm)
      · split at h <;> (simp at h; exact h.symm)
    · simp at h; exact h.symm

/-- The request of `postLogFile`, when it makes one, is a POST of the envelope to the
configured destination. -/
theorem postLogFile_request_eq (s : Splunk) (marshalTelemetryErr : PT → Option String)
    (transport : Nat → piperhttp.Result) (sent : Nat) (tel : PT) (messages : List String)
    (q : piperhttp.Request (DetailsLog PT))
    (h : (s.postLogFile marshalTelemetryErr transport sent tel messages).request = some q) :
    q = { method := "POST", url := s.splunkDsn, body :=
            { Host := s.correlationID, Source := "", SourceType := "txt",
              Index := s.splunkIndex, Event := { Messages := messages, Telemetry := tel } } } := by
  unfold Splunk.postLogFile at h
  simp only at h
  split at h
  · simp at h
  · split at h
    · split at h
      · split at h <;> (simp at h; exact h.symm)
      · split at h <;> (simp at h; exact h.symm)
    · simp at h; exact h.symm

/-- A call of `postLogFile` that returns without error has made its request. -/
theorem postLogFile_ok_request (s : Splunk) (marshalTelemetryErr : PT → Option String)
    (transport : Nat → piperhttp.Result) (sent : Nat) (tel : PT) (messages : List String)
    (h : (s.postLogFile marshalTelemetryErr transport sent tel messages).err = none) :
    (s.postLogFile marshalTelemetryErr transport sent tel messages).request.isSome = true := by
  unfold Splunk.postLogFile at h ⊢
  simp only at h ⊢
  split
  · rename_i e he
    rw [he] at h
    simp [errors.Wrap] at h
  · split
    · split
      · split <;> rfl
      · split <;> rfl
    · rfl

/-- The error that `tryPostMessages` returns does not depend on the telemetry it carries. -/
theorem tryPostMessages_err_telemetry (s : Splunk) (marshalErr : Msg → Option String)
    (transport : Nat → piperhttp.Result) (sent : Nat) (tel tel2 : MonitoringData)
    (messages : List Msg) :
    (s.tryPostMessages marshalErr transport sent tel messages).err =
      (s.tryPostMessages marshalErr transport sent tel2 messages).err ∧
    (s.tryPostMessages marshalErr transport sent tel messages).request.isSome =
      (s.tryPostMessages marshalErr transport sent tel2 messages).request.isSome := by
  unfold Splunk.tryPostMessages
  simp only [jsonMarshalError]
  cases List.findSome? marshalErr messages with
  | some e => exact ⟨rfl, rfl⟩
  | none =>
    simp only
    cases transport sent with
    | noResponse e => exact ⟨rfl, rfl⟩
    | response resp err =>
      simp only
      split
      · split <;> exact ⟨rfl, rfl⟩
      · split <;> exact ⟨rfl, rfl⟩

end envelopes

section statusLoop
variable {PT : Type}

/-- The loop of `SendPipelineStatus` is over once the index has reached the number of lines. -/
theorem statusLoop_done (s : Splunk) (marshalTelemetryErr : PT → Option String)
    (transport : Nat → piperhttp.Result) (tel : PT) (splitted : List String)
    (fuel i sent : Nat) (h : splitted.length ≤ i) :
    s.statusLoop marshalTelemetryErr transport tel splitted fuel i sent =
      some { posts := [], err := none } := by
  cases fuel <;> simp [Splunk.statusLoop, Nat.not_lt.mpr h]

/-- One run of the body of the loop of `SendPipelineStatus`, with the slice written as a
batch. -/
theorem statusLoop_step (s : Splunk) (marshalTelemetryErr : PT → Option String)
    (transport : Nat → piperhttp.Result) (tel : PT) (splitted : List String)
    (fuel i sent : Nat) (h : i < splitted.length) :
    s.statusLoop marshalTelemetryErr transport tel splitted (fuel + 1) i sent =
      if (s.postLogFile marshalTelemetryErr transport sent tel
          ((splitted.drop i).take s.postMessagesBatchSize)).err.isSome then
        some { posts := [s.postLogFile marshalTelemetryErr transport sent tel
                  ((splitted.drop i).take s.postMessagesBatchSize)]
               err := errors.Wrap (s.postLogFile marshalTelemetryErr transport sent tel
                  ((splitted.drop i).take s.postMessagesBatchSize)).err
                  "error while sending logs" }
      else
        (s.statusLoop marshalTelemetryErr transport tel splitted fuel
            (i + s.postMessagesBatchSize) (sent + 1)).map
          (fun rest => { posts := s.postLogFile marshalTelemetryErr transport sent tel
                            ((splitted.drop i).take s.postMessagesBatchSize) :: rest.posts
                         err := rest.err }) := by
  rw [Splunk.statusLoop]
  simp only [h, if_true, slice_upperBound]
  split
  · rfl
  · rename_i hne
    have hok := postLogFile_ok_request s marshalTelemetryErr transport sent tel
      ((splitted.drop i).take s.postMessagesBatchSize) (by simpa using hne)
    rw [hok]
    simp only [if_true]
    cases s.statusLoop marshalTelemetryErr transport tel splitted fuel
      (i + s.postMessagesBatchSize) (sent + 1) <;> rfl

/-- With a positive batch size the loop of `SendPipelineStatus` ends within one run of the
body per line. -/
theorem statusLoop_terminates (s : Splunk) (marshalTelemetryErr : PT → Option String)
    (transport : Nat → piperhttp.Result) (tel : PT) (splitted : List String)
    (hB : 0 < s.postMessagesBatchSize) (fuel : Nat) :
    ∀ i sent, splitted.length - i ≤ fuel →
      ∃ r, s.statusLoop marshalTelemetryErr transport tel splitted fuel i sent = some r := by
  induction fuel with
  | zero =>
    intro i sent h
    exact ⟨_, statusLoop_done s marshalTelemetryErr transport tel splitted 0 i sent (by omega)⟩
  | succ fuel ih =>
    intro i sent h
    by_cases hi : i < splitted.length
    · rw [statusLoop_step s marshalTelemetryErr transport tel splitted fuel i sent hi]
      split
      · exact ⟨_, rfl⟩
      · obtain ⟨rest, hrest⟩ := ih (i + s.postMessagesBatchSize) (sent + 1) (by omega)
        rw [hrest]
        exact ⟨_, rfl⟩
    · exact ⟨_, statusLoop_done s marshalTelemetryErr transport tel splitted _ i sent
        (by omega)⟩

/-- A property that every call of `postLogFile` has, every post call of the loop has. -/
theorem statusLoop_forall (s : Splunk) (marshalTelemetryErr : PT → Option String)
    (transport : Nat → piperhttp.Result) (tel : PT) (splitted : List String)
    (P : PostResult (DetailsLog PT) → Prop)
    (hP : ∀ sent messages, P (s.postLogFile marshalTelemetryErr transport sent tel messages))
    (fuel : Nat) :
    ∀ i sent r, s.statusLoop marshalTelemetryErr transport tel splitted fuel i sent = some r →
      ∀ p ∈ r.posts, P p := by
  induction fuel with
  | zero =>
    intro i sent r h p hp
    by_cases hi : i < splitted.length
    · simp [Splunk.statusLoop, hi] at h
    · rw [statusLoop_done s marshalTelemetryErr transport tel splitted 0 i sent (by omega)] at h
      cases h
      simp at hp
  | succ fuel ih =>
    intro i sent r h p hp
    by_cases hi : i < splitted.length
    · rw [statusLoop_step s marshalTelemetryErr transport tel splitted fuel i sent hi] at h
      split at h
      · cases h
        rw [List.mem_singleton.mp hp]
        exact hP _ _
      · cases hrest : s.statusLoop marshalTelemetryErr transport tel splitted fuel
            (i + s.postMessagesBatchSize) (sent + 1) with
        | none => rw [hrest] at h; simp at h
        | some rest =>
          rw [hrest] at h
          simp only [Option.map_some', Option.some.injEq] at h
          subst h
          rcases List.mem_cons.mp hp with hp | hp
          · rw [hp]
            exact hP _ _
          · exact ih _ _ rest hrest p hp
    · rw [statusLoop_done s marshalTelemetryErr transport tel splitted _ i sent (by omega)] at h
      cases h
      simp at hp

end statusLoop

section sendLoopMore
variable {Msg : Type}

/-- A property that every call of `tryPostMessages` has, every post call of the loop of
`Send` has. -/
theorem sendLoop_forall (s : Splunk) (marshalErr : Msg → Option String)
    (transport : Nat → piperhttp.Result) (tel : MonitoringData) (Messages : List Msg)
    (P : PostResult (Details Msg) → Prop)
    (hP : ∀ sent messages, P (s.tryPostMessages marshalErr transport sent tel messages))
    (fuel : Nat) :
    ∀ i sent r, s.sendLoop marshalErr transport tel Messages fuel i sent = some r →
      ∀ p ∈ r.posts, P p := by
  induction fuel with
  | zero =>
    intro i sent r h p hp
    by_cases hi : i < Messages.length
    · simp [Splunk.sendLoop, hi] at h
    · rw [sendLoop_done s marshalErr transport tel Messages 0 i sent (by omega)] at h
      cases h
      simp at hp
  | succ fuel ih =>
    intro i sent r h p hp
    by_cases hi : i < Messages.length
    · rw [sendLoop_step s marshalErr transport tel Messages fuel i sent hi] at h
      split at h
      · cases h
        rw [List.mem_singleton.mp hp]
        exact hP _ _
      · cases hrest : s.sendLoop marshalErr transport tel Messages fuel
            (i + s.postMessagesBatchSize) (sent + 1) with
        | none => rw [hrest] at h; simp at h
        | some rest =>
          rw [hrest] at h
          simp only [Option.map_some', Option.some.injEq] at h
          subst h
          rcases List.mem_cons.mp hp with hp | hp
          · rw [hp]
            exact hP _ _
          · exact ih _ _ rest hrest p hp
    · rw [sendLoop_done s marshalErr transport tel Messages _ i sent (by omega)] at h
      cases h
      simp at hp

/-- The error that the loop of `Send` returns does not depend on the telemetry it carries. -/
theorem sendLoop_err_telemetry (s : Splunk) (marshalErr : Msg → Option String)
    (transport : Nat → piperhttp.Result) (tel tel2 : MonitoringData) (Messages : List Msg)
    (fuel : Nat) :
    ∀ i sent, (s.sendLoop marshalErr transport tel Messages fuel i sent).map (fun r => r.err) =
      (s.sendLoop marshalErr transport tel2 Messages fuel i sent).map (fun r => r.err) := by
  induction fuel with
  | zero =>
    intro i sent
    by_cases hi : i < Messages.length
    · simp [Splunk.sendLoop, hi]
    · rw [sendLoop_done s marshalErr transport tel Messages 0 i sent (by omega),
        sendLoop_done s marshalErr transport tel2 Messages 0 i sent (by omega)]
  | succ fuel ih =>
    intro i sent
    by_cases hi : i < Messages.length
    · rw [sendLoop_step s marshalErr transport tel Messages fuel i sent hi,
        sendLoop_step s marshalErr transport tel2 Messages fuel i sent hi]
      have he := (tryPostMessages_err_telemetry s marshalErr transport sent tel tel2
        ((Messages.drop i).take s.postMessagesBatchSize)).1
      rw [he]
      split
      · rfl
      · have := ih (i + s.postMessagesBatchSize) (sent + 1)
        simp only [Option.map_map] at this ⊢
        exact this
    · rw [sendLoop_done s marshalErr transport tel Messages _ i sent (by omega),
        sendLoop_done s marshalErr transport tel2 Messages _ i sent (by omega)]

end sendLoopMore

end splunk

namespace splunk

section statusRuns
variable {PT : Type}

/-- A call of `postLogFile` that makes its request hands over exactly its lines. -/
theorem postLogFile_request (s : Splunk) (marshalTelemetryErr : PT → Option String)
    (transport : Nat → piperhttp.Result) (sent : Nat) (tel : PT) (messages : List String)
    (q : piperhttp.Request (DetailsLog PT))
    (h : (s.postLogFile marshalTelemetryErr transport sent tel messages).request = some q) :
    q.body.Event.Messages = messages := by
  rw [postLogFile_request_eq s marshalTelemetryErr transport sent tel messages q h]

/-- When every post call of the loop of `SendPipelineStatus` succeeded, the number of
requests is the number of lines from the loop index on, divided by the batch size and rounded
up. -/
theorem statusLoop_count (s : Splunk) (marshalTelemetryErr : PT → Option String)
    (transport : Nat → piperhttp.Result) (tel : PT) (splitted : List String)
    (hB : 0 < s.postMessagesBatchSize) (fuel : Nat) :
    ∀ i sent r, s.statusLoop marshalTelemetryErr transport tel splitted fuel i sent = some r →
      (∀ p ∈ r.posts, p.err = none) →
      (issued r.posts).length =
        (splitted.length - i + s.postMessagesBatchSize - 1) / s.postMessagesBatchSize := by
  have hzero : ∀ i, splitted.length ≤ i →
      (splitted.length - i + s.postMessagesBatchSize - 1) / s.postMessagesBatchSize = 0 := by
    intro i hi
    exact Nat.div_eq_of_lt (by omega)
  induction fuel with
  | zero =>
    intro i sent r h _
    by_cases hi : i < splitted.length
    · simp [Splunk.statusLoop, hi] at h
    · rw [statusLoop_done s marshalTelemetryErr transport tel splitted 0 i sent (by omega)] at h
      cases h
      simp [issued, hzero i (by omega)]
  | succ fuel ih =>
    intro i sent r h hall
    by_cases hi : i < splitted.length
    · rw [statusLoop_step s marshalTelemetryErr transport tel splitted fuel i sent hi] at h
      split at h
      · rename_i herr
        cases h
        have := hall _ (List.mem_singleton.mpr rfl)
        simp [this] at herr
      · rename_i hok
        cases hrest : s.statusLoop marshalTelemetryErr transport tel splitted fuel
            (i + s.postMessagesBatchSize) (sent + 1) with
        | none => rw [hrest] at h; simp at h
        | some rest =>
          rw [hrest] at h
          simp only [Option.map_some', Option.some.injEq] at h
          subst h
          have hrestok : ∀ p ∈ rest.posts, p.err = none :=
            fun p hp => hall p (List.mem_cons_of_mem _ hp)
          have hcount := ih _ _ rest hrest hrestok
          simp only [Option.not_isSome_iff_eq_none] at hok
          have hreq := postLogFile_ok_request s marshalTelemetryErr transport sent tel _ hok
          obtain ⟨q, hq⟩ := Option.isSome_iff_exists.mp hreq
          simp only [issued, List.filterMap_cons, hq, List.length_cons]
          simp only [issued] at hcount
          rw [hcount, ceil_step (splitted.length - i) _ hB (by omega)]
          have : splitted.length - (i + s.postMessagesBatchSize) =
              splitted.length - i - s.postMessagesBatchSize := by omega
          rw [this]
    · rw [statusLoop_done s marshalTelemetryErr transport tel splitted _ i sent (by omega)] at h
      cases h
      simp [issued, hzero i (by omega)]

/-- A post call of the loop of `SendPipelineStatus` that returned an error is the last one:
the calls before it succeeded, the loop returns its error wrapped, and when its request was
handed over the requests carry the lines of the batches up to this one and no others. -/
theorem statusLoop_failFast (s : Splunk) (marshalTelemetryErr : PT → Option String)
    (transport : Nat → piperhttp.Result) (tel : PT) (splitted : List String)
    (fuel : Nat) :
    ∀ i sent r, s.statusLoop marshalTelemetryErr transport tel splitted fuel i sent = some r →
      ∀ k p e, r.posts[k]? = some p → p.err = some e →
        (∀ j p2, j < k → r.posts[j]? = some p2 → p2.err = none) ∧
        r.posts.length = k + 1 ∧
        r.err = some ("error while sending logs" ++ ": " ++ e) ∧
        (p.request.isSome = true →
          (issued r.posts).length = k + 1 ∧
          (logMessages r.posts).flatten =
            (splitted.drop i).take ((k + 1) * s.postMessagesBatchSize)) := by
  induction fuel with
  | zero =>
    intro i sent r h k p e hk _
    by_cases hi : i < splitted.length
    · simp [Splunk.statusLoop, hi] at h
    · rw [statusLoop_done s marshalTelemetryErr transport tel splitted 0 i sent (by omega)] at h
      cases h
      simp at hk
  | succ fuel ih =>
    intro i sent r h k p e hk he
    by_cases hi : i < splitted.length
    · rw [statusLoop_step s marshalTelemetryErr transport tel splitted fuel i sent hi] at h
      split at h
      · cases h
        cases k with
        | zero =>
          simp only [List.getElem?_cons_zero, Option.some.injEq] at hk
          subst hk
          refine ⟨fun j p2 hj => absurd hj (Nat.not_lt_zero j), rfl, ?_, ?_⟩
          · simp [he, errors.Wrap]
          · intro hreq
            obtain ⟨q, hq⟩ := Option.isSome_iff_exists.mp hreq
            have hmsg := postLogFile_request s marshalTelemetryErr transport sent tel _ q hq
            simp [logMessages, issued, hq, hmsg]
        | succ k => simp at hk
      · rename_i hok
        cases hrest : s.statusLoop marshalTelemetryErr transport tel splitted fuel
            (i + s.postMessagesBatchSize) (sent + 1) with
        | none => rw [hrest] at h; simp at h
        | some rest =>
          rw [hrest] at h
          simp only [Option.map_some', Option.some.injEq] at h
          subst h
          simp only [Option.not_isSome_iff_eq_none] at hok
          cases k with
          | zero =>
            simp only [List.getElem?_cons_zero, Option.some.injEq] at hk
            subst hk
            rw [hok] at he
            cases he
          | succ k =>
            simp only [List.getElem?_cons_succ] at hk
            obtain ⟨h1, h2, h3, h4⟩ := ih _ _ rest hrest k p e hk he
            have hreq := postLogFile_ok_request s marshalTelemetryErr transport sent tel _ hok
            obtain ⟨q, hq⟩ := Option.isSome_iff_exists.mp hreq
            have hmsg := postLogFile_request s marshalTelemetryErr transport sent tel _ q hq
            refine ⟨?_, ?_, h3, ?_⟩
            · intro j p2 hj hp2
              cases j with
              | zero =>
                simp only [List.getElem?_cons_zero, Option.some.injEq] at hp2
                subst hp2
                exact hok
              | succ j =>
                simp only [List.getElem?_cons_succ] at hp2
                exact h1 j p2 (by omega) hp2
            · simp [h2]
            · intro hp
              obtain ⟨h5, h6⟩ := h4 hp
              constructor
              · simp only [issued, List.filterMap_cons, hq, List.length_cons]
                simp only [issued] at h5
                rw [h5]
              · simp only [logMessages, issued, List.filterMap_cons, hq, List.map_cons,
                  List.flatten_cons, hmsg]
                simp only [logMessages, issued] at h6
                rw [h6]
                have hd : splitted.drop (i + s.postMessagesBatchSize) =
                    (splitted.drop i).drop s.postMessagesBatchSize := by
                  simp [List.drop_drop, Nat.add_comm]
                have hm : (k + 1 + 1) * s.postMessagesBatchSize =
                    s.postMessagesBatchSize + (k + 1) * s.postMessagesBatchSize := by ring
                rw [hd, hm, List.take_add]
    · rw [statusLoop_done s marshalTelemetryErr transport tel splitted _ i sent (by omega)] at h
      cases h
      simp at hk

end statusRuns

end splunk

namespace splunk

section pipeline
variable {PT : Type}

/-- Splitting gives at least one piece. -/
theorem split_length_pos (s : String) (sep : Char) : 1 ≤ (strings.Split s sep).length := by
  unfold strings.Split
  rw [List.length_map]
  have h : s.data.splitOn sep ≠ [] := List.splitOnP_ne_nil _ _
  exact List.length_pos.mpr h

theorem logFilePosts_cons_map (p0 : PostResult (DetailsTelemetry PT))
    (logs : List (PostResult (DetailsLog PT))) :
    logFilePosts (PipelinePost.telemetry p0 :: logs.map PipelinePost.logFile) = logs := by
  unfold logFilePosts
  rw [List.filterMap_cons]
  simp only
  induction logs with
  | nil => rfl
  | cons p ps ih => simpa [List.filterMap_cons] using ih

/-- Without log shipping `SendPipelineStatus` makes the telemetry post call and returns `nil`. -/
theorem sendPipelineStatus_off (s : Splunk) (marshalTelemetryErr : PT → Option String)
    (transport : Nat → piperhttp.Result) (fuel : Nat) (tel : PT) (logFile : String)
    (hflag : s.sendLogs = false) :
    s.SendPipelineStatus marshalTelemetryErr transport fuel tel logFile =
      some { posts := [.telemetry (s.postTelemetry marshalTelemetryErr transport 0 tel)]
             err := none } := by
  unfold Splunk.SendPipelineStatus
  simp [hflag]

/-- With log shipping `SendPipelineStatus` makes the telemetry post call and then runs its
loop over the lines of the log. -/
theorem sendPipelineStatus_on (s : Splunk) (marshalTelemetryErr : PT → Option String)
    (transport : Nat → piperhttp.Result) (fuel : Nat) (tel : PT) (logFile : String)
    (hflag : s.sendLogs = true) :
    s.SendPipelineStatus marshalTelemetryErr transport fuel tel logFile =
      (s.statusLoop marshalTelemetryErr transport tel (strings.Split logFile '\n') fuel 0
          (if (s.postTelemetry marshalTelemetryErr transport 0 tel).request.isSome then 1
           else 0)).map
        (fun logs =>
          { posts := .telemetry (s.postTelemetry marshalTelemetryErr transport 0 tel) ::
              logs.posts.map .logFile
            err := logs.err }) := by
  unfold Splunk.SendPipelineStatus
  simp only [hflag, if_true]
  cases s.statusLoop marshalTelemetryErr transport tel (strings.Split logFile '\n') fuel 0
    (if (s.postTelemetry marshalTelemetryErr transport 0 tel).request.isSome then 1 else 0) <;>
    rfl

/-- With log shipping and a positive batch size `SendPipelineStatus` returns, given one unit
of fuel per line: its post calls are the telemetry call and then the calls of its loop. -/
theorem sendPipelineStatus_on_run (s : Splunk) (marshalTelemetryErr : PT → Option String)
    (transport : Nat → piperhttp.Result) (fuel : Nat) (tel : PT) (logFile : String)
    (hflag : s.sendLogs = true) (hB : 0 < s.postMessagesBatchSize)
    (hfuel : (strings.Split logFile '\n').length ≤ fuel) :
    ∃ r logs, s.SendPipelineStatus marshalTelemetryErr transport fuel tel logFile = some r ∧
      s.statusLoop marshalTelemetryErr transport tel (strings.Split logFile '\n') fuel 0
          (if (s.postTelemetry marshalTelemetryErr transport 0 tel).request.isSome then 1
           else 0) = some logs ∧
      r.posts = .telemetry (s.postTelemetry marshalTelemetryErr transport 0 tel) ::
        logs.posts.map .logFile ∧
      logFilePosts r.posts = logs.posts ∧
      r.err = logs.err := by
  obtain ⟨logs, hlogs⟩ := statusLoop_terminates s marshalTelemetryErr transport tel
    (strings.Split logFile '\n') hB fuel 0
    (if (s.postTelemetry marshalTelemetryErr transport 0 tel).request.isSome then 1 else 0)
    (by omega)
  refine ⟨⟨.telemetry (s.postTelemetry marshalTelemetryErr transport 0 tel) ::
    logs.posts.map .logFile, logs.err⟩, logs, ?_, hlogs, rfl, ?_, rfl⟩
  · rw [sendPipelineStatus_on s marshalTelemetryErr transport fuel tel logFile hflag, hlogs]
    rfl
  · exact logFilePosts_cons_map _ _

end pipeline

end splunk

namespace splunk

section sendMore
variable {Msg PT : Type}

/-- A property that every call of `tryPostMessages` with the prepared telemetry has, every
post call of `Send` has. -/
theorem send_forall (s : Splunk) (marshalErr : Msg → Option String)
    (transport : Nat → piperhttp.Result) (readFile : String → Except String String)
    (fuel : Nat) (td : telemetry.Data) (lc : log.CollectorHook Msg) (r : SendResult Msg)
    (P : PostResult (Details Msg) → Prop)
    (hP : ∀ sent messages, P (s.tryPostMessages marshalErr transport sent
      (s.prepareTelemetry readFile td) messages))
    (h : s.Send marshalErr transport readFile fuel td lc = some r) :
    ∀ p ∈ r.posts, P p := by
  by_cases hpath : td.ErrorCode = "0" ∨ (td.ErrorCode = "1" ∧ ¬ s.sendLogs = true)
  · rw [send_telemetryOnly s marshalErr transport readFile fuel td lc hpath] at h
    cases h
    intro p hp
    rw [List.mem_singleton.mp hp]
    exact hP _ _
  · rw [send_logPath s marshalErr transport readFile fuel td lc hpath] at h
    exact sendLoop_forall s marshalErr transport _ _ P hP fuel 0 0 r h

/-- The error that `Send` returns is the same for every content of the files of the common
pipeline environment. -/
theorem send_err_readFile (s : Splunk) (marshalErr : Msg → Option String)
    (transport : Nat → piperhttp.Result) (readFile readFile2 : String → Except String String)
    (fuel : Nat) (td : telemetry.Data) (lc : log.CollectorHook Msg) :
    (s.Send marshalErr transport readFile fuel td lc).map (fun r => r.err) =
      (s.Send marshalErr transport readFile2 fuel td lc).map (fun r => r.err) := by
  by_cases hpath : td.ErrorCode = "0" ∨ (td.ErrorCode = "1" ∧ ¬ s.sendLogs = true)
  · rw [send_telemetryOnly s marshalErr transport readFile fuel td lc hpath,
      send_telemetryOnly s marshalErr transport readFile2 fuel td lc hpath]
    simp only [Option.map_some']
    rw [(tryPostMessages_err_telemetry s marshalErr transport 0
      (s.prepareTelemetry readFile td) (s.prepareTelemetry readFile2 td) []).1]
  · rw [send_logPath s marshalErr transport readFile fuel td lc hpath,
      send_logPath s marshalErr transport readFile2 fuel td lc hpath]
    exact sendLoop_err_telemetry s marshalErr transport _ _ _ fuel 0 0

theorem mem_issued {E : Type} (posts : List (PostResult E)) (q : piperhttp.Request E) :
    q ∈ issued posts ↔ ∃ p ∈ posts, p.request = some q := by
  simp [issued, List.mem_filterMap]

end sendMore

end splunk

namespace splunk

section lastLemmas
variable {Msg PT : Type}

/-- When every post call of the loop of `SendPipelineStatus` succeeded, the requests carry
the rest of the lines from the loop index on, in order. -/
theorem statusLoop_join (s : Splunk) (marshalTelemetryErr : PT → Option String)
    (transport : Nat → piperhttp.Result) (tel : PT) (splitted : List String)
    (fuel : Nat) :
    ∀ i sent r, s.statusLoop marshalTelemetryErr transport tel splitted fuel i sent = some r →
      (∀ p ∈ r.posts, p.err = none) → (logMessages r.posts).flatten = splitted.drop i := by
  induction fuel with
  | zero =>
    intro i sent r h _
    by_cases hi : i < splitted.length
    · simp [Splunk.statusLoop, hi] at h
    · rw [statusLoop_done s marshalTelemetryErr transport tel splitted 0 i sent (by omega)] at h
      cases h
      simp [logMessages, issued, List.drop_of_length_le (Nat.not_lt.mp hi)]
  | succ fuel ih =>
    intro i sent r h hall
    by_cases hi : i < splitted.length
    · rw [statusLoop_step s marshalTelemetryErr transport tel splitted fuel i sent hi] at h
      split at h
      · rename_i herr
        cases h
        have := hall _ (List.mem_singleton.mpr rfl)
        simp [this] at herr
      · rename_i hok
        cases hrest : s.statusLoop marshalTelemetryErr transport tel splitted fuel
            (i + s.postMessagesBatchSize) (sent + 1) with
        | none => rw [hrest] at h; simp at h
        | some rest =>
          rw [hrest] at h
          simp only [Option.map_some', Option.some.injEq] at h
          subst h
          have hrestok : ∀ p ∈ rest.posts, p.err = none :=
            fun p hp => hall p (List.mem_cons_of_mem _ hp)
          have hjoin := ih _ _ rest hrest hrestok
          simp only [Option.not_isSome_iff_eq_none] at hok
          have hreq := postLogFile_ok_request s marshalTelemetryErr transport sent tel _ hok
          obtain ⟨q, hq⟩ := Option.isSome_iff_exists.mp hreq
          have hmsg := postLogFile_request s marshalTelemetryErr transport sent tel _ q hq
          simp only [logMessages, issued, List.filterMap_cons, hq, List.map_cons,
            List.flatten_cons, hmsg]
          simp only [logMessages, issued] at hjoin
          rw [hjoin, take_append_drop_add]
    · rw [statusLoop_done s marshalTelemetryErr transport tel splitted _ i sent (by omega)] at h
      cases h
      simp [logMessages, issued, List.drop_of_length_le (Nat.not_lt.mp hi)]

/-- Joining the pieces of a split with the separator gives the text back. -/
theorem join_split (s : String) : strings.Join (strings.Split s '\n') "\n" = s := by
  unfold strings.Join strings.Split
  rw [List.map_map]
  have h : (String.data ∘ String.mk) = (id : List Char → List Char) := rfl
  rw [h, List.map_id]
  show String.mk (List.intercalate ['\n'] (s.data.splitOn '\n')) = s
  rw [List.intercalate_splitOn]

theorem ceil_pos_of_lt (d B : Nat) (hB : 0 < B) (hd : 0 < d) : 1 ≤ (d + B - 1) / B :=
  (Nat.le_div_iff_mul_le hB).mpr (by omega)

/-- With a positive batch size the loop of `Send` ends after at most as many runs of its body
as there are batches left: the number of messages left, divided by the batch size and rounded
up. -/
theorem sendLoop_terminates_within (s : Splunk) (marshalErr : Msg → Option String)
    (transport : Nat → piperhttp.Result) (tel : MonitoringData) (Messages : List Msg)
    (hB : 0 < s.postMessagesBatchSize) (fuel : Nat) :
    ∀ i sent,
      (Messages.length - i + s.postMessagesBatchSize - 1) / s.postMessagesBatchSize ≤ fuel →
      ∃ r, s.sendLoop marshalErr transport tel Messages fuel i sent = some r ∧
        r.posts.length ≤
          (Messages.length - i + s.postMessagesBatchSize - 1) / s.postMessagesBatchSize := by
  induction fuel with
  | zero =>
    intro i sent h
    have hi : Messages.length ≤ i := by
      by_contra hlt
      have := ceil_pos_of_lt (Messages.length - i) _ hB (by omega)
      omega
    exact ⟨_, sendLoop_done s marshalErr transport tel Messages 0 i sent hi, Nat.zero_le _⟩
  | succ fuel ih =>
    intro i sent h
    by_cases hi : i < Messages.length
    · have hpos := ceil_pos_of_lt (Messages.length - i) _ hB (by omega)
      have hstep := ceil_step (Messages.length - i) _ hB (by omega)
      have hsub : Messages.length - (i + s.postMessagesBatchSize) =
          Messages.length - i - s.postMessagesBatchSize := by omega
      rw [sendLoop_step s marshalErr transport tel Messages fuel i sent hi]
      split
      · exact ⟨_, rfl, hpos⟩
      · obtain ⟨rest, hrest, hlen⟩ := ih (i + s.postMessagesBatchSize) (sent + 1)
          (by rw [hsub]; omega)
        rw [hrest]
        refine ⟨_, rfl, ?_⟩
        rw [hsub] at hlen
        simp only [List.length_cons]
        omega
    · exact ⟨_, sendLoop_done s marshalErr transport tel Messages _ i sent (by omega),
        Nat.zero_le _⟩

/-- With a positive batch size the loop of `SendPipelineStatus` ends after at most as many
runs of its body as there are batches left. -/
theorem statusLoop_terminates_within (s : Splunk) (marshalTelemetryErr : PT → Option String)
    (transport : Nat → piperhttp.Result) (tel : PT) (splitted : List String)
    (hB : 0 < s.postMessagesBatchSize) (fuel : Nat) :
    ∀ i sent,
      (splitted.length - i + s.postMessagesBatchSize - 1) / s.postMessagesBatchSize ≤ fuel →
      ∃ r, s.statusLoop marshalTelemetryErr transport tel splitted fuel i sent = some r ∧
        r.posts.length ≤
          (splitted.length - i + s.postMessagesBatchSize - 1) / s.postMessagesBatchSize := by
  induction fuel with
  | zero =>
    intro i sent h
    have hi : splitted.length ≤ i := by
      by_contra hlt
      have := ceil_pos_of_lt (splitted.length - i) _ hB (by omega)
      omega
    exact ⟨_, statusLoop_done s marshalTelemetryErr transport tel splitted 0 i sent hi,
      Nat.zero_le _⟩
  | succ fuel ih =>
    intro i sent h
    by_cases hi : i < splitted.length
    · have hpos := ceil_pos_of_lt (splitted.length - i) _ hB (by omega)
      have hstep := ceil_step (splitted.length - i) _ hB (by omega)
      have hsub : splitted.length - (i + s.postMessagesBatchSize) =
          splitted.length - i - s.postMessagesBatchSize := by omega
      rw [statusLoop_step s marshalTelemetryErr transport tel splitted fuel i sent hi]
      split
      · exact ⟨_, rfl, hpos⟩
      · obtain ⟨rest, hrest, hlen⟩ := ih (i + s.postMessagesBatchSize) (sent + 1)
          (by rw [hsub]; omega)
        rw [hrest]
        refine ⟨_, rfl, ?_⟩
        rw [hsub] at hlen
        simp only [List.length_cons]
        omega
    · exact ⟨_, statusLoop_done s marshalTelemetryErr transport tel splitted _ i sent
        (by omega), Nat.zero_le _⟩

/-- With batch size zero the loop index stays where it is: as long as the posts of the empty
batch succeed, no amount of fuel lets the loop of `Send` end. -/
theorem sendLoop_stuck (s : Splunk) (marshalErr : Msg → Option String)
    (transport : Nat → piperhttp.Result) (tel : MonitoringData) (Messages : List Msg)
    (hB : s.postMessagesBatchSize = 0) (i : Nat) (hi : i < Messages.length)
    (hok : ∀ sent, (s.tryPostMessages marshalErr transport sent tel []).err = none)
    (fuel : Nat) :
    ∀ sent, s.sendLoop marshalErr transport tel Messages fuel i sent = none := by
  induction fuel with
  | zero =>
    intro sent
    simp [Splunk.sendLoop, hi]
  | succ fuel ih =>
    intro sent
    rw [sendLoop_step s marshalErr transport tel Messages fuel i sent hi, hB, List.take_zero,
      hok sent, Nat.add_zero, ih (sent + 1)]
    rfl

/-- A call of `postLogFile` looks at the answer to its own request only. -/
theorem postLogFile_congr (s : Splunk) (marshalTelemetryErr : PT → Option String)
    (transport transport2 : Nat → piperhttp.Result) (sent : Nat) (tel : PT)
    (messages : List String) (h : transport sent = transport2 sent) :
    s.postLogFile marshalTelemetryErr transport sent tel messages =
      s.postLogFile marshalTelemetryErr transport2 sent tel messages := by
  unfold Splunk.postLogFile
  rw [h]

/-- The loop of `SendPipelineStatus` looks at the answers to its own requests only. -/
theorem statusLoop_congr (s : Splunk) (marshalTelemetryErr : PT → Option String)
    (transport transport2 : Nat → piperhttp.Result) (tel : PT) (splitted : List String)
    (fuel : Nat) :
    ∀ i sent, (∀ k, sent ≤ k → transport k = transport2 k) →
      s.statusLoop marshalTelemetryErr transport tel splitted fuel i sent =
        s.statusLoop marshalTelemetryErr transport2 tel splitted fuel i sent := by
  induction fuel with
  | zero =>
    intro i sent _
    simp [Splunk.statusLoop]
  | succ fuel ih =>
    intro i sent h
    by_cases hi : i < splitted.length
    · rw [statusLoop_step s marshalTelemetryErr transport tel splitted fuel i sent hi,
        statusLoop_step s marshalTelemetryErr transport2 tel splitted fuel i sent hi,
        postLogFile_congr s marshalTelemetryErr transport transport2 sent tel _
          (h sent (Nat.le_refl _)),
        ih (i + s.postMessagesBatchSize) (sent + 1) (fun k hk => h k (by omega))]
    · rw [statusLoop_done s marshalTelemetryErr transport tel splitted _ i sent (by omega),
        statusLoop_done s marshalTelemetryErr transport2 tel splitted _ i sent (by omega)]

/-- The loop of `SendPipelineStatus` returns `nil` exactly when every post call it made
returned `nil`. -/
theorem statusLoop_err_none_iff (s : Splunk) (marshalTelemetryErr : PT → Option String)
    (transport : Nat → piperhttp.Result) (tel : PT) (splitted : List String) (fuel : Nat) :
    ∀ i sent r, s.statusLoop marshalTelemetryErr transport tel splitted fuel i sent = some r →
      (r.err = none ↔ ∀ p ∈ r.posts, p.err = none) := by
  induction fuel with
  | zero =>
    intro i sent r h
    by_cases hi : i < splitted.length
    · simp [Splunk.statusLoop, hi] at h
    · rw [statusLoop_done s marshalTelemetryErr transport tel splitted 0 i sent (by omega)] at h
      cases h
      simp
  | succ fuel ih =>
    intro i sent r h
    by_cases hi : i < splitted.length
    · rw [statusLoop_step s marshalTelemetryErr transport tel splitted fuel i sent hi] at h
      split at h
      · cases h
        simp only [wrap_eq_none, List.mem_singleton, forall_eq]
      · rename_i hok
        cases hrest : s.statusLoop marshalTelemetryErr transport tel splitted fuel
            (i + s.postMessagesBatchSize) (sent + 1) with
        | none => rw [hrest] at h; simp at h
        | some rest =>
          rw [hrest] at h
          simp only [Option.map_some', Option.some.injEq] at h
          subst h
          have := ih _ _ rest hrest
          simp only [List.mem_cons, forall_eq_or_imp]
          rw [this]
          simp only [Option.not_isSome_iff_eq_none] at hok
          simp [hok]
    · rw [statusLoop_done s marshalTelemetryErr transport tel splitted _ i sent (by omega)] at h
      cases h
      simp

end lastLemmas

end splunk

namespace splunk

section rawLemmas
variable {Msg PT E : Type}

/-- On a result whose response has its body the lines after `SendRequest` return, and return
what `afterSendRequest` says. -/
theorem afterSendRequestRaw_raw (request : piperhttp.Request E) (result : piperhttp.Result) :
    afterSendRequestRaw request result.raw = .returned (afterSendRequest request result) := by
  cases result with
  | noResponse e => rfl
  | response resp err =>
    simp only [afterSendRequestRaw, afterSendRequest, piperhttp.Result.raw]
    split
    · split <;> rfl
    · split <;> rfl

/-- On a transport whose responses have their bodies `tryPostMessages` returns, and returns
what `tryPostMessages` over such transports returns. -/
theorem tryPostMessagesRaw_raw (s : Splunk) (marshalErr : Msg → Option String)
    (transport : Nat → piperhttp.Result) (sent : Nat) (tel : MonitoringData)
    (messages : List Msg) :
    s.tryPostMessagesRaw marshalErr (fun k => (transport k).raw) sent tel messages =
      .returned (s.tryPostMessages marshalErr transport sent tel messages) := by
  unfold Splunk.tryPostMessagesRaw Splunk.tryPostMessages
  simp only
  split
  · rfl
  · rw [afterSendRequestRaw_raw]
    rfl

/-- On a transport whose responses have their bodies `postTelemetry` returns, and returns
what `postTelemetry` over such transports returns. -/
theorem postTelemetryRaw_raw (s : Splunk) (marshalTelemetryErr : PT → Option String)
    (transport : Nat → piperhttp.Result) (sent : Nat) (tel : PT) :
    s.postTelemetryRaw marshalTelemetryErr (fun k => (transport k).raw) sent tel =
      .returned (s.postTelemetry marshalTelemetryErr transport sent tel) := by
  unfold Splunk.postTelemetryRaw Splunk.postTelemetry
  simp only
  split
  · rfl
  · rw [afterSendRequestRaw_raw]
    rfl

/-- On a transport whose responses have their bodies `postLogFile` returns, and returns what
`postLogFile` over such transports returns. -/
theorem postLogFileRaw_raw (s : Splunk) (marshalTelemetryErr : PT → Option String)
    (transport : Nat → piperhttp.Result) (sent : Nat) (tel : PT) (messages : List String) :
    s.postLogFileRaw marshalTelemetryErr (fun k => (transport k).raw) sent tel messages =
      .returned (s.postLogFile marshalTelemetryErr transport sent tel messages) := by
  unfold Splunk.postLogFileRaw Splunk.postLogFile
  simp only
  split
  · rfl
  · rw [afterSendRequestRaw_raw]
    rfl

/-- On a transport whose responses have their bodies the loop of `SendPipelineStatus` does
not panic, and does what `statusLoop` over such transports does. -/
theorem statusLoopRaw_raw (s : Splunk) (marshalTelemetryErr : PT → Option String)
    (transport : Nat → piperhttp.Result) (tel : PT) (splitted : List String) (fuel : Nat) :
    ∀ i sent,
      s.statusLoopRaw marshalTelemetryErr (fun k => (transport k).raw) tel splitted fuel i
          sent =
        (s.statusLoop marshalTelemetryErr transport tel splitted fuel i sent).map
          Outcome.returned := by
  induction fuel with
  | zero =>
    intro i sent
    unfold Splunk.statusLoopRaw Splunk.statusLoop
    split <;> rfl
  | succ fuel ih =>
    intro i sent
    rw [Splunk.statusLoopRaw, Splunk.statusLoop]
    by_cases hi : i < splitted.length
    · simp only [hi, if_true, postLogFileRaw_raw]
      by_cases herr : (s.postLogFile marshalTelemetryErr transport sent tel
          (slice splitted i (if i + s.postMessagesBatchSize > splitted.length
            then splitted.length else i + s.postMessagesBatchSize))).err.isSome = true
      · simp only [herr, if_true, Option.map_some']
      · simp only [herr, ih]
        cases s.statusLoop marshalTelemetryErr transport tel splitted fuel
          (i + s.postMessagesBatchSize) _ <;> rfl
    · simp only [hi, if_false, Option.map_some']

/-- On a transport whose responses have their bodies `SendPipelineStatus` does not panic, and
does what `SendPipelineStatus` over such transports does. -/
theorem sendPipelineStatusRaw_raw (s : Splunk) (marshalTelemetryErr : PT → Option String)
    (transport : Nat → piperhttp.Result) (fuel : Nat) (tel : PT) (logFile : String) :
    s.SendPipelineStatusRaw marshalTelemetryErr (fun k => (transport k).raw) fuel tel
        logFile =
      (s.SendPipelineStatus marshalTelemetryErr transport fuel tel logFile).map
        Outcome.returned := by
  unfold Splunk.SendPipelineStatusRaw Splunk.SendPipelineStatus
  simp only [postTelemetryRaw_raw]
  split
  · rw [statusLoopRaw_raw]
    cases s.statusLoop marshalTelemetryErr transport tel (strings.Split logFile '\n') fuel 0
      _ <;> rfl
  · rfl

end rawLemmas

section issuedLemmas
variable {Msg PT E : Type}

theorem issuedPosts_eq_self (posts : List (PostResult E))
    (h : ∀ p ∈ posts, p.request.isSome = true) : issuedPosts posts = posts := by
  unfold issuedPosts
  exact List.filter_eq_self.mpr h

theorem issued_ne_nil (posts : List (PostResult E)) (hne : posts ≠ [])
    (h : ∀ p ∈ posts, p.request.isSome = true) : issued posts ≠ [] := by
  cases posts with
  | nil => exact absurd rfl hne
  | cons p ps =>
    obtain ⟨q, hq⟩ := Option.isSome_iff_exists.mp (h p (List.mem_cons_self _ _))
    intro hnil
    have hmem : q ∈ issued (p :: ps) :=
      (mem_issued _ _).mpr ⟨p, List.mem_cons_self _ _, hq⟩
    rw [hnil] at hmem
    exact absurd hmem (List.not_mem_nil q)

/-- A loop of `Send` that starts before the end of the messages makes a post call. -/
theorem sendLoop_posts_ne_nil (s : Splunk) (marshalErr : Msg → Option String)
    (transport : Nat → piperhttp.Result) (tel : MonitoringData) (Messages : List Msg)
    (fuel i sent : Nat) (r : SendResult Msg) (hi : i < Messages.length)
    (h : s.sendLoop marshalErr transport tel Messages fuel i sent = some r) :
    r.posts ≠ [] := by
  cases fuel with
  | zero => simp [Splunk.sendLoop, hi] at h
  | succ fuel =>
    rw [sendLoop_step s marshalErr transport tel Messages fuel i sent hi] at h
    split at h
    · cases h
      exact List.cons_ne_nil _ _
    · cases hrest : s.sendLoop marshalErr transport tel Messages fuel
          (i + s.postMessagesBatchSize) (sent + 1) with
      | none => rw [hrest] at h; simp at h
      | some rest =>
        rw [hrest] at h
        simp only [Option.map_some', Option.some.injEq] at h
        subst h
        exact List.cons_ne_nil _ _

/-- A loop of `SendPipelineStatus` that starts before the end of the lines makes a post
call. -/
theorem statusLoop_posts_ne_nil (s : Splunk) (marshalTelemetryErr : PT → Option String)
    (transport : Nat → piperhttp.Result) (tel : PT) (splitted : List String)
    (fuel i sent : Nat) (r : LogFileResult PT) (hi : i < splitted.length)
    (h : s.statusLoop marshalTelemetryErr transport tel splitted fuel i sent = some r) :
    r.posts ≠ [] := by
  cases fuel with
  | zero => simp [Splunk.statusLoop, hi] at h
  | succ fuel =>
    rw [statusLoop_step s marshalTelemetryErr transport tel splitted fuel i sent hi] at h
    split at h
    · cases h
      exact List.cons_ne_nil _ _
    · cases hrest : s.statusLoop marshalTelemetryErr transport tel splitted fuel
          (i + s.postMessagesBatchSize) (sent + 1) with
      | none => rw [hrest] at h; simp at h
      | some rest =>
        rw [hrest] at h
        simp only [Option.map_some', Option.some.injEq] at h
        subst h
        exact List.cons_ne_nil _ _

/-- When the telemetry can be encoded, every call of `postLogFile` hands its request to the
transport. -/
theorem postLogFile_request_of_encodable (s : Splunk)
    (marshalTelemetryErr : PT → Option String) (transport : Nat → piperhttp.Result)
    (sent : Nat) (tel : PT) (messages : List String) (henc : marshalTelemetryErr tel = none) :
    (s.postLogFile marshalTelemetryErr transport sent tel messages).request.isSome = true := by
  rw [postLogFile_eq_afterSendRequest s marshalTelemetryErr transport sent tel messages henc,
    afterSendRequest_request]
  rfl

/-- What `Send` does when every collected message can be encoded: every post call hands its
request to the transport, there is one post call on the telemetry-only path, and at least one
on the log-shipping path when a message was collected. -/
theorem send_posts_of_encodable (s : Splunk) (marshalErr : Msg → Option String)
    (transport : Nat → piperhttp.Result) (readFile : String → Except String String)
    (fuel : Nat) (td : telemetry.Data) (lc : log.CollectorHook Msg) (r : SendResult Msg)
    (henc : ∀ m ∈ lc.Messages, marshalErr m = none)
    (h : s.Send marshalErr transport readFile fuel td lc = some r) :
    (∀ p ∈ r.posts, p.request.isSome = true) ∧
    ((td.ErrorCode = "0" ∨ (td.ErrorCode = "1" ∧ ¬ s.sendLogs = true)) →
      r.posts.length = 1) ∧
    (¬ (td.ErrorCode = "0" ∨ (td.ErrorCode = "1" ∧ ¬ s.sendLogs = true)) →
      lc.Messages ≠ [] → r.posts ≠ []) := by
  refine ⟨send_posts_issued s marshalErr transport readFile fuel td lc r henc h,
    fun hpath => ?_, fun hpath hne => ?_⟩
  · rw [send_telemetryOnly s marshalErr transport readFile fuel td lc hpath] at h
    cases h
    rfl
  · rw [send_logPath s marshalErr transport readFile fuel td lc hpath] at h
    exact sendLoop_posts_ne_nil s marshalErr transport _ _ fuel 0 0 r
      (List.length_pos.mpr hne) h

end issuedLemmas

end splunk

/-! ## The claims -/

namespace splunk

section claims
variable {Msg : Type}

/-- C1: on the log-shipping path, for every message sequence and every batch size `B > 0`,
`Send` returns, and when every request succeeded the message lists of the requests,
concatenated in the order of the requests, are the collected messages. -/
theorem send_batches_concat (s : Splunk) (marshalErr : Msg → Option String)
    (transport : Nat → piperhttp.Result) (readFile : String → Except String String)
    (fuel : Nat) (td : telemetry.Data) (lc : log.CollectorHook Msg)
    (hB : 0 < s.postMessagesBatchSize)
    (hpath : ¬ (td.ErrorCode = "0" ∨ (td.ErrorCode = "1" ∧ ¬ s.sendLogs = true)))
    (hfuel : lc.Messages.length ≤ fuel) :
    ∃ r, s.Send marshalErr transport readFile fuel td lc = some r ∧
      ((∀ p ∈ r.posts, p.err = none) → (requestMessages r).flatten = lc.Messages) := by
  obtain ⟨r, hr⟩ := send_terminates s marshalErr transport readFile fuel td lc hB hfuel
  refine ⟨r, hr, fun hall => ?_⟩
  rw [send_logPath s marshalErr transport readFile fuel td lc hpath] at hr
  simpa using sendLoop_join s marshalErr transport _ _ fuel 0 0 r hr hall

/-- Five messages in batches of two, all accepted: the three requests carry them in order. -/
theorem send_batches_concat_witness :
    ∃ r, sampleSplunk.Send encodable accepting noFiles 5 (sampleStep "1")
        ⟨["a", "b", "c", "d", "e"]⟩ = some r ∧
      (∀ p ∈ r.posts, p.err = none) ∧
      (requestMessages r).flatten = ["a", "b", "c", "d", "e"] := by
  obtain ⟨r, hr, h⟩ := send_batches_concat sampleSplunk encodable accepting noFiles 5
    (sampleStep "1") ⟨["a", "b", "c", "d", "e"]⟩ (by decide) (by decide) (by decide)
  have hall : ∀ p ∈ r.posts, p.err = none := by
    rw [← send_err_none_iff _ _ _ _ _ _ _ r hr]
    have he : (sampleSplunk.Send encodable accepting noFiles 5 (sampleStep "1")
        ⟨["a", "b", "c", "d", "e"]⟩).bind (fun r => r.err) = none := by decide
    rw [hr] at he
    exact he
  exact ⟨r, hr, hall, h hall⟩

/-- C2: when `ErrorCode` is "0", whatever `sendLogs` is and whatever was collected, `Send`
issues exactly one request, and its message list is empty. -/
theorem send_success_one_empty_request (s : Splunk) (marshalErr : Msg → Option String)
    (transport : Nat → piperhttp.Result) (readFile : String → Except String String)
    (fuel : Nat) (td : telemetry.Data) (lc : log.CollectorHook Msg)
    (hcode : td.ErrorCode = "0") :
    ∃ r, s.Send marshalErr transport readFile fuel td lc = some r ∧
      (issued r.posts).length = 1 ∧ requestMessages r = [[]] :=
  send_telemetryOnly_requests s marshalErr transport readFile fuel td lc (Or.inl hcode)

/-- A successful step with three collected messages: one request, without messages. -/
theorem send_success_one_empty_request_witness :
    (sampleStep "0").ErrorCode = "0" ∧
    ∃ r, sampleSplunk.Send encodable accepting noFiles 0 (sampleStep "0")
        ⟨["a", "b", "c"]⟩ = some r ∧
      (issued r.posts).length = 1 ∧ requestMessages r = [[]] :=
  ⟨by decide, send_success_one_empty_request sampleSplunk encodable accepting noFiles 0
    (sampleStep "0") ⟨["a", "b", "c"]⟩ (by decide)⟩

/-- C3: when `ErrorCode` is "1" and `sendLogs` is false, whatever was collected, `Send`
issues exactly one request, and its message list is empty. -/
theorem send_failure_without_logs (s : Splunk) (marshalErr : Msg → Option String)
    (transport : Nat → piperhttp.Result) (readFile : String → Except String String)
    (fuel : Nat) (td : telemetry.Data) (lc : log.CollectorHook Msg)
    (hcode : td.ErrorCode = "1") (hflag : s.sendLogs = false) :
    ∃ r, s.Send marshalErr transport readFile fuel td lc = some r ∧
      (issued r.posts).length = 1 ∧ requestMessages r = [[]] :=
  send_telemetryOnly_requests s marshalErr transport readFile fuel td lc
    (Or.inr ⟨hcode, by simp [hflag]⟩)

/-- A failed step, logs switched off, three collected messages: one request, without messages.
-/
theorem send_failure_without_logs_witness :
    ∃ r, { sampleSplunk with sendLogs := false }.Send encodable accepting noFiles 0
        (sampleStep "1") ⟨["a", "b", "c"]⟩ = some r ∧
      (issued r.posts).length = 1 ∧ requestMessages r = [[]] :=
  send_failure_without_logs { sampleSplunk with sendLogs := false } encodable accepting
    noFiles 0 (sampleStep "1") ⟨["a", "b", "c"]⟩ (by decide) (by decide)

end claims

end splunk

namespace splunk

section claims
variable {Msg : Type}

/-- C4: when `ErrorCode` is "1", `sendLogs` is true and the batch size `B` is positive, `Send`
returns, and when every request succeeded the number of requests is `N / B` rounded up, `N`
being the number of collected messages; 45000 messages with `B = 20000` give 3 requests. -/
theorem send_request_count (s : Splunk) (marshalErr : Msg → Option String)
    (transport : Nat → piperhttp.Result) (readFile : String → Except String String)
    (fuel : Nat) (td : telemetry.Data) (lc : log.CollectorHook Msg)
    (hB : 0 < s.postMessagesBatchSize)
    (hcode : td.ErrorCode = "1") (hflag : s.sendLogs = true)
    (hfuel : lc.Messages.length ≤ fuel) :
    ∃ r, s.Send marshalErr transport readFile fuel td lc = some r ∧
      ((∀ p ∈ r.posts, p.err = none) →
        (issued r.posts).length =
          ⌈(lc.Messages.length : ℚ) / (s.postMessagesBatchSize : ℚ)⌉₊ ∧
        (lc.Messages.length = 45000 → s.postMessagesBatchSize = 20000 →
          (issued r.posts).length = 3)) := by
  have hpath : ¬ (td.ErrorCode = "0" ∨ (td.ErrorCode = "1" ∧ ¬ s.sendLogs = true)) := by
    rw [hcode, hflag]
    decide
  obtain ⟨r, hr⟩ := send_terminates s marshalErr transport readFile fuel td lc hB hfuel
  refine ⟨r, hr, fun hall => ?_⟩
  rw [send_logPath s marshalErr transport readFile fuel td lc hpath] at hr
  have hcount := sendLoop_count s marshalErr transport _ _ hB fuel 0 0 r hr hall
  rw [Nat.sub_zero] at hcount
  refine ⟨by rw [ceil_formula _ _ hB]; exact hcount, fun hN hb => ?_⟩
  rw [hcount, hN, hb]

/-- Five messages in batches of two, all accepted: three requests. -/
theorem send_request_count_witness :
    ∃ r, sampleSplunk.Send encodable accepting noFiles 5 (sampleStep "1")
        ⟨["a", "b", "c", "d", "e"]⟩ = some r ∧
      (∀ p ∈ r.posts, p.err = none) ∧ (issued r.posts).length = 3 := by
  obtain ⟨r, hr, h⟩ := send_request_count sampleSplunk encodable accepting noFiles 5
    (sampleStep "1") ⟨["a", "b", "c", "d", "e"]⟩ (by decide) (by decide) (by decide)
    (by decide)
  have hall : ∀ p ∈ r.posts, p.err = none := by
    rw [← send_err_none_iff _ _ _ _ _ _ _ r hr]
    have he : (sampleSplunk.Send encodable accepting noFiles 5 (sampleStep "1")
        ⟨["a", "b", "c", "d", "e"]⟩).bind (fun r => r.err) = none := by decide
    rw [hr] at he
    exact he
  refine ⟨r, hr, hall, ?_⟩
  have hc := (h hall).1
  rw [ceil_formula _ _ (by decide)] at hc
  exact hc

/-- C5, evaluated on the code: a receiver set up by `Initialize` with `sendLogs` true, a step
that failed with `ErrorCode` "1" and an empty message sequence. `Send` makes no post call,
issues no request and returns `nil`. -/
theorem send_failure_without_messages_is_silent :
    ((sampleSplunk.Initialize "build-7" "https://splunk.example/services/collector" "0a1b2c"
        "main" true).s.Send encodable accepting noFiles 0 (sampleStep "1") ⟨[]⟩).map
      (fun r => (r.posts.length, (issued r.posts).length, r.err)) = some (0, 0, none) := by
  decide

/-- C6: on the log-shipping path with at least one message and a positive batch size `B`,
`Send` returns, and when every request succeeded no request carries more than `B` messages,
every request but the last carries exactly `B`, and the last carries `N mod B` messages when
`B` does not divide `N` and `B` when it does; 45000 messages with `B = 20000` give the sizes
20000, 20000, 5000. -/
theorem send_batch_sizes (s : Splunk) (marshalErr : Msg → Option String)
    (transport : Nat → piperhttp.Result) (readFile : String → Except String String)
    (fuel : Nat) (td : telemetry.Data) (lc : log.CollectorHook Msg)
    (hB : 0 < s.postMessagesBatchSize)
    (hpath : ¬ (td.ErrorCode = "0" ∨ (td.ErrorCode = "1" ∧ ¬ s.sendLogs = true)))
    (hN : 1 ≤ lc.Messages.length) (hfuel : lc.Messages.length ≤ fuel) :
    ∃ r, s.Send marshalErr transport readFile fuel td lc = some r ∧
      ((∀ p ∈ r.posts, p.err = none) →
        (∀ x ∈ requestSizes r, x ≤ s.postMessagesBatchSize) ∧
        (∀ x ∈ (requestSizes r).dropLast, x = s.postMessagesBatchSize) ∧
        (requestSizes r).getLast? =
          some (if lc.Messages.length % s.postMessagesBatchSize = 0
                then s.postMessagesBatchSize
                else lc.Messages.length % s.postMessagesBatchSize) ∧
        (lc.Messages.length = 45000 → s.postMessagesBatchSize = 20000 →
          requestSizes r = [20000, 20000, 5000])) := by
  obtain ⟨r, hr⟩ := send_terminates s marshalErr transport readFile fuel td lc hB hfuel
  refine ⟨r, hr, fun hall => ?_⟩
  rw [send_logPath s marshalErr transport readFile fuel td lc hpath] at hr
  obtain ⟨h1, h2, h3⟩ := sendLoop_sizes s marshalErr transport _ _ hB fuel 0 0 r
    (by omega) hr hall
  rw [Nat.sub_zero] at h3
  refine ⟨h1, h2, h3, fun hlen hb => ?_⟩
  have hcount := sendLoop_count s marshalErr transport _ _ hB fuel 0 0 r hr hall
  rw [Nat.sub_zero, hlen, hb] at hcount
  have hlen3 : (requestSizes r).length = 3 := by
    simp only [requestSizes, requestMessages, List.length_map]
    exact hcount
  rw [hlen, hb] at h3
  rw [hb] at h2
  match hs : requestSizes r, hlen3 with
  | [a, b, c], _ =>
    rw [hs] at h2 h3
    have ha := h2 a (by simp)
    have hb2 := h2 b (by simp)
    simp at h3
    rw [ha, hb2, h3]

/-- Five messages in batches of two, all accepted: no batch above two, all but the last of two,
one message in the last. -/
theorem send_batch_sizes_witness :
    ∃ r, sampleSplunk.Send encodable accepting noFiles 5 (sampleStep "1")
        ⟨["a", "b", "c", "d", "e"]⟩ = some r ∧
      (∀ p ∈ r.posts, p.err = none) ∧
      (∀ x ∈ requestSizes r, x ≤ 2) ∧ (∀ x ∈ (requestSizes r).dropLast, x = 2) ∧
      (requestSizes r).getLast? = some 1 := by
  obtain ⟨r, hr, h⟩ := send_batch_sizes sampleSplunk encodable accepting noFiles 5
    (sampleStep "1") ⟨["a", "b", "c", "d", "e"]⟩ (by decide) (by decide) (by decide)
    (by decide)
  have hall : ∀ p ∈ r.posts, p.err = none := by
    rw [← send_err_none_iff _ _ _ _ _ _ _ r hr]
    have he : (sampleSplunk.Send encodable accepting noFiles 5 (sampleStep "1")
        ⟨["a", "b", "c", "d", "e"]⟩).bind (fun r => r.err) = none := by decide
    rw [hr] at he
    exact he
  obtain ⟨h1, h2, h3, _⟩ := h hall
  exact ⟨r, hr, hall, h1, h2, h3⟩

end claims

end splunk

namespace splunk

section claims
variable {Msg : Type}

/-- C7: `Send` is fail-fast. On the log-shipping path with a positive batch size `Send`
returns, and if the request for batch `k` (the post call number `k`, counted from zero) was
issued and returned the error `e`, then the requests before it succeeded, exactly `k + 1`
requests were issued and they carry the messages of the batches `0..k`, no post call follows,
and `Send` returns `e` wrapped with the context "error while sending logs". -/
theorem send_fail_fast (s : Splunk) (marshalErr : Msg → Option String)
    (transport : Nat → piperhttp.Result) (readFile : String → Except String String)
    (fuel : Nat) (td : telemetry.Data) (lc : log.CollectorHook Msg)
    (hB : 0 < s.postMessagesBatchSize)
    (hpath : ¬ (td.ErrorCode = "0" ∨ (td.ErrorCode = "1" ∧ ¬ s.sendLogs = true)))
    (hfuel : lc.Messages.length ≤ fuel) :
    ∃ r, s.Send marshalErr transport readFile fuel td lc = some r ∧
      ∀ k p e, r.posts[k]? = some p → p.request.isSome = true → p.err = some e →
        (∀ j p2, j < k → r.posts[j]? = some p2 → p2.err = none) ∧
        (issued r.posts).length = k + 1 ∧
        (requestMessages r).flatten = lc.Messages.take ((k + 1) * s.postMessagesBatchSize) ∧
        r.posts.length = k + 1 ∧
        r.err = errors.Wrap (some e) "error while sending logs" ∧
        r.err = some ("error while sending logs" ++ ": " ++ e) := by
  obtain ⟨r, hr⟩ := send_terminates s marshalErr transport readFile fuel td lc hB hfuel
  refine ⟨r, hr, fun k p e hk hreq he => ?_⟩
  rw [send_logPath s marshalErr transport readFile fuel td lc hpath] at hr
  obtain ⟨h1, h2, h3, h4⟩ := sendLoop_failFast s marshalErr transport _ _ fuel 0 0 r hr k p e hk he
  obtain ⟨h5, h6⟩ := h4 hreq
  rw [List.drop_zero] at h6
  exact ⟨h1, h5, h6, h2, h3, h3⟩

/-- Five messages in batches of two, the second request refused: two requests, the fifth
message is never sent, and the refusal comes back wrapped. -/
theorem send_fail_fast_witness :
    ∃ r, sampleSplunk.Send encodable (refusingFrom 1) noFiles 5 (sampleStep "1")
        ⟨["a", "b", "c", "d", "e"]⟩ = some r ∧
      (issued r.posts).length = 2 ∧
      (requestMessages r).flatten = ["a", "b", "c", "d"] ∧
      r.posts.length = 2 ∧
      r.err = some ("error while sending logs: 503 Service Unavailable: Splunk logging " ++
        "failed - busy: request returned with response 503 Service Unavailable") := by
  obtain ⟨r, hr, h⟩ := send_fail_fast sampleSplunk encodable (refusingFrom 1) noFiles 5
    (sampleStep "1") ⟨["a", "b", "c", "d", "e"]⟩ (by decide) (by decide) (by decide)
  have herr : (sampleSplunk.Send encodable (refusingFrom 1) noFiles 5 (sampleStep "1")
      ⟨["a", "b", "c", "d", "e"]⟩).bind (fun r => r.posts[1]?.map (fun p => p.err)) =
      some (some ("503 Service Unavailable: Splunk logging failed - busy: request " ++
        "returned with response 503 Service Unavailable")) := by decide
  have hreq : (sampleSplunk.Send encodable (refusingFrom 1) noFiles 5 (sampleStep "1")
      ⟨["a", "b", "c", "d", "e"]⟩).bind
        (fun r => r.posts[1]?.map (fun p => p.request.isSome)) = some true := by decide
  rw [hr] at herr hreq
  simp only [Option.some_bind] at herr hreq
  cases hp : r.posts[1]? with
  | none => rw [hp] at herr; simp at herr
  | some p =>
    rw [hp] at herr hreq
    simp only [Option.map_some', Option.some.injEq] at herr hreq
    obtain ⟨_, h2, h3, h4, _, h6⟩ := h 1 p _ hp hreq herr
    refine ⟨r, hr, h2, ?_, h4, ?_⟩
    · rw [h3]; decide
    · rw [h6]; decide

/-- C8 as stated fails: the third of three messages cannot be encoded, in batches of two. The
one request that `Send` issued returned without error, the second call of `tryPostMessages`
ended at the encoder before it issued a request, and `Send` returns an error. -/
theorem send_error_though_issued_requests_ok :
    (sampleSplunk.Send (rejecting "c") accepting noFiles 3 (sampleStep "1")
        ⟨["a", "b", "c"]⟩).map
      (fun r => ((issued r.posts).length, r.posts.length,
        (issuedPosts r.posts).all (fun p => p.err.isNone), r.err)) =
      some (1, 2, true,
        some ("error while sending logs: error while marshalling Splunk message details: " ++
          "json: unsupported value")) := by
  decide

/-- C8, amended: for every input whose collected messages the encoder accepts, and a positive
batch size, `Send` returns, and it returns `nil` if and only if every request it issued
returned without error, on the telemetry-only path and on the log-shipping path alike. Every
call of `tryPostMessages` issued its request; there is one on the telemetry-only path and at
least one on the log-shipping path when a message was collected. -/
theorem send_nil_iff_issued_requests_ok (s : Splunk) (marshalErr : Msg → Option String)
    (transport : Nat → piperhttp.Result) (readFile : String → Except String String)
    (fuel : Nat) (td : telemetry.Data) (lc : log.CollectorHook Msg)
    (hB : 0 < s.postMessagesBatchSize) (hfuel : lc.Messages.length ≤ fuel)
    (henc : ∀ m ∈ lc.Messages, marshalErr m = none) :
    ∃ r, s.Send marshalErr transport readFile fuel td lc = some r ∧
      (r.err = none ↔ ∀ p ∈ issuedPosts r.posts, p.err = none) ∧
      issuedPosts r.posts = r.posts ∧
      ((td.ErrorCode = "0" ∨ (td.ErrorCode = "1" ∧ ¬ s.sendLogs = true)) →
        (issuedPosts r.posts).length = 1) ∧
      (¬ (td.ErrorCode = "0" ∨ (td.ErrorCode = "1" ∧ ¬ s.sendLogs = true)) →
        lc.Messages ≠ [] → issuedPosts r.posts ≠ []) := by
  obtain ⟨r, hr⟩ := send_terminates s marshalErr transport readFile fuel td lc hB hfuel
  obtain ⟨hall, hone, hsome⟩ :=
    send_posts_of_encodable s marshalErr transport readFile fuel td lc r henc hr
  have heq : issuedPosts r.posts = r.posts := issuedPosts_eq_self r.posts hall
  refine ⟨r, hr, ?_, heq, ?_, ?_⟩
  · rw [heq]
    exact send_err_none_iff s marshalErr transport readFile fuel td lc r hr
  · rw [heq]
    exact hone
  · rw [heq]
    exact hsome

/-- Five messages in batches of two. When the collector accepts every request, three requests
are issued, each returns without error and `Send` returns `nil`; when the collector refuses
the third request, three requests are issued, one of them returns an error and `Send` returns
an error. -/
theorem send_nil_iff_issued_requests_ok_witness :
    (∃ r, sampleSplunk.Send encodable accepting noFiles 5 (sampleStep "1")
        ⟨["a", "b", "c", "d", "e"]⟩ = some r ∧
      (issuedPosts r.posts).length = 3 ∧ (∀ p ∈ issuedPosts r.posts, p.err = none) ∧
      r.err = none) ∧
    (∃ r, sampleSplunk.Send encodable (refusingFrom 2) noFiles 5 (sampleStep "1")
        ⟨["a", "b", "c", "d", "e"]⟩ = some r ∧
      (issuedPosts r.posts).length = 3 ∧ (∃ p ∈ issuedPosts r.posts, p.err ≠ none) ∧
      r.err ≠ none) := by
  constructor
  · obtain ⟨r, hr, hiff, _, _, _⟩ := send_nil_iff_issued_requests_ok sampleSplunk encodable
      accepting noFiles 5 (sampleStep "1") ⟨["a", "b", "c", "d", "e"]⟩ (by decide) (by decide)
      (fun _ _ => rfl)
    have he : (sampleSplunk.Send encodable accepting noFiles 5 (sampleStep "1")
        ⟨["a", "b", "c", "d", "e"]⟩).map
        (fun r => ((issuedPosts r.posts).length, r.err)) = some (3, none) := by decide
    rw [hr] at he
    simp only [Option.map_some', Option.some.injEq, Prod.mk.injEq] at he
    exact ⟨r, hr, he.1, hiff.mp he.2, he.2⟩
  · obtain ⟨r, hr, hiff, _, _, _⟩ := send_nil_iff_issued_requests_ok sampleSplunk encodable
      (refusingFrom 2) noFiles 5 (sampleStep "1") ⟨["a", "b", "c", "d", "e"]⟩ (by decide)
      (by decide) (fun _ _ => rfl)
    have he : (sampleSplunk.Send encodable (refusingFrom 2) noFiles 5 (sampleStep "1")
        ⟨["a", "b", "c", "d", "e"]⟩).map
        (fun r => ((issuedPosts r.posts).length, r.err.isSome)) = some (3, true) := by decide
    rw [hr] at he
    simp only [Option.map_some', Option.some.injEq, Prod.mk.injEq] at he
    have hne : r.err ≠ none := by
      intro h
      rw [h] at he
      exact absurd he.2 (by decide)
    have hex : ∃ p ∈ issuedPosts r.posts, p.err ≠ none := by
      by_contra hno
      apply hne
      apply hiff.mpr
      intro p hp
      by_contra hp2
      exact hno ⟨p, hp, hp2⟩
    exact ⟨r, hr, he.1, hex, hne⟩

/-- C9: the token that `Initialize` gives to the transport client is "Splunk " followed by
the given token when that does not start with "Splunk ", and the given token unchanged when
it does; so the configured token always starts with "Splunk ", and initialising with the
configured token configures the same token again. -/
theorem initialize_token (s : Splunk) (correlationID dsn token index : String)
    (sendLogs : Bool) :
    (strings.HasPrefix token "Splunk " = false →
      (s.Initialize correlationID dsn token index sendLogs).s.splunkClient.Token =
        "Splunk " ++ token) ∧
    (strings.HasPrefix token "Splunk " = true →
      (s.Initialize correlationID dsn token index sendLogs).s.splunkClient.Token = token) ∧
    strings.HasPrefix
      (s.Initialize correlationID dsn token index sendLogs).s.splunkClient.Token
      "Splunk " = true ∧
    ((s.Initialize correlationID dsn token index sendLogs).s.Initialize correlationID dsn
        (s.Initialize correlationID dsn token index sendLogs).s.splunkClient.Token
        index sendLogs).s.splunkClient.Token =
      (s.Initialize correlationID dsn token index sendLogs).s.splunkClient.Token := by
  cases h : strings.HasPrefix token "Splunk "
  · simp [Splunk.Initialize, h, hasPrefix_append]
  · simp [Splunk.Initialize, h]

/-- A bare token gets the scheme in front, a token that has it stays as it is. -/
theorem initialize_token_witness :
    (sampleSplunk.Initialize "build-7" "https://splunk.example" "0a1b2c" "main"
        true).s.splunkClient.Token = "Splunk 0a1b2c" ∧
    (sampleSplunk.Initialize "build-7" "https://splunk.example" "Splunk 0a1b2c" "main"
        true).s.splunkClient.Token = "Splunk 0a1b2c" :=
  ⟨(initialize_token sampleSplunk "build-7" "https://splunk.example" "0a1b2c" "main"
      true).1 (by decide),
   (initialize_token sampleSplunk "build-7" "https://splunk.example" "Splunk 0a1b2c" "main"
      true).2.1 (by decide)⟩

/-- C10, evaluated on the code: the collector answers with a status other than 200 and the
client reports no error, as it does for `204 No Content`, or as a client would that leaves
the judgement of a `500` to its caller. `tryPostMessages` reads the body, writes the line
"Splunk logging failed" and returns `nil`, since wrapping a `nil` error gives `nil`. -/
theorem tryPostMessages_rejection_returns_nil :
    (sampleSplunk.tryPostMessages encodable
        (fun _ => .response (sampleResponse 204 "204 No Content" "") none) 0
        (sampleSplunk.prepareTelemetry noFiles (sampleStep "1")) ["a"]).err = none ∧
    (sampleSplunk.tryPostMessages encodable
        (fun _ => .response (sampleResponse 204 "204 No Content" "") none) 0
        (sampleSplunk.prepareTelemetry noFiles (sampleStep "1")) ["a"]).logged =
      some "204 No Content: Splunk logging failed - " ∧
    (sampleSplunk.tryPostMessages encodable
        (fun _ => .response (sampleResponse 500 "500 Internal Server Error" "overloaded") none)
        0 (sampleSplunk.prepareTelemetry noFiles (sampleStep "1")) ["a"]).err = none ∧
    (sampleSplunk.tryPostMessages encodable
        (fun _ => .response (sampleResponse 500 "500 Internal Server Error" "overloaded") none)
        0 (sampleSplunk.prepareTelemetry noFiles (sampleStep "1")) ["a"]).logged =
      some "500 Internal Server Error: Splunk logging failed - overloaded" := by
  decide

end claims

end splunk
namespace splunk

section claims
variable {Msg PT : Type}

/-- C11: on a response other than 200 the body text in the line written to the log, and in
the returned error when the call returns the status error, is exactly the first
`min(1000, len(body))` bytes of the response body: never more than 1000 bytes, and the whole
body when that is not longer. -/
theorem tryPostMessages_diagnostic_body (s : Splunk) (marshalErr : Msg → Option String)
    (transport : Nat → piperhttp.Result) (sent : Nat) (tel : MonitoringData)
    (messages : List Msg) (resp : piperhttp.Response) (err : Option String)
    (henc : ∀ m ∈ messages, marshalErr m = none)
    (hres : transport sent = .response resp err) (hcode : resp.StatusCode ≠ 200) :
    ∃ text : String,
      text.data = resp.Body.bytes.data.take (min 1000 resp.Body.bytes.length) ∧
      text.length = min 1000 resp.Body.bytes.length ∧
      text.length ≤ 1000 ∧
      (resp.Body.bytes.length ≤ 1000 → text = resp.Body.bytes) ∧
      (s.tryPostMessages marshalErr transport sent tel messages).logged =
        some (resp.Status ++ ": Splunk logging failed - " ++ text) ∧
      (∀ e, err = some e → (readAllLimited resp.Body 1000).2 = none →
        (s.tryPostMessages marshalErr transport sent tel messages).err =
          some (resp.Status ++ ": Splunk logging failed - " ++ text ++ ": " ++ e)) := by
  obtain ⟨h1, _, h3⟩ := afterSendRequest_rejected
    ({ method := "POST", url := s.splunkDsn, body :=
        { Host := s.correlationID, Source := "", SourceType := "_json",
          Index := s.splunkIndex, Event := { Messages := messages, Telemetry := tel } } } :
      piperhttp.Request (Details Msg)) resp err hcode
  rw [tryPostMessages_eq_afterSendRequest s marshalErr transport sent tel messages henc, hres]
  refine ⟨String.mk (resp.Body.bytes.data.take 1000), ?_, ?_, ?_, ?_, h1, ?_⟩
  · show List.take 1000 resp.Body.bytes.data = _
    exact take_min_length _ _
  · show (List.take 1000 resp.Body.bytes.data).length = _
    rw [List.length_take]
    rfl
  · show (List.take 1000 resp.Body.bytes.data).length ≤ 1000
    rw [List.length_take]
    exact Nat.min_le_left _ _
  · intro hle
    have : List.take 1000 resp.Body.bytes.data = resp.Body.bytes.data :=
      List.take_of_length_le hle
    rw [this]
  · intro e he hread
    rw [h3 hread, he]
    rfl

/-- A collector that answers `503` with a body of 1500 bytes: the line in the log and the
returned error carry its first 1000 bytes. -/
theorem tryPostMessages_diagnostic_body_witness :
    ∃ text : String, text.length = 1000 ∧
      (sampleSplunk.tryPostMessages encodable
          (fun _ => .response
            (sampleResponse 503 "503 Service Unavailable" (String.mk (List.replicate 1500 'x')))
            (some "refused"))
          0 (sampleSplunk.prepareTelemetry noFiles (sampleStep "1")) ["a"]).err =
        some ("503 Service Unavailable" ++ ": Splunk logging failed - " ++ text ++ ": " ++
          "refused") := by
  obtain ⟨text, _, h2, _, _, _, h6⟩ := tryPostMessages_diagnostic_body sampleSplunk encodable
    (fun _ => .response
      (sampleResponse 503 "503 Service Unavailable" (String.mk (List.replicate 1500 'x')))
      (some "refused"))
    0 (sampleSplunk.prepareTelemetry noFiles (sampleStep "1")) ["a"]
    (sampleResponse 503 "503 Service Unavailable" (String.mk (List.replicate 1500 'x')))
    (some "refused") (fun _ _ => rfl) rfl (by decide)
  have hlen : (sampleResponse 503 "503 Service Unavailable"
      (String.mk (List.replicate 1500 'x'))).Body.bytes.length = 1500 :=
    List.length_replicate 1500 'x'
  refine ⟨text, ?_, h6 "refused" rfl ?_⟩
  · rw [h2, hlen]
    exact Nat.min_eq_left (by decide)
  · unfold readAllLimited
    rw [hlen, if_neg (by decide : ¬ 1500 < 1000)]

end claims

end splunk

namespace splunk

section claims
variable {Msg PT : Type}

/-- C12: on a response other than 200 whose diagnostic body cannot be read, each of the three
send operations returns the read error wrapped with "Error reading response body from
Splunk." instead of the status error: the returned error is made of the read error alone,
whatever the status and whatever the transport error. -/
theorem unreadable_body_error (s : Splunk) (marshalErr : Msg → Option String)
    (marshalTelemetryErr : PT → Option String) (transport : Nat → piperhttp.Result)
    (sent : Nat) (tel : MonitoringData) (messages : List Msg) (pipeline : PT)
    (lines : List String) (resp : piperhttp.Response) (err : Option String) (re : String)
    (henc : ∀ m ∈ messages, marshalErr m = none)
    (hpipe : marshalTelemetryErr pipeline = none)
    (hres : transport sent = .response resp err) (hcode : resp.StatusCode ≠ 200)
    (hshort : resp.Body.bytes.length < 1000) (hfail : resp.Body.failure = some re) :
    (s.tryPostMessages marshalErr transport sent tel messages).err =
      some ("Error reading response body from Splunk." ++ ": " ++ re) ∧
    (s.postLogFile marshalTelemetryErr transport sent pipeline lines).err =
      some ("Error reading response body from Splunk." ++ ": " ++ re) ∧
    (s.postTelemetry marshalTelemetryErr transport sent pipeline).err =
      some ("Error reading response body from Splunk." ++ ": " ++ re) := by
  rw [tryPostMessages_eq_afterSendRequest s marshalErr transport sent tel messages henc,
    postLogFile_eq_afterSendRequest s marshalTelemetryErr transport sent pipeline lines hpipe,
    postTelemetry_eq_afterSendRequest s marshalTelemetryErr transport sent pipeline hpipe, hres]
  exact ⟨afterSendRequest_unreadable _ resp err re hcode hshort hfail,
    afterSendRequest_unreadable _ resp err re hcode hshort hfail,
    afterSendRequest_unreadable _ resp err re hcode hshort hfail⟩

/-- A `502` whose body breaks off after four bytes: the three send operations return the
read error, and the status is not in it. -/
theorem unreadable_body_error_witness :
    (sampleSplunk.tryPostMessages encodable
        (fun _ => .response (brokenResponse 502 "502 Bad Gateway" "<htm" "unexpected EOF")
          (some "request returned with response 502 Bad Gateway"))
        0 (sampleSplunk.prepareTelemetry noFiles (sampleStep "1")) ["a"]).err =
      some "Error reading response body from Splunk.: unexpected EOF" ∧
    (sampleSplunk.postLogFile encodablePipeline
        (fun _ => .response (brokenResponse 502 "502 Bad Gateway" "<htm" "unexpected EOF")
          (some "request returned with response 502 Bad Gateway"))
        0 samplePipeline ["l1"]).err =
      some "Error reading response body from Splunk.: unexpected EOF" ∧
    (sampleSplunk.postTelemetry encodablePipeline
        (fun _ => .response (brokenResponse 502 "502 Bad Gateway" "<htm" "unexpected EOF")
          (some "request returned with response 502 Bad Gateway"))
        0 samplePipeline).err =
      some "Error reading response body from Splunk.: unexpected EOF" :=
  unreadable_body_error sampleSplunk encodable encodablePipeline
    (fun _ => .response (brokenResponse 502 "502 Bad Gateway" "<htm" "unexpected EOF")
      (some "request returned with response 502 Bad Gateway"))
    0 (sampleSplunk.prepareTelemetry noFiles (sampleStep "1")) ["a"] samplePipeline ["l1"]
    (brokenResponse 502 "502 Bad Gateway" "<htm" "unexpected EOF")
    (some "request returned with response 502 Bad Gateway") "unexpected EOF"
    (fun _ _ => rfl) rfl rfl (by decide) (by decide) rfl

/-- C13: when the transport returns no response and an error, each of `tryPostMessages`,
`postLogFile` and `postTelemetry` returns that error wrapped with "error sending the requests
to Splunk", and no response body is read. -/
theorem transport_failure_error (s : Splunk) (marshalErr : Msg → Option String)
    (marshalTelemetryErr : PT → Option String) (transport : Nat → piperhttp.Result)
    (sent : Nat) (tel : MonitoringData) (messages : List Msg) (pipeline : PT)
    (lines : List String) (e : String)
    (henc : ∀ m ∈ messages, marshalErr m = none)
    (hpipe : marshalTelemetryErr pipeline = none)
    (hres : transport sent = .noResponse e) :
    ((s.tryPostMessages marshalErr transport sent tel messages).err =
        some ("error sending the requests to Splunk" ++ ": " ++ e) ∧
      (s.tryPostMessages marshalErr transport sent tel messages).bodyRead = false) ∧
    ((s.postLogFile marshalTelemetryErr transport sent pipeline lines).err =
        some ("error sending the requests to Splunk" ++ ": " ++ e) ∧
      (s.postLogFile marshalTelemetryErr transport sent pipeline lines).bodyRead = false) ∧
    ((s.postTelemetry marshalTelemetryErr transport sent pipeline).err =
        some ("error sending the requests to Splunk" ++ ": " ++ e) ∧
      (s.postTelemetry marshalTelemetryErr transport sent pipeline).bodyRead = false) := by
  rw [tryPostMessages_eq_afterSendRequest s marshalErr transport sent tel messages henc,
    postLogFile_eq_afterSendRequest s marshalTelemetryErr transport sent pipeline lines hpipe,
    postTelemetry_eq_afterSendRequest s marshalTelemetryErr transport sent pipeline hpipe, hres]
  exact ⟨⟨(afterSendRequest_noResponse _ e).1, (afterSendRequest_noResponse _ e).2.1⟩,
    ⟨(afterSendRequest_noResponse _ e).1, (afterSendRequest_noResponse _ e).2.1⟩,
    ⟨(afterSendRequest_noResponse _ e).1, (afterSendRequest_noResponse _ e).2.1⟩⟩

/-- A refused connection: the three send operations return the wrapped transport error without
reading a body. -/
theorem transport_failure_error_witness :
    (sampleSplunk.tryPostMessages encodable (fun _ => .noResponse "connection refused") 0
        (sampleSplunk.prepareTelemetry noFiles (sampleStep "1")) ["a"]).err =
      some "error sending the requests to Splunk: connection refused" ∧
    (sampleSplunk.postLogFile encodablePipeline (fun _ => .noResponse "connection refused") 0
        samplePipeline ["l1"]).err =
      some "error sending the requests to Splunk: connection refused" ∧
    (sampleSplunk.postTelemetry encodablePipeline (fun _ => .noResponse "connection refused") 0
        samplePipeline).bodyRead = false :=
  have h := transport_failure_error sampleSplunk encodable encodablePipeline
    (fun _ => .noResponse "connection refused") 0
    (sampleSplunk.prepareTelemetry noFiles (sampleStep "1")) ["a"] samplePipeline ["l1"]
    "connection refused" (fun _ _ => rfl) rfl rfl
  ⟨h.1.1, h.2.1.1, h.2.2.2⟩

/-- C14, evaluated on the code: a response arrives and the call returns on one of the three
paths that end before the deferred `Close` is registered (line 326 and its copies): a `503`
reported with an error, a `502` whose body cannot be read, and a `200` that arrives together
with a transport error. On each of them `tryPostMessages` and `postLogFile` return with the
response body still open; only the path of a `200` without error closes it. -/
theorem response_body_left_open :
    (sampleSplunk.tryPostMessages encodable (refusingFrom 0) 0
        (sampleSplunk.prepareTelemetry noFiles (sampleStep "1")) ["a"]).bodyClosed = false ∧
    (sampleSplunk.tryPostMessages encodable
        (fun _ => .response (brokenResponse 502 "502 Bad Gateway" "<htm" "unexpected EOF")
          (some "request returned with response 502 Bad Gateway"))
        0 (sampleSplunk.prepareTelemetry noFiles (sampleStep "1")) ["a"]).bodyClosed = false ∧
    (sampleSplunk.tryPostMessages encodable
        (fun _ => .response (sampleResponse 200 "200 OK" "") (some "context deadline exceeded"))
        0 (sampleSplunk.prepareTelemetry noFiles (sampleStep "1")) ["a"]).bodyClosed = false ∧
    (sampleSplunk.postLogFile encodablePipeline (refusingFrom 0) 0 samplePipeline
        ["l1"]).bodyClosed = false ∧
    (sampleSplunk.postTelemetry encodablePipeline (refusingFrom 0) 0
        samplePipeline).bodyClosed = false ∧
    (sampleSplunk.tryPostMessages encodable accepting 0
        (sampleSplunk.prepareTelemetry noFiles (sampleStep "1")) ["a"]).bodyClosed = true := by
  decide

end claims

end splunk

namespace splunk

section claims
variable {Msg PT : Type}

/-- C15: `SendPipelineStatus` makes exactly one telemetry post call, first (it hands its
request to the transport whenever the telemetry can be encoded). With `sendLogs` false nothing
follows. With `sendLogs` true and a positive batch size `B` it returns, the calls of
`postLogFile` follow, and when they all succeeded their requests number `L / B` rounded up,
`L` being the number of pieces of the log text between its newlines; `L` is at least 1, so
there is at least one log batch. -/
theorem sendPipelineStatus_requests (s : Splunk) (marshalTelemetryErr : PT → Option String)
    (transport : Nat → piperhttp.Result) (fuel : Nat) (tel : PT) (logFile : String) :
    (marshalTelemetryErr tel = none →
      (s.postTelemetry marshalTelemetryErr transport 0 tel).request.isSome = true) ∧
    (s.sendLogs = false →
      ∃ r, s.SendPipelineStatus marshalTelemetryErr transport fuel tel logFile = some r ∧
        r.posts = [.telemetry (s.postTelemetry marshalTelemetryErr transport 0 tel)]) ∧
    (s.sendLogs = true → 0 < s.postMessagesBatchSize →
      (strings.Split logFile '\n').length ≤ fuel →
      ∃ r, s.SendPipelineStatus marshalTelemetryErr transport fuel tel logFile = some r ∧
        r.posts = .telemetry (s.postTelemetry marshalTelemetryErr transport 0 tel) ::
          (logFilePosts r.posts).map .logFile ∧
        1 ≤ (strings.Split logFile '\n').length ∧
        ((∀ p ∈ logFilePosts r.posts, p.err = none) →
          (issued (logFilePosts r.posts)).length =
            ⌈((strings.Split logFile '\n').length : ℚ) / (s.postMessagesBatchSize : ℚ)⌉₊ ∧
          1 ≤ (issued (logFilePosts r.posts)).length)) := by
  refine ⟨fun henc => ?_, fun hflag => ?_, fun hflag hB hfuel => ?_⟩
  · rw [postTelemetry_eq_afterSendRequest s marshalTelemetryErr transport 0 tel henc,
      afterSendRequest_request]
    rfl
  · exact ⟨_, sendPipelineStatus_off s marshalTelemetryErr transport fuel tel logFile hflag,
      rfl⟩
  · obtain ⟨r, logs, hr, hlogs, hposts, hfilter, _⟩ := sendPipelineStatus_on_run s
      marshalTelemetryErr transport fuel tel logFile hflag hB hfuel
    have hL := split_length_pos logFile '\n'
    refine ⟨r, hr, ?_, hL, fun hall => ?_⟩
    · rw [hfilter]
      exact hposts
    · rw [hfilter] at hall ⊢
      have hcount := statusLoop_count s marshalTelemetryErr transport tel _ hB fuel 0 _ logs
        hlogs hall
      rw [Nat.sub_zero] at hcount
      rw [ceil_formula _ _ hB, hcount]
      refine ⟨rfl, ?_⟩
      exact (Nat.le_div_iff_mul_le hB).mpr (by omega)

/-- A log of three lines shipped in batches of two after the telemetry: two log requests;
and with log shipping switched off the telemetry call alone. -/
theorem sendPipelineStatus_requests_witness :
    (∃ r, sampleSplunk.SendPipelineStatus encodablePipeline accepting 3 samplePipeline
        "l1\nl2\nl3" = some r ∧
      (∀ p ∈ logFilePosts r.posts, p.err = none) ∧
      (issued (logFilePosts r.posts)).length = 2) ∧
    (∃ r, { sampleSplunk with sendLogs := false }.SendPipelineStatus encodablePipeline
        accepting 0 samplePipeline "l1\nl2\nl3" = some r ∧ r.posts.length = 1) := by
  have h := sendPipelineStatus_requests sampleSplunk encodablePipeline accepting 3
    samplePipeline "l1\nl2\nl3"
  have h2 := sendPipelineStatus_requests { sampleSplunk with sendLogs := false }
    encodablePipeline accepting 0 samplePipeline "l1\nl2\nl3"
  constructor
  · obtain ⟨r, hr, _, _, hcount⟩ := h.2.2 (by decide) (by decide) (by decide)
    have hall : ∀ p ∈ logFilePosts r.posts, p.err = none := by
      have he : (sampleSplunk.SendPipelineStatus encodablePipeline accepting 3 samplePipeline
          "l1\nl2\nl3").map (fun r => (logFilePosts r.posts).all (fun p => p.err.isNone)) =
          some true := by decide
      rw [hr] at he
      simp only [Option.map_some', Option.some.injEq, List.all_eq_true,
        Option.isNone_iff_eq_none] at he
      exact he
    refine ⟨r, hr, hall, ?_⟩
    rw [(hcount hall).1, ceil_formula _ _ (by decide)]
    decide
  · obtain ⟨r, hr, hposts⟩ := h2.2.1 (by decide)
    exact ⟨r, hr, by rw [hposts]; rfl⟩

/-- C16: in `SendPipelineStatus` with `sendLogs` true and a positive batch size, which then
returns, if the request for log batch `k` (the call of `postLogFile` number `k`, counted
from zero) was issued and returned the error `e`, then the log requests before it succeeded,
exactly `k + 1` log requests were issued and they carry the lines of the batches `0..k`, no
call follows, and `SendPipelineStatus` returns `e` wrapped with "error while sending logs". -/
theorem sendPipelineStatus_fail_fast (s : Splunk) (marshalTelemetryErr : PT → Option String)
    (transport : Nat → piperhttp.Result) (fuel : Nat) (tel : PT) (logFile : String)
    (hflag : s.sendLogs = true) (hB : 0 < s.postMessagesBatchSize)
    (hfuel : (strings.Split logFile '\n').length ≤ fuel) :
    ∃ r, s.SendPipelineStatus marshalTelemetryErr transport fuel tel logFile = some r ∧
      ∀ k p e, (logFilePosts r.posts)[k]? = some p → p.request.isSome = true →
        p.err = some e →
        (∀ j p2, j < k → (logFilePosts r.posts)[j]? = some p2 → p2.err = none) ∧
        (issued (logFilePosts r.posts)).length = k + 1 ∧
        (logMessages (logFilePosts r.posts)).flatten =
          (strings.Split logFile '\n').take ((k + 1) * s.postMessagesBatchSize) ∧
        (logFilePosts r.posts).length = k + 1 ∧
        r.posts.length = k + 2 ∧
        r.err = errors.Wrap (some e) "error while sending logs" ∧
        r.err = some ("error while sending logs" ++ ": " ++ e) := by
  obtain ⟨r, logs, hr, hlogs, hposts, hfilter, herr⟩ := sendPipelineStatus_on_run s
    marshalTelemetryErr transport fuel tel logFile hflag hB hfuel
  refine ⟨r, hr, fun k p e hk hreq he => ?_⟩
  rw [hfilter] at hk ⊢
  obtain ⟨h1, h2, h3, h4⟩ := statusLoop_failFast s marshalTelemetryErr transport tel _ fuel 0 _
    logs hlogs k p e hk he
  obtain ⟨h5, h6⟩ := h4 hreq
  rw [List.drop_zero] at h6
  refine ⟨h1, h5, h6, h2, ?_, ?_, ?_⟩
  · rw [hposts, List.length_cons, List.length_map, h2]
  · rw [herr, h3]; rfl
  · rw [herr, h3]

/-- A log of three lines in batches of two; the collector accepts the telemetry and the first
log batch and refuses the second: two log requests, and the refusal comes back wrapped. -/
theorem sendPipelineStatus_fail_fast_witness :
    ∃ r, sampleSplunk.SendPipelineStatus encodablePipeline (refusingFrom 2) 3 samplePipeline
        "l1\nl2\nl3" = some r ∧
      (issued (logFilePosts r.posts)).length = 2 ∧
      r.err = some ("error while sending logs: 503 Service Unavailable: Splunk logging " ++
        "failed - busy: request returned with response 503 Service Unavailable") := by
  obtain ⟨r, hr, h⟩ := sendPipelineStatus_fail_fast sampleSplunk encodablePipeline
    (refusingFrom 2) 3 samplePipeline "l1\nl2\nl3" (by decide) (by decide) (by decide)
  have herr : (sampleSplunk.SendPipelineStatus encodablePipeline (refusingFrom 2) 3
      samplePipeline "l1\nl2\nl3").bind
        (fun r => (logFilePosts r.posts)[1]?.map (fun p => p.err)) =
      some (some ("503 Service Unavailable: Splunk logging failed - busy: request " ++
        "returned with response 503 Service Unavailable")) := by decide
  have hreq : (sampleSplunk.SendPipelineStatus encodablePipeline (refusingFrom 2) 3
      samplePipeline "l1\nl2\nl3").bind
        (fun r => (logFilePosts r.posts)[1]?.map (fun p => p.request.isSome)) =
      some true := by decide
  rw [hr] at herr hreq
  simp only [Option.some_bind] at herr hreq
  cases hp : (logFilePosts r.posts)[1]? with
  | none => rw [hp] at herr; simp at herr
  | some p =>
    rw [hp] at herr hreq
    simp only [Option.map_some', Option.some.injEq] at herr hreq
    obtain ⟨_, h2, _, _, _, _, h7⟩ := h 1 p _ hp hreq herr
    refine ⟨r, hr, h2, ?_⟩
    rw [h7]; decide

end claims

end splunk

namespace splunk

section claims
variable {Msg PT : Type}

/-- C17: the enrichment of the telemetry is best effort. For each of the four files
`git/headCommitId`, `git/branch`, `github/owner` and `github/repository` of the common
pipeline environment `prepareTelemetry` sets `CommitHash`, `Branch`, `GitOwner` and
`GitRepository` to the content of the file when it can be read and to "N/A" when it cannot;
and what `Send` returns is the same whatever the reads give, so a failed read never makes it
return an error. -/
theorem prepareTelemetry_best_effort (s : Splunk) (marshalErr : Msg → Option String)
    (transport : Nat → piperhttp.Result) (readFile readFile2 : String → Except String String)
    (fuel : Nat) (td : telemetry.Data) (lc : log.CollectorHook Msg) :
    ((∀ c, readFile (".pipeline/commonPipelineEnvironment/" ++ "git/headCommitId") = .ok c →
        (s.prepareTelemetry readFile td).CommitHash = c) ∧
      (∀ e, readFile (".pipeline/commonPipelineEnvironment/" ++ "git/headCommitId") = .error e →
        (s.prepareTelemetry readFile td).CommitHash = "N/A")) ∧
    ((∀ c, readFile (".pipeline/commonPipelineEnvironment/" ++ "git/branch") = .ok c →
        (s.prepareTelemetry readFile td).Branch = c) ∧
      (∀ e, readFile (".pipeline/commonPipelineEnvironment/" ++ "git/branch") = .error e →
        (s.prepareTelemetry readFile td).Branch = "N/A")) ∧
    ((∀ c, readFile (".pipeline/commonPipelineEnvironment/" ++ "github/owner") = .ok c →
        (s.prepareTelemetry readFile td).GitOwner = c) ∧
      (∀ e, readFile (".pipeline/commonPipelineEnvironment/" ++ "github/owner") = .error e →
        (s.prepareTelemetry readFile td).GitOwner = "N/A")) ∧
    ((∀ c, readFile (".pipeline/commonPipelineEnvironment/" ++ "github/repository") = .ok c →
        (s.prepareTelemetry readFile td).GitRepository = c) ∧
      (∀ e, readFile (".pipeline/commonPipelineEnvironment/" ++ "github/repository") =
          .error e →
        (s.prepareTelemetry readFile td).GitRepository = "N/A")) ∧
    (s.Send marshalErr transport readFile fuel td lc).map (fun r => r.err) =
      (s.Send marshalErr transport readFile2 fuel td lc).map (fun r => r.err) := by
  refine ⟨⟨?_, ?_⟩, ⟨?_, ?_⟩, ⟨?_, ?_⟩, ⟨?_, ?_⟩,
    send_err_readFile s marshalErr transport readFile readFile2 fuel td lc⟩ <;>
  · intro x hx
    simp only [Splunk.prepareTelemetry, readCommonPipelineEnvironment, hx]

/-- A workspace in which only `git/branch` is there: the branch is taken from it, the other
three fields are "N/A", and with an accepting collector `Send` returns `nil`. -/
theorem prepareTelemetry_best_effort_witness :
    (sampleSplunk.prepareTelemetry
        (fun path => if path = ".pipeline/commonPipelineEnvironment/git/branch"
          then .ok "main" else .error "no such file or directory")
        (sampleStep "1")).Branch = "main" ∧
    (sampleSplunk.prepareTelemetry
        (fun path => if path = ".pipeline/commonPipelineEnvironment/git/branch"
          then .ok "main" else .error "no such file or directory")
        (sampleStep "1")).CommitHash = "N/A" ∧
    (sampleSplunk.Send encodable accepting noFiles 3 (sampleStep "1") ⟨["a", "b", "c"]⟩).map
      (fun r => r.err) = some none := by
  have h := prepareTelemetry_best_effort sampleSplunk encodable accepting
    (fun path => if path = ".pipeline/commonPipelineEnvironment/git/branch"
      then .ok "main" else .error "no such file or directory")
    noFiles 3 (sampleStep "1") ⟨["a", "b", "c"]⟩
  refine ⟨h.2.1.1 "main" rfl, h.1.2 "no such file or directory" rfl, ?_⟩
  rw [← h.2.2.2.2]
  decide

/-- C18, evaluated on the code: `sendLogs` is false and the error code of the step is neither
"0" nor "1" (here "2", and the empty code of a record that was never filled in). `Send` takes
the log-shipping branch and its requests carry the collected messages. -/
theorem send_ships_logs_despite_flag :
    ({ sampleSplunk with sendLogs := false }.Send encodable accepting noFiles 3
        (sampleStep "2") ⟨["a", "b", "c"]⟩).map (fun r => requestMessages r) =
      some [["a", "b"], ["c"]] ∧
    ((sampleSplunk.Initialize "build-7" "https://splunk.example/services/collector" "0a1b2c"
        "main" false).s.Send encodable accepting noFiles 3
        (sampleStep "") ⟨["a", "b", "c"]⟩).map (fun r => requestMessages r) =
      some [["a", "b", "c"]] := by
  decide

/-- C19: the requests of one `Send` carry the same envelope but for the message list: each
is a POST to the configured destination whose host is the correlation id given to
`Initialize`, whose source is empty, whose source type is "_json", whose index is the
configured index and whose telemetry is the one prepared for this `Send`. `Send` does issue
requests: one on the telemetry-only path, and when the encoder accepts the collected messages
every post call issues its request, at least one on the log-shipping path when a message was
collected. The log-batch requests of `SendPipelineStatus` carry the source type "txt" and the
pipeline telemetry, each of them, and with `sendLogs` true and a telemetry that can be encoded
every call of `postLogFile` issues its request and there is at least one. -/
theorem request_envelopes (s0 s : Splunk) (correlationID dsn token index : String)
    (sendLogs : Bool) (marshalErr : Msg → Option String)
    (marshalTelemetryErr : PT → Option String) (transport : Nat → piperhttp.Result)
    (readFile : String → Except String String) (fuel : Nat) (td : telemetry.Data)
    (lc : log.CollectorHook Msg) (pipeline : PT) (logFile : String)
    (hs : s = (s0.Initialize correlationID dsn token index sendLogs).s)
    (hfuel : lc.Messages.length ≤ fuel)
    (hfuel2 : (strings.Split logFile '\n').length ≤ fuel) :
    (∃ r, s.Send marshalErr transport readFile fuel td lc = some r ∧
      (∀ q ∈ issued r.posts,
        q.method = "POST" ∧ q.url = dsn ∧ q.body.Host = correlationID ∧ q.body.Source = "" ∧
        q.body.SourceType = "_json" ∧ q.body.Index = index ∧
        q.body.Event.Telemetry = s.prepareTelemetry readFile td) ∧
      ((td.ErrorCode = "0" ∨ (td.ErrorCode = "1" ∧ ¬ s.sendLogs = true)) →
        (issued r.posts).length = 1) ∧
      ((∀ m ∈ lc.Messages, marshalErr m = none) →
        (∀ p ∈ r.posts, p.request.isSome = true) ∧
        (¬ (td.ErrorCode = "0" ∨ (td.ErrorCode = "1" ∧ ¬ s.sendLogs = true)) →
          lc.Messages ≠ [] → issued r.posts ≠ []))) ∧
    (∃ r, s.SendPipelineStatus marshalTelemetryErr transport fuel pipeline logFile = some r ∧
      (∀ q ∈ issued (logFilePosts r.posts),
        q.method = "POST" ∧ q.url = dsn ∧ q.body.Host = correlationID ∧ q.body.Source = "" ∧
        q.body.SourceType = "txt" ∧ q.body.Index = index ∧
        q.body.Event.Telemetry = pipeline) ∧
      (marshalTelemetryErr pipeline = none → s.sendLogs = true →
        (∀ p ∈ logFilePosts r.posts, p.request.isSome = true) ∧
        issued (logFilePosts r.posts) ≠ [])) := by
  have hB : 0 < s.postMessagesBatchSize := by
    rw [hs]
    show 0 < 20000
    decide
  have hcid : s.correlationID = correlationID := by rw [hs]; rfl
  have hidx : s.splunkIndex = index := by rw [hs]; rfl
  have hdsn : s.splunkDsn = dsn := by rw [hs]; rfl
  constructor
  · obtain ⟨r, hr⟩ := send_terminates s marshalErr transport readFile fuel td lc hB hfuel
    refine ⟨r, hr, fun q hq => ?_, fun hpath => ?_, fun henc => ?_⟩
    · obtain ⟨p, hp, hpq⟩ := (mem_issued _ _).mp hq
      have := send_forall s marshalErr transport readFile fuel td lc r
        (fun p => ∀ q, p.request = some q →
          q.method = "POST" ∧ q.url = s.splunkDsn ∧ q.body.Host = s.correlationID ∧
          q.body.Source = "" ∧ q.body.SourceType = "_json" ∧
          q.body.Index = s.splunkIndex ∧
          q.body.Event.Telemetry = s.prepareTelemetry readFile td)
        (fun sent messages q hq => by
          rw [tryPostMessages_request_eq s marshalErr transport sent _ messages q hq]
          exact ⟨rfl, rfl, rfl, rfl, rfl, rfl, rfl⟩)
        hr p hp q hpq
      rw [hcid, hidx, hdsn] at this
      exact this
    · obtain ⟨r2, hr2, hlen⟩ :=
        send_telemetryOnly_requests s marshalErr transport readFile fuel td lc hpath
      rw [hr] at hr2
      cases hr2
      exact hlen.1
    · obtain ⟨hall, _, hsome⟩ :=
        send_posts_of_encodable s marshalErr transport readFile fuel td lc r henc hr
      exact ⟨hall, fun hpath hne => issued_ne_nil r.posts (hsome hpath hne) hall⟩
  · have hlog : ∀ (posts : List (PostResult (DetailsLog PT))),
        (∀ p ∈ posts, ∀ q, p.request = some q →
          q.method = "POST" ∧ q.url = s.splunkDsn ∧ q.body.Host = s.correlationID ∧
          q.body.Source = "" ∧ q.body.SourceType = "txt" ∧
          q.body.Index = s.splunkIndex ∧ q.body.Event.Telemetry = pipeline) →
        ∀ q ∈ issued posts,
          q.method = "POST" ∧ q.url = dsn ∧ q.body.Host = correlationID ∧
          q.body.Source = "" ∧ q.body.SourceType = "txt" ∧
          q.body.Index = index ∧ q.body.Event.Telemetry = pipeline := by
      intro posts h q hq
      obtain ⟨p, hp, hpq⟩ := (mem_issued _ _).mp hq
      have := h p hp q hpq
      rw [hcid, hidx, hdsn] at this
      exact this
    cases hflag : s.sendLogs
    · refine ⟨_, sendPipelineStatus_off s marshalTelemetryErr transport fuel pipeline logFile
        hflag, ?_, fun _ h => absurd h (by simp)⟩
      apply hlog
      intro p hp
      simp [logFilePosts] at hp
    · obtain ⟨r, logs, hr, hlogs, _, hfilter, _⟩ := sendPipelineStatus_on_run s
        marshalTelemetryErr transport fuel pipeline logFile hflag hB hfuel2
      refine ⟨r, hr, ?_, fun henc _ => ?_⟩
      · rw [hfilter]
        apply hlog
        exact statusLoop_forall s marshalTelemetryErr transport pipeline _ _
          (fun sent messages q hq => by
            rw [postLogFile_request_eq s marshalTelemetryErr transport sent _ messages q hq]
            exact ⟨rfl, rfl, rfl, rfl, rfl, rfl, rfl⟩)
          fuel 0 _ logs hlogs
      · rw [hfilter]
        have hall : ∀ p ∈ logs.posts, p.request.isSome = true :=
          statusLoop_forall s marshalTelemetryErr transport pipeline _
            (fun p => p.request.isSome = true)
            (fun sent messages =>
              postLogFile_request_of_encodable s marshalTelemetryErr transport sent pipeline
                messages henc)
            fuel 0 _ logs hlogs
        exact ⟨hall, issued_ne_nil logs.posts
          (statusLoop_posts_ne_nil s marshalTelemetryErr transport pipeline _ fuel 0 _ logs
            (split_length_pos logFile '\n') hlogs) hall⟩

/-- A receiver initialised for the build "build-7" and the index "main", five messages and a
log of three lines: `Send` issues one request with the five messages and
`SendPipelineStatus` one log request with the three lines, each with the envelope of its
kind. -/
theorem request_envelopes_witness :
    (∃ r, (sampleSplunk.Initialize "build-7" "https://splunk.example" "0a1b2c" "main"
        true).s.Send encodable accepting noFiles 5 (sampleStep "1")
        ⟨["a", "b", "c", "d", "e"]⟩ = some r ∧
      (issued r.posts).length = 1 ∧
      ∀ q ∈ issued r.posts,
        q.method = "POST" ∧ q.url = "https://splunk.example" ∧ q.body.Host = "build-7" ∧
        q.body.Source = "" ∧ q.body.SourceType = "_json" ∧ q.body.Index = "main" ∧
        q.body.Event.Telemetry =
          (sampleSplunk.Initialize "build-7" "https://splunk.example" "0a1b2c" "main"
            true).s.prepareTelemetry noFiles (sampleStep "1")) ∧
    (∃ r, (sampleSplunk.Initialize "build-7" "https://splunk.example" "0a1b2c" "main"
        true).s.SendPipelineStatus encodablePipeline accepting 5 samplePipeline
        "l1\nl2\nl3" = some r ∧
      (issued (logFilePosts r.posts)).length = 1 ∧
      ∀ q ∈ issued (logFilePosts r.posts),
        q.method = "POST" ∧ q.url = "https://splunk.example" ∧ q.body.Host = "build-7" ∧
        q.body.Source = "" ∧ q.body.SourceType = "txt" ∧ q.body.Index = "main" ∧
        q.body.Event.Telemetry = samplePipeline) := by
  obtain ⟨⟨r, hr, henv, _, _⟩, ⟨r2, hr2, henv2, _⟩⟩ :=
    request_envelopes sampleSplunk _ "build-7" "https://splunk.example" "0a1b2c" "main" true
      encodable encodablePipeline accepting noFiles 5 (sampleStep "1")
      ⟨["a", "b", "c", "d", "e"]⟩ samplePipeline "l1\nl2\nl3" rfl (by decide) (by decide)
  have he : ((sampleSplunk.Initialize "build-7" "https://splunk.example" "0a1b2c" "main"
      true).s.Send encodable accepting noFiles 5 (sampleStep "1")
      ⟨["a", "b", "c", "d", "e"]⟩).map (fun r => (issued r.posts).length) = some 1 := by
    decide
  have he2 : ((sampleSplunk.Initialize "build-7" "https://splunk.example" "0a1b2c" "main"
      true).s.SendPipelineStatus encodablePipeline accepting 5 samplePipeline
      "l1\nl2\nl3").map (fun r => (issued (logFilePosts r.posts)).length) = some 1 := by
    decide
  rw [hr] at he
  rw [hr2] at he2
  simp only [Option.map_some', Option.some.injEq] at he he2
  exact ⟨⟨r, hr, he, henv⟩, ⟨r2, hr2, he2, henv2⟩⟩

/-- C20 as stated fails: `Initialize` with an empty destination and an empty token, and with
a destination that is no URL, returns `nil`; the receiver then holds the empty destination
and the token "Splunk ". -/
theorem initialize_accepts_missing_configuration :
    (sampleSplunk.Initialize "build-7" "" "" "main" true).err = none ∧
    (sampleSplunk.Initialize "build-7" "" "" "main" true).s.splunkDsn = "" ∧
    (sampleSplunk.Initialize "build-7" "" "" "main" true).s.splunkClient.Token = "Splunk " ∧
    (sampleSplunk.Initialize "build-7" "::not a url::" "0a1b2c" "main" true).err = none := by
  decide

/-- C20, amended: `Initialize` does not validate its configuration. For every destination and
every token, also an empty or malformed one, it returns `nil` and stores the destination as
it was given. -/
theorem initialize_never_fails (s : Splunk) (correlationID dsn token index : String)
    (sendLogs : Bool) :
    (s.Initialize correlationID dsn token index sendLogs).err = none ∧
    (s.Initialize correlationID dsn token index sendLogs).s.splunkDsn = dsn :=
  ⟨rfl, rfl⟩

end claims

end splunk

namespace splunk

section claims
variable {Msg PT : Type}

/-- C21, evaluated on the code: an envelope whose event holds no message and a telemetry
record of empty fields, and the request that `Send` issues for a record that was never filled
in. The empty strings and the empty message list leave no key, but the keys "event" and
"telemetry" are written all the same, the latter with an object without keys: the tag
`omitempty` on a field of struct type (lines 143 and 150) omits nothing. -/
theorem empty_structs_are_serialized :
    (marshalDetails marshalText
        { Host := "build-7", Source := "", SourceType := "", Index := ""
          Event := { Messages := [], Telemetry := zeroMonitoringData } }).keys =
      ["host", "event"] ∧
    ((marshalDetails marshalText
        { Host := "build-7", Source := "", SourceType := "", Index := ""
          Event := { Messages := [], Telemetry := zeroMonitoringData } }).get? "event").map
      json.Value.keys = some ["telemetry"] ∧
    (((marshalDetails marshalText
        { Host := "build-7", Source := "", SourceType := "", Index := ""
          Event := { Messages := [], Telemetry := zeroMonitoringData } }).get? "event").bind
      (fun e => e.get? "telemetry")).map json.Value.keys = some [] ∧
    ((zeroSplunk.Initialize "" "https://splunk.example/services/collector" "0a1b2c" ""
        true).s.Send encodable accepting emptyFiles 1 zeroData ⟨["a"]⟩).map
      (fun r => (issued r.posts).map (fun q =>
        ((marshalDetails marshalText q.body).keys,
         ((marshalDetails marshalText q.body).get? "event").map json.Value.keys,
         (((marshalDetails marshalText q.body).get? "event").bind
            (fun e => e.get? "telemetry")).map json.Value.keys))) =
      some [(["host", "sourcetype", "event"], some ["messages", "telemetry"], some [])] := by
  decide

/-- C22: with a positive batch size `B` the loops of `Send` and of `SendPipelineStatus` end
after at most `N / B` rounded up runs of their body, `N` being the number of messages or of
lines; `Initialize` sets the batch size to 20000, so every `Send` on an initialised receiver
returns. With batch size zero, a message collected and the log-shipping branch taken, the
loop index does not advance: as long as the posts succeed, no amount of fuel lets `Send`
return. -/
theorem batching_terminates (s : Splunk) (marshalErr : Msg → Option String)
    (marshalTelemetryErr : PT → Option String) (transport : Nat → piperhttp.Result)
    (readFile : String → Except String String) (fuel : Nat) (td : telemetry.Data)
    (lc : log.CollectorHook Msg) (pipeline : PT) (logFile : String) :
    (0 < s.postMessagesBatchSize →
      ⌈(lc.Messages.length : ℚ) / (s.postMessagesBatchSize : ℚ)⌉₊ ≤ fuel →
      ∀ tel sent, ∃ r, s.sendLoop marshalErr transport tel lc.Messages fuel 0 sent = some r ∧
        r.posts.length ≤ ⌈(lc.Messages.length : ℚ) / (s.postMessagesBatchSize : ℚ)⌉₊) ∧
    (0 < s.postMessagesBatchSize →
      ⌈((strings.Split logFile '\n').length : ℚ) / (s.postMessagesBatchSize : ℚ)⌉₊ ≤ fuel →
      ∀ sent, ∃ r, s.statusLoop marshalTelemetryErr transport pipeline
          (strings.Split logFile '\n') fuel 0 sent = some r ∧
        r.posts.length ≤
          ⌈((strings.Split logFile '\n').length : ℚ) / (s.postMessagesBatchSize : ℚ)⌉₊) ∧
    (∀ (s0 : Splunk) (correlationID dsn token index : String) (sendLogs : Bool),
      (s0.Initialize correlationID dsn token index sendLogs).s.postMessagesBatchSize = 20000 ∧
      (⌈(lc.Messages.length : ℚ) / (20000 : ℚ)⌉₊ ≤ fuel →
        ∃ r, (s0.Initialize correlationID dsn token index sendLogs).s.Send marshalErr
          transport readFile fuel td lc = some r)) ∧
    (s.postMessagesBatchSize = 0 → lc.Messages ≠ [] →
      ¬ (td.ErrorCode = "0" ∨ (td.ErrorCode = "1" ∧ ¬ s.sendLogs = true)) →
      (∀ sent, (s.tryPostMessages marshalErr transport sent (s.prepareTelemetry readFile td)
        []).err = none) →
      ∀ fuel2, s.Send marshalErr transport readFile fuel2 td lc = none) := by
  refine ⟨fun hB hfuel tel sent => ?_, fun hB hfuel sent => ?_,
    fun s0 correlationID dsn token index sendLogs => ⟨rfl, fun hfuel => ?_⟩,
    fun hB hne hpath hok fuel2 => ?_⟩
  · rw [ceil_formula _ _ hB] at hfuel ⊢
    have := sendLoop_terminates_within s marshalErr transport tel lc.Messages hB fuel 0 sent
    rw [Nat.sub_zero] at this
    exact this hfuel
  · rw [ceil_formula _ _ hB] at hfuel ⊢
    have := statusLoop_terminates_within s marshalTelemetryErr transport pipeline
      (strings.Split logFile '\n') hB fuel 0 sent
    rw [Nat.sub_zero] at this
    exact this hfuel
  · by_cases hpath : td.ErrorCode = "0" ∨ (td.ErrorCode = "1" ∧
        ¬ (s0.Initialize correlationID dsn token index sendLogs).s.sendLogs = true)
    · exact ⟨_, send_telemetryOnly _ marshalErr transport readFile fuel td lc hpath⟩
    · rw [send_logPath _ marshalErr transport readFile fuel td lc hpath]
      have hB : 0 < (s0.Initialize correlationID dsn token index
          sendLogs).s.postMessagesBatchSize := by
        show 0 < 20000
        decide
      have := sendLoop_terminates_within (s0.Initialize correlationID dsn token index
        sendLogs).s marshalErr transport
        ((s0.Initialize correlationID dsn token index sendLogs).s.prepareTelemetry readFile td)
        lc.Messages hB fuel 0 0
      rw [Nat.sub_zero] at this
      have hc := ceil_formula lc.Messages.length 20000 (by decide)
      have hc2 : ((20000 : ℕ) : ℚ) = (20000 : ℚ) := by norm_num
      rw [hc2] at hc
      rw [hc] at hfuel
      obtain ⟨r, hr, _⟩ := this hfuel
      exact ⟨r, hr⟩
  · rw [send_logPath s marshalErr transport readFile fuel2 td lc hpath]
    exact sendLoop_stuck s marshalErr transport _ lc.Messages hB 0
      (List.length_pos.mpr hne) hok fuel2 0

/-- Five messages in batches of two end within three runs of the loop body; the same
messages with batch size zero and an accepting collector do not end within a hundred. -/
theorem batching_terminates_witness :
    (∃ r, sampleSplunk.sendLoop encodable accepting
        (sampleSplunk.prepareTelemetry noFiles (sampleStep "1")) ["a", "b", "c", "d", "e"]
        3 0 0 = some r ∧ r.posts.length ≤ 3) ∧
    { sampleSplunk with postMessagesBatchSize := 0 }.Send encodable accepting noFiles 100
      (sampleStep "1") ⟨["a", "b", "c", "d", "e"]⟩ = none := by
  have h := batching_terminates sampleSplunk encodable encodablePipeline accepting noFiles 3
    (sampleStep "1") ⟨["a", "b", "c", "d", "e"]⟩ samplePipeline "l1"
  have h0 := batching_terminates { sampleSplunk with postMessagesBatchSize := 0 } encodable
    encodablePipeline accepting noFiles 3 (sampleStep "1") ⟨["a", "b", "c", "d", "e"]⟩
    samplePipeline "l1"
  have hc : ⌈(([("a" : String), "b", "c", "d", "e"].length : ℕ) : ℚ) /
      ((2 : ℕ) : ℚ)⌉₊ = 3 := by
    rw [ceil_formula _ _ (by decide)]
    rfl
  constructor
  · obtain ⟨r, hr, hlen⟩ := h.1 (by decide) (le_of_eq hc)
      (sampleSplunk.prepareTelemetry noFiles (sampleStep "1")) 0
    exact ⟨r, hr, le_trans hlen (le_of_eq hc)⟩
  · exact h0.2.2.2 rfl (by decide) (by decide) (fun _ => rfl) 100

end claims

end splunk

namespace splunk

section claims
variable {Msg PT : Type}

/-- C23, evaluated on the code: the receiver is initialised with a destination that is no
URL, so the client cannot build the request and hands back a response without status and
without body, together with its error. The transport error is not `nil`, and
`tryPostMessages` returns no error: the status is not 200, so line 312 reads the body, which
is nil, and the call panics. On the same input with a body in the response it returns the
transport error. -/
theorem tryPostMessages_panics_without_body :
    ((sampleSplunk.Initialize "build-7" "::not a url::" "0a1b2c" "main" true).s.tryPostMessagesRaw
        encodable unbuildable 0 (sampleSplunk.prepareTelemetry noFiles (sampleStep "1"))
        ["a"]).panics = true ∧
    (((sampleSplunk.Initialize "build-7" "::not a url::" "0a1b2c" "main" true).s.tryPostMessagesRaw
        encodable unbuildable 0 (sampleSplunk.prepareTelemetry noFiles (sampleStep "1"))
        ["a"]).value?.map (fun p => p.err)) = none ∧
    (((sampleSplunk.Initialize "build-7" "::not a url::" "0a1b2c" "main" true).s.tryPostMessagesRaw
        encodable
        (fun _ => (piperhttp.Result.response (sampleResponse 0 "" "")
          (some "error creating POST request to ::not a url::")).raw)
        0 (sampleSplunk.prepareTelemetry noFiles (sampleStep "1"))
        ["a"]).value?.map (fun p => p.err)) =
      some (some ": Splunk logging failed - : error creating POST request to ::not a url::") := by
  decide

/-- C24, evaluated on the code: the receiver is initialised with a destination that is no URL
and `sendLogs` false, so the client cannot build the telemetry request and hands back a
response without status and without body, together with its error. `postTelemetry` reads the
nil body at line 218 and panics, and `SendPipelineStatus` with it: it does not return `nil`,
it does not return. With `sendLogs` true it is the same. -/
theorem sendPipelineStatus_panics_without_body :
    ((sampleSplunk.Initialize "build-7" "::not a url::" "0a1b2c" "main" false).s.postTelemetryRaw
        encodablePipeline unbuildable 0 samplePipeline).panics = true ∧
    ((sampleSplunk.Initialize "build-7" "::not a url::" "0a1b2c" "main"
        false).s.SendPipelineStatusRaw encodablePipeline unbuildable 3 samplePipeline
        "l1\nl2\nl3").map (fun o => (o.panics, o.value?.map (fun r => r.err))) =
      some (true, none) ∧
    ((sampleSplunk.Initialize "build-7" "::not a url::" "0a1b2c" "main"
        true).s.SendPipelineStatusRaw encodablePipeline unbuildable 3 samplePipeline
        "l1\nl2\nl3").map (fun o => (o.panics, o.value?.map (fun r => r.err))) =
      some (true, none) := by
  decide

/-- C25: the batching of the lines in `SendPipelineStatus` loses nothing of the log. With
`sendLogs` true and a positive batch size it returns, and when every log-batch request
succeeded, the line lists of the requests, concatenated in order and joined with "\n", are
the raw log text. -/
theorem sendPipelineStatus_round_trip (s : Splunk) (marshalTelemetryErr : PT → Option String)
    (transport : Nat → piperhttp.Result) (fuel : Nat) (tel : PT) (logFile : String)
    (hflag : s.sendLogs = true) (hB : 0 < s.postMessagesBatchSize)
    (hfuel : (strings.Split logFile '\n').length ≤ fuel) :
    ∃ r, s.SendPipelineStatus marshalTelemetryErr transport fuel tel logFile = some r ∧
      ((∀ p ∈ logFilePosts r.posts, p.err = none) →
        (logMessages (logFilePosts r.posts)).flatten = strings.Split logFile '\n' ∧
        strings.Join (logMessages (logFilePosts r.posts)).flatten "\n" = logFile) := by
  obtain ⟨r, logs, hr, hlogs, _, hfilter, _⟩ := sendPipelineStatus_on_run s
    marshalTelemetryErr transport fuel tel logFile hflag hB hfuel
  refine ⟨r, hr, fun hall => ?_⟩
  rw [hfilter] at hall ⊢
  have hjoin := statusLoop_join s marshalTelemetryErr transport tel _ fuel 0 _ logs hlogs hall
  rw [List.drop_zero] at hjoin
  rw [hjoin]
  exact ⟨rfl, join_split logFile⟩

/-- A log of three lines that ends with a newline, in batches of two: the requests carry the
three lines and a last empty one, and joined they are the log. -/
theorem sendPipelineStatus_round_trip_witness :
    ∃ r, sampleSplunk.SendPipelineStatus encodablePipeline accepting 4 samplePipeline
        "l1\nl2\nl3\n" = some r ∧
      (logMessages (logFilePosts r.posts)).flatten = ["l1", "l2", "l3", ""] ∧
      strings.Join (logMessages (logFilePosts r.posts)).flatten "\n" = "l1\nl2\nl3\n" := by
  obtain ⟨r, hr, h⟩ := sendPipelineStatus_round_trip sampleSplunk encodablePipeline accepting 4
    samplePipeline "l1\nl2\nl3\n" (by decide) (by decide) (by decide)
  have hall : ∀ p ∈ logFilePosts r.posts, p.err = none := by
    have he : (sampleSplunk.SendPipelineStatus encodablePipeline accepting 4 samplePipeline
        "l1\nl2\nl3\n").map (fun r => (logFilePosts r.posts).all (fun p => p.err.isNone)) =
        some true := by decide
    rw [hr] at he
    simp only [Option.map_some', Option.some.injEq, List.all_eq_true,
      Option.isNone_iff_eq_none] at he
    exact he
  obtain ⟨h1, h2⟩ := h hall
  refine ⟨r, hr, ?_, h2⟩
  rw [h1]
  decide

end claims

end splunk
